import Mathlib

/-! AudioMoth-USB-Microphone-Cmd: `main.c`

A shallow embedding of the command-line tool's argument parser, settings
encoding, packet protocol and dispatcher, together with theorems about them.

Modelling conventions.

* A C string (`char *`) is the list of its bytes before the terminating NUL;
  a byte is a `Nat`.  Keyword literals are written with `cstr`.
* A `uintN_t` field is a `Nat` reduced `% 2^N` at every store.
* An `int` local is an `Int`; `/` and `%` on `int` are `Int.tdiv`/`Int.tmod`.
* `atoi` is only defined by the C standard for values that fit an `int`; the
  value it returns beyond that range is a parameter `ov` of the model.
-/

namespace AudioMoth

/-! ## Constants -/

def USB_SERIAL_NUMBER_OFFSET : Nat := 5
def USB_SERIAL_NUMBER_LENGTH : Nat := 16
def ARGUMENT_BUFFER_SIZE : Nat := 1024
def SERIAL_NUMBER_BUFFER_SIZE : Nat := 1024
def MAXIMUM_NUMBER_OF_DEVICES : Nat := 256
def NUMBER_OF_SAMPLE_RATES : Nat := 8
def FILTER_FREQ_MULTIPLIER : Int := 100
def MAXIMUM_FILTER_FREQUENCY : Int := 192000
def HID_CONFIGURATION_MESSAGE : Nat := 0x01
def HID_UPDATE_GAIN_MESSAGE : Nat := 0x02
def HID_SET_LED_MESSAGE : Nat := 0x03
def HID_RESTORE_MESSAGE : Nat := 0x04
def OKAY_RESPONSE : Nat := 0
def ERROR_RESPONSE : Nat := 1
def USB_PACKETSIZE : Nat := 64
def UINT16_MAX : Nat := 65535
def INT_MAX : Nat := 2147483647

/-- The bytes of a string literal, without the terminating NUL. -/
def cstr (s : String) : List Nat := s.toList.map Char.toNat

/-- The `filterType_t` enumeration. -/
inductive filterType_t where
  | NO_FILTER
  | LOW_PASS_FILTER
  | BAND_PASS_FILTER
  | HIGH_PASS_FILTER
  deriving DecidableEq, Repr

/-- The `operationType_t` enumeration. -/
inductive operationType_t where
  | NO_OP
  | LIST_OP
  | CONFIG_OP
  | UPDATE_GAIN_OP
  | SET_LED_OP
  | RESTORE_OP
  deriving DecidableEq, Repr

open filterType_t operationType_t

/-! ## Configuration value arrays -/

def validSampleRates : List Int := [8000, 16000, 32000, 48000, 96000, 192000, 250000, 384000]

def sampleRates : List Nat := [384000, 384000, 384000, 384000, 384000, 384000, 250000, 384000]

/-- The divider table (the source spells the word `DiAUDIOMOTH_USB_VIDer`). -/
def sampleRateDiAUDIOMOTH_USB_VIDers : List Nat := [48, 24, 12, 8, 4, 2, 1, 1]

/-! ## USB configuration data structure -/

/-- The struct `configSettings_t`; every field holds a value of its C type. -/
structure configSettings_t where
  time : Nat
  gain : Nat
  clockDiAUDIOMOTH_USB_VIDer : Nat
  acquisitionCycles : Nat
  oversampleRate : Nat
  sampleRate : Nat
  sampleRateDiAUDIOMOTH_USB_VIDer : Nat
  lowerFilterFreq : Nat
  higherFilterFreq : Nat
  enableEnergySaverMode : Bool
  disable48HzDCBlockingFilter : Bool
  enableLowGainRange : Bool
  disableLED : Bool
  deriving DecidableEq, Repr

def defaultConfigSettings : configSettings_t where
  time := 0
  gain := 2
  clockDiAUDIOMOTH_USB_VIDer := 4
  acquisitionCycles := 16
  oversampleRate := 1
  sampleRate := 384000
  sampleRateDiAUDIOMOTH_USB_VIDer := 1
  lowerFilterFreq := 0
  higherFilterFreq := 0
  enableEnergySaverMode := false
  disable48HzDCBlockingFilter := false
  enableLowGainRange := false
  disableLED := false

/-! ## Argument parsing functions -/

/-- The C library `toupper` in the "C" locale. -/
def toupper (c : Nat) : Nat := if 97 ≤ c ∧ c ≤ 122 then c - 32 else c

/-- The comparison `strncmp(a, b, n) == 0` on NUL-terminated strings. -/
def strncmpEq (a b : List Nat) (n : Nat) : Bool := a.take n == b.take n

/-- The function `parseArgument`: the first `ARGUMENT_BUFFER_SIZE` bytes of `text` are
upper-cased into the buffer, which is then compared with `pattern`. -/
def parseArgument (pattern text : List Nat) : Bool :=
  strncmpEq pattern ((text.take ARGUMENT_BUFFER_SIZE).map toupper) ARGUMENT_BUFFER_SIZE

def isDigit (c : Nat) : Bool := decide (48 ≤ c) && decide (c ≤ 57)

/-- Decimal value of a list of digit bytes, most significant first. -/
def digitsValue (ds : List Nat) : Nat := ds.foldl (fun acc d => 10 * acc + (d - 48)) 0

/-- The C library `atoi` on a text that starts with a digit or is empty: the value of the
leading run of digits when it fits an `int`; when it does not, the result is not defined by
the C standard and is `ov` of the run of digits. -/
def atoi (ov : List Nat → Int) (text : List Nat) : Int :=
  let v := digitsValue (text.takeWhile isDigit)
  if v ≤ INT_MAX then (v : Int) else ov (text.takeWhile isDigit)

/-- The function `parseNumber`: `none` is the result `false`; `some n` is the result `true`
with `n` stored through the `number` pointer. -/
def parseNumber (ov : List Nat → Int) (text : List Nat) : Option Int :=
  if (text.take ARGUMENT_BUFFER_SIZE).all isDigit then some (atoi ov text) else none

def isHexUpper (c : Nat) : Bool :=
  (decide (48 ≤ c) && decide (c ≤ 57)) || (decide (65 ≤ c) && decide (c ≤ 70))

/-- The loop of `parseSerialNumber` from index `i` on, `text` being the bytes from index `i`;
`fuel` is the number of iterations left, `acc` the bytes stored so far.  The result is the
final content of `serialNumber` on success. -/
def parseSerialNumberLoop : Nat → List Nat → List Nat → Option (List Nat)
  | 0, text, acc => if text.isEmpty then some acc else none
  | _ + 1, [], _ => none
  | fuel + 1, c :: text, acc =>
    if isHexUpper (toupper c) then parseSerialNumberLoop fuel text (acc ++ [toupper c]) else none

/-- The function `parseSerialNumber`: `some s` is the result `true` with `s` written to
`serialNumber`; `none` is the result `false` (the bytes stored before the failure stay in
the slot, which the caller does not count and the next call writes again). -/
def parseSerialNumber (text : List Nat) : Option (List Nat) :=
  parseSerialNumberLoop USB_SERIAL_NUMBER_LENGTH text []

/-- The search loop of `parseNumberAgainstList` from index `i` on. -/
def findIndexFrom (value : Int) : List Int → Nat → Option Nat
  | [], _ => none
  | v :: vs, i => if value = v then some i else findIndexFrom value vs (i + 1)

/-- The function `parseNumberAgainstList`: `some index` is the result `true`. -/
def parseNumberAgainstList (ov : List Nat → Int) (text : List Nat) (validNumbers : List Int) :
    Option Nat :=
  match parseNumber ov text with
  | none => none
  | some value => findIndexFrom value validNumbers 0

/-! ## Main function: argument parsing -/

/-- Conversion of an `int` to `uint16_t`. -/
def toUInt16 (x : Int) : Nat := (x % 65536).toNat

/-- Conversion of an `int` to `uint8_t`. -/
def toUInt8 (x : Int) : Nat := (x % 256).toNat

/-- The parse variables of `main` together with the global `defaultConfigSettings`.
`numberOfSerialNumbers` is the length of `parsedSerialNumbers`, whose entries are the
slots filled so far (the C table has `MAXIMUM_NUMBER_OF_DEVICES` slots and the code does
not test the counter against it). -/
structure ParseState where
  parseError : Bool
  operationType : operationType_t
  filterType : filterType_t
  parsedSerialNumbers : List (List Nat)
  settings : configSettings_t
  deriving DecidableEq, Repr

def ParseState.numberOfSerialNumbers (st : ParseState) : Nat := st.parsedSerialNumbers.length

/-- The state on entry to `main`. -/
def initialState : ParseState where
  parseError := false
  operationType := NO_OP
  filterType := NO_FILTER
  parsedSerialNumbers := []
  settings := defaultConfigSettings

/-- The test `value <= MAXIMUM_FILTER_FREQUENCY && value % FILTER_FREQ_MULTIPLIER == 0`
applied to the outcome of `parseNumber`. -/
def validFilterFreq (parsed : Option Int) : Bool :=
  match parsed with
  | none => false
  | some value =>
    decide (value ≤ MAXIMUM_FILTER_FREQUENCY) && decide (value.tmod FILTER_FREQ_MULTIPLIER = 0)

/-- Parsing of the first argument (`argv[1]`), and of the token after `LED`.  The result is
the state and the arguments left for the loop (from `argumentCounter + 1` on). -/
def parseFirst (argument : List Nat) (rest : List (List Nat)) : ParseState × List (List Nat) :=
  if parseArgument (cstr "LIST") argument then
    ({ initialState with operationType := LIST_OP }, rest)
  else if parseArgument (cstr "RESTORE") argument then
    ({ initialState with operationType := RESTORE_OP }, rest)
  else if parseArgument (cstr "CONFIG") argument then
    ({ initialState with operationType := CONFIG_OP }, rest)
  else if parseArgument (cstr "LED") argument then
    match rest with
    | [] => ({ initialState with operationType := SET_LED_OP, parseError := true }, [])
    | argument :: rest =>
      if parseArgument (cstr "TRUE") argument || parseArgument (cstr "ON") argument
          || parseArgument (cstr "1") argument then
        ({ initialState with
            operationType := SET_LED_OP
            settings := { initialState.settings with disableLED := false } }, rest)
      else if parseArgument (cstr "FALSE") argument || parseArgument (cstr "OFF") argument
          || parseArgument (cstr "0") argument then
        ({ initialState with
            operationType := SET_LED_OP
            settings := { initialState.settings with disableLED := true } }, rest)
      else
        ({ initialState with operationType := SET_LED_OP, parseError := true }, rest)
  else if parseArgument (cstr "UPDATE") argument then
    ({ initialState with operationType := UPDATE_GAIN_OP }, rest)
  else
    ({ initialState with parseError := true }, rest)

/-- The branch of a sample-rate token: `index` was stored by `parseNumberAgainstList`. -/
def setSampleRate (ov : List Nat → Int) (st : ParseState) (argument : List Nat) : ParseState :=
  let index := (parseNumberAgainstList ov argument validSampleRates).getD 0
  { st with
    settings :=
      { st.settings with
        sampleRate := sampleRates.getD index 0
        sampleRateDiAUDIOMOTH_USB_VIDer := sampleRateDiAUDIOMOTH_USB_VIDers.getD index 0 } }

/-- The branch of `GAIN`, from the argument that follows the keyword. -/
def gainValue (ov : List Nat → Int) (st : ParseState) (argument : List Nat) : ParseState :=
  match parseNumber ov argument with
  | some gain =>
    if decide (0 ≤ gain) && decide (gain ≤ 4) then
      { st with settings := { st.settings with gain := toUInt8 gain } }
    else { st with parseError := true }
  | none => { st with parseError := true }

/-- The branch of `LOWPASSFILTER`, from the argument that follows the keyword. -/
def lowPassValue (ov : List Nat → Int) (st : ParseState) (argument : List Nat) : ParseState :=
  let higherFilterFreq := parseNumber ov argument
  if validFilterFreq higherFilterFreq then
    { st with
      filterType := LOW_PASS_FILTER
      settings :=
        { st.settings with
          lowerFilterFreq := UINT16_MAX
          higherFilterFreq := toUInt16 ((higherFilterFreq.getD 0).tdiv FILTER_FREQ_MULTIPLIER) } }
  else { st with filterType := LOW_PASS_FILTER, parseError := true }

/-- The branch of `HIGHPASSFILTER`, from the argument that follows the keyword. -/
def highPassValue (ov : List Nat → Int) (st : ParseState) (argument : List Nat) : ParseState :=
  let lowerFilterFreq := parseNumber ov argument
  if validFilterFreq lowerFilterFreq then
    { st with
      filterType := HIGH_PASS_FILTER
      settings :=
        { st.settings with
          lowerFilterFreq := toUInt16 ((lowerFilterFreq.getD 0).tdiv FILTER_FREQ_MULTIPLIER)
          higherFilterFreq := UINT16_MAX } }
  else { st with filterType := HIGH_PASS_FILTER, parseError := true }

/-- The branch of `BANDPASSFILTER`, from the two arguments that follow the keyword.  When
the first is rejected `parseError` is set and the local `lowerFilterFreq` is left without a
value; the store that follows a valid second argument then reads it, here as 0. -/
def bandPassValues (ov : List Nat → Int) (st : ParseState) (argument1 argument2 : List Nat) :
    ParseState :=
  let lowerFilterFreq := parseNumber ov argument1
  let st1 : ParseState :=
    { st with filterType := BAND_PASS_FILTER, parseError := !(validFilterFreq lowerFilterFreq) }
  let higherFilterFreq := parseNumber ov argument2
  if validFilterFreq higherFilterFreq then
    { st1 with
      settings :=
        { st1.settings with
          lowerFilterFreq := toUInt16 ((lowerFilterFreq.getD 0).tdiv FILTER_FREQ_MULTIPLIER)
          higherFilterFreq := toUInt16 ((higherFilterFreq.getD 0).tdiv FILTER_FREQ_MULTIPLIER) } }
  else { st1 with parseError := true }

/-- The loop "Parsing additional arguments": the second argument is `argv` from
`argumentCounter` on.  A `break` returns the state at once; otherwise the loop goes on with
the arguments left, and stops when `parseError` is set or no argument is left. -/
def parseLoop (ov : List Nat → Int) : ParseState → List (List Nat) → ParseState
  | st, [] => st
  | st, argument :: rest =>
    if st.parseError then st
    else if (parseSerialNumber argument).isSome && decide (st.operationType ≠ LIST_OP) then
      parseLoop ov
        { st with parsedSerialNumbers :=
            st.parsedSerialNumbers ++ [(parseSerialNumber argument).getD []] } rest
    else if (parseNumberAgainstList ov argument validSampleRates).isSome
        && decide (st.operationType = CONFIG_OP) then
      parseLoop ov (setSampleRate ov st argument) rest
    else if (parseArgument (cstr "GAIN") argument || parseArgument (cstr "G") argument)
        && (decide (st.operationType = CONFIG_OP) || decide (st.operationType = UPDATE_GAIN_OP)) then
      match rest with
      | [] => { st with parseError := true }
      | argument :: rest => parseLoop ov (gainValue ov st argument) rest
    else if (parseArgument (cstr "LOWPASSFILTER") argument || parseArgument (cstr "LPF") argument)
        && decide (st.operationType = CONFIG_OP) && decide (st.filterType = NO_FILTER) then
      match rest with
      | [] => { st with filterType := LOW_PASS_FILTER, parseError := true }
      | argument :: rest => parseLoop ov (lowPassValue ov st argument) rest
    else if (parseArgument (cstr "HIGHPASSFILTER") argument || parseArgument (cstr "HPF") argument)
        && decide (st.operationType = CONFIG_OP) && decide (st.filterType = NO_FILTER) then
      match rest with
      | [] => { st with filterType := HIGH_PASS_FILTER, parseError := true }
      | argument :: rest => parseLoop ov (highPassValue ov st argument) rest
    else if (parseArgument (cstr "BANDPASSFILTER") argument || parseArgument (cstr "BPF") argument)
        && decide (st.operationType = CONFIG_OP) && decide (st.filterType = NO_FILTER) then
      match rest with
      | [] => { st with filterType := BAND_PASS_FILTER, parseError := true }
      | argument1 :: rest =>
        match rest with
        | [] => { st with filterType := BAND_PASS_FILTER, parseError := true }
        | argument2 :: rest => parseLoop ov (bandPassValues ov st argument1 argument2) rest
    else if (parseArgument (cstr "LOWGAINRANGE") argument || parseArgument (cstr "LGR") argument)
        && (decide (st.operationType = CONFIG_OP) || decide (st.operationType = UPDATE_GAIN_OP)) then
      parseLoop ov { st with settings := { st.settings with enableLowGainRange := true } } rest
    else if (parseArgument (cstr "ENERGYSAVERMODE") argument || parseArgument (cstr "ESM") argument)
        && decide (st.operationType = CONFIG_OP) then
      parseLoop ov { st with settings := { st.settings with enableEnergySaverMode := true } } rest
    else if (parseArgument (cstr "DISABLE48HZ") argument || parseArgument (cstr "D48") argument)
        && decide (st.operationType = CONFIG_OP) then
      parseLoop ov
        { st with settings := { st.settings with disable48HzDCBlockingFilter := true } } rest
    else parseLoop ov { st with parseError := true } rest

/-- One iteration of the loop of `parseLoop` in a state without `parseError`: the state
after it and the arguments left.  Used to reason about `parseLoop`, which it unfolds
(`parseLoop_cons`). -/
def parseStep (ov : List Nat → Int) (st : ParseState) (argument : List Nat)
    (rest : List (List Nat)) : ParseState × List (List Nat) :=
  if (parseSerialNumber argument).isSome && decide (st.operationType ≠ LIST_OP) then
    ({ st with parsedSerialNumbers :=
        st.parsedSerialNumbers ++ [(parseSerialNumber argument).getD []] }, rest)
  else if (parseNumberAgainstList ov argument validSampleRates).isSome
      && decide (st.operationType = CONFIG_OP) then
    (setSampleRate ov st argument, rest)
  else if (parseArgument (cstr "GAIN") argument || parseArgument (cstr "G") argument)
      && (decide (st.operationType = CONFIG_OP) || decide (st.operationType = UPDATE_GAIN_OP)) then
    match rest with
    | [] => ({ st with parseError := true }, [])
    | argument :: rest => (gainValue ov st argument, rest)
  else if (parseArgument (cstr "LOWPASSFILTER") argument || parseArgument (cstr "LPF") argument)
      && decide (st.operationType = CONFIG_OP) && decide (st.filterType = NO_FILTER) then
    match rest with
    | [] => ({ st with filterType := LOW_PASS_FILTER, parseError := true }, [])
    | argument :: rest => (lowPassValue ov st argument, rest)
  else if (parseArgument (cstr "HIGHPASSFILTER") argument || parseArgument (cstr "HPF") argument)
      && decide (st.operationType = CONFIG_OP) && decide (st.filterType = NO_FILTER) then
    match rest with
    | [] => ({ st with filterType := HIGH_PASS_FILTER, parseError := true }, [])
    | argument :: rest => (highPassValue ov st argument, rest)
  else if (parseArgument (cstr "BANDPASSFILTER") argument || parseArgument (cstr "BPF") argument)
      && decide (st.operationType = CONFIG_OP) && decide (st.filterType = NO_FILTER) then
    match rest with
    | [] => ({ st with filterType := BAND_PASS_FILTER, parseError := true }, [])
    | argument1 :: rest =>
      match rest with
      | [] => ({ st with filterType := BAND_PASS_FILTER, parseError := true }, [])
      | argument2 :: rest => (bandPassValues ov st argument1 argument2, rest)
  else if (parseArgument (cstr "LOWGAINRANGE") argument || parseArgument (cstr "LGR") argument)
      && (decide (st.operationType = CONFIG_OP) || decide (st.operationType = UPDATE_GAIN_OP)) then
    ({ st with settings := { st.settings with enableLowGainRange := true } }, rest)
  else if (parseArgument (cstr "ENERGYSAVERMODE") argument || parseArgument (cstr "ESM") argument)
      && decide (st.operationType = CONFIG_OP) then
    ({ st with settings := { st.settings with enableEnergySaverMode := true } }, rest)
  else if (parseArgument (cstr "DISABLE48HZ") argument || parseArgument (cstr "D48") argument)
      && decide (st.operationType = CONFIG_OP) then
    ({ st with settings := { st.settings with disable48HzDCBlockingFilter := true } }, rest)
  else ({ st with parseError := true }, rest)

/-- The whole of the argument parsing of `main`, for a non-empty argument list
(`argv[1]`, `argv[2]`, ...). -/
def parseArguments (ov : List Nat → Int) (argument : List Nat) (rest : List (List Nat)) :
    ParseState :=
  parseLoop ov (parseFirst argument rest).1 (parseFirst argument rest).2

/-! ## Convert wide char to char -/

/-- The loop of `convertToNarrow`.  `src` is the memory behind the `wchar_t` pointer, read
as 0 past its end; `dest` is the destination buffer, a store past its end being dropped.
`fuel` bounds the number of iterations.  The result is the final `i` and `dest`. -/
def convertToNarrowLoop (src : List Nat) (bufferLength : Int) :
    Nat → Nat → List Nat → Nat × List Nat
  | 0, i, dest => (i, dest)
  | fuel + 1, i, dest =>
    if src.getD i 0 ≠ 0 ∧ (i : Int) < bufferLength - 1 then
      let code := src.getD i 0
      if code < 128 then
        convertToNarrowLoop src bufferLength fuel (i + 1) (dest.set i code)
      else if 0xD800 ≤ code ∧ code ≤ 0xD8FF then
        convertToNarrowLoop src bufferLength fuel (i + 1 + 1) (dest.set i 63)
      else
        convertToNarrowLoop src bufferLength fuel (i + 1) (dest.set i 63)
    else (i, dest)

/-- The function `convertToNarrow`: the result is the returned flag and the content of
`dest` afterwards.  A NULL `src` is `none`. -/
def convertToNarrow (src : Option (List Nat)) (dest : List Nat) (bufferLength : Int) :
    Bool × List Nat :=
  match src with
  | none => (false, dest)
  | some src =>
    let r := convertToNarrowLoop src bufferLength bufferLength.toNat 0 dest
    (true, if bufferLength > 0 then r.2.set r.1 0 else r.2)

/-- The indices `i` of the stores `dest[i] = ...` made by the loop of `convertToNarrow`, in
order, with the final `i`; the recursion is that of `convertToNarrowLoop`. -/
def convertToNarrowStoresLoop (src : List Nat) (bufferLength : Int) :
    Nat → Nat → Nat × List Nat
  | 0, i => (i, [])
  | fuel + 1, i =>
    if src.getD i 0 ≠ 0 ∧ (i : Int) < bufferLength - 1 then
      let code := src.getD i 0
      if code < 128 then
        ((convertToNarrowStoresLoop src bufferLength fuel (i + 1)).1,
          i :: (convertToNarrowStoresLoop src bufferLength fuel (i + 1)).2)
      else if 0xD800 ≤ code ∧ code ≤ 0xD8FF then
        ((convertToNarrowStoresLoop src bufferLength fuel (i + 1 + 1)).1,
          i :: (convertToNarrowStoresLoop src bufferLength fuel (i + 1 + 1)).2)
      else
        ((convertToNarrowStoresLoop src bufferLength fuel (i + 1)).1,
          i :: (convertToNarrowStoresLoop src bufferLength fuel (i + 1)).2)
    else (i, [])

/-- The indices of all the stores into `dest` made by `convertToNarrow`, in order: those of
the loop, then that of the terminator `dest[i] = '\0'` when `bufferLength > 0`. -/
def convertToNarrowStores (src : Option (List Nat)) (bufferLength : Int) : List Nat :=
  match src with
  | none => []
  | some src =>
    let r := convertToNarrowStoresLoop src bufferLength bufferLength.toNat 0
    if bufferLength > 0 then r.2 ++ [r.1] else r.2

/-! ## Function to send command to USB device -/

def le16 (x : Nat) : List Nat := [x % 256, x / 256 % 256]

def le32 (x : Nat) : List Nat := [x % 256, x / 256 % 256, x / 65536 % 256, x / 16777216 % 256]

def bitOf (b : Bool) : Nat := if b then 1 else 0

/-- The bytes of a `configSettings_t` object: the struct is declared under
`#pragma pack(push, 1)`, so the fields follow one another in declaration order without
padding; multi-byte fields are little-endian and the four one-bit fields share one byte,
the first declared in bit 0 (the layout of the little-endian ABIs the tool is built for). -/
def configSettingsBytes (s : configSettings_t) : List Nat :=
  le32 s.time ++
  [s.gain % 256, s.clockDiAUDIOMOTH_USB_VIDer % 256, s.acquisitionCycles % 256,
    s.oversampleRate % 256] ++
  le32 s.sampleRate ++
  [s.sampleRateDiAUDIOMOTH_USB_VIDer % 256] ++
  le16 s.lowerFilterFreq ++
  le16 s.higherFilterFreq ++
  [bitOf s.enableEnergySaverMode + 2 * bitOf s.disable48HzDCBlockingFilter
    + 4 * bitOf s.enableLowGainRange + 8 * bitOf s.disableLED]

/-- The value `sizeof(configSettings_t)`: 4 + 1 + 1 + 1 + 1 + 4 + 1 + 2 + 2 + 1. -/
def sizeofConfigSettings : Nat := 18

/-- The call `memcpy(dest + offset, src, src.length)`. -/
def memcpy (dest : List Nat) (offset : Nat) (src : List Nat) : List Nat :=
  dest.take offset ++ src ++ dest.drop (offset + src.length)

/-- The content of `usbOutputBuffer` when `communicate` writes it to the device. -/
def usbOutputBuffer (operationType : operationType_t) (settings : configSettings_t) :
    List Nat :=
  let buffer := List.replicate USB_PACKETSIZE 0
  if operationType = CONFIG_OP then
    memcpy (buffer.set 1 HID_CONFIGURATION_MESSAGE) 2 (configSettingsBytes settings)
  else if operationType = UPDATE_GAIN_OP then
    memcpy (buffer.set 1 HID_UPDATE_GAIN_MESSAGE) 2 (configSettingsBytes settings)
  else if operationType = SET_LED_OP then
    memcpy (buffer.set 1 HID_SET_LED_MESSAGE) 2 (configSettingsBytes settings)
  else if operationType = RESTORE_OP then
    buffer.set 1 HID_RESTORE_MESSAGE
  else buffer

/-- The part "Check response length and contents" of `communicate`: `length` is the value
returned by `hid_read_timeout`. -/
def checkResponse (operationType : operationType_t) (output input : List Nat) (length : Int) :
    Bool :=
  if length ≠ (USB_PACKETSIZE : Int) then false
  else
    let lengthToCheck := if operationType = RESTORE_OP then 1 else 1 + sizeofConfigSettings
    (List.range lengthToCheck).all fun i => output.getD (i + 1) 0 == input.getD i 0

/-- One node of the list returned by `hid_enumerate`, with the answers of the HID library
for this device: whether `hid_open_path` opens it, what `hid_get_serial_number_string`
stores (`none`: it returns an error), and what `hid_read_timeout` reads after a packet was
written (`none`: it returns -1; `some r`: it returns `r.length` and stores `r`). -/
structure hid_device_info where
  path : Option (List Nat)
  serial_number : Option (List Nat)
  opens : Bool
  serialString : Option (List Nat)
  response : List Nat → Option (List Nat)

/-- What a run prints and sends, in order. -/
inductive Output where
  | version
  | couldNotParse
  | bandPassOrder
  | lowPassNyquist
  | highPassNyquist
  | bandPassLowerNyquist
  | bandPassHigherNyquist
  | repeatedDeviceID
  | noDevicesFound
  | listed (serial frequency : List Nat)
  | written (path packet : List Nat)
  | sent (operationString serial : List Nat)
  | problem (serial : List Nat)
  | couldNotFind (serial : List Nat)
  deriving DecidableEq, Repr

/-- The content of `usbInputBuffer` and the value of `length` after `hid_read_timeout`. -/
def readResponse (response : Option (List Nat)) : List Nat × Int :=
  match response with
  | none => (List.replicate USB_PACKETSIZE 0, -1)
  | some r => ((r ++ List.replicate USB_PACKETSIZE 0).take USB_PACKETSIZE, (r.length : Int))

/-- The function `communicate`: the returned flag, and the packet written if the device
opened. -/
def communicate (operationType : operationType_t) (settings : configSettings_t)
    (device : hid_device_info) (path : List Nat) : Bool × List Output :=
  if device.opens = false then (false, [])
  else
    let output := usbOutputBuffer operationType settings
    let r := readResponse (device.response output)
    (checkResponse operationType output r.1 r.2, [Output.written path output])

/-! ## Main function: validation and the requested action -/

/-- The value of `nyquistFrequency`. -/
def nyquistFrequency (settings : configSettings_t) : Nat :=
  settings.sampleRate / settings.sampleRateDiAUDIOMOTH_USB_VIDer / 100 / 2

/-- The part "Check filter values": the message of the first check that fails. -/
def checkFilterValues (filterType : filterType_t) (settings : configSettings_t) :
    Option Output :=
  if filterType = BAND_PASS_FILTER ∧ settings.lowerFilterFreq ≥ settings.higherFilterFreq then
    some Output.bandPassOrder
  else if filterType = LOW_PASS_FILTER ∧ settings.higherFilterFreq > nyquistFrequency settings then
    some Output.lowPassNyquist
  else if filterType = HIGH_PASS_FILTER ∧ settings.lowerFilterFreq > nyquistFrequency settings then
    some Output.highPassNyquist
  else if filterType = BAND_PASS_FILTER ∧ settings.lowerFilterFreq > nyquistFrequency settings then
    some Output.bandPassLowerNyquist
  else if filterType = BAND_PASS_FILTER ∧ settings.higherFilterFreq > nyquistFrequency settings then
    some Output.bandPassHigherNyquist
  else none

/-- The part "Check for repeated serial numbers": whether the double loop finds `i != j`
with equal entries. -/
def repeatedSerialNumber (parsedSerialNumbers : List (List Nat)) : Bool :=
  (List.range parsedSerialNumbers.length).any fun i =>
    (List.range parsedSerialNumbers.length).any fun j =>
      decide (i ≠ j) &&
        strncmpEq (parsedSerialNumbers.getD i []) (parsedSerialNumbers.getD j [])
          USB_SERIAL_NUMBER_LENGTH

/-- The C string held by a buffer: its bytes before the first NUL. -/
def cString (buffer : List Nat) : List Nat := buffer.takeWhile fun c => c != 0

/-- The call `strstr(buffer, "_")`: the offset of the first `_` of the string, `none` for
NULL. -/
def strstrUnderscore (buffer : List Nat) : Option Nat :=
  if (cString buffer).indexOf 95 < (cString buffer).length then
    some ((cString buffer).indexOf 95)
  else none

/-- The test `currentSerialNumberPtr == currentSerialNumber + USB_SERIAL_NUMBER_OFFSET &&
strlen(currentSerialNumberPtr) == USB_SERIAL_NUMBER_LENGTH`, `currentSerialNumberPtr` being
`strstr(currentSerialNumber, "_") + 1` (NULL + 1 is not an address of the buffer). -/
def hasSerialNumber (currentSerialNumber : List Nat) : Bool :=
  match strstrUnderscore currentSerialNumber with
  | none => false
  | some offset =>
    decide (offset + 1 = USB_SERIAL_NUMBER_OFFSET) &&
      decide (((cString currentSerialNumber).drop (offset + 1)).length = USB_SERIAL_NUMBER_LENGTH)

/-- The string at `currentSerialNumberPtr` when `hasSerialNumber` holds. -/
def serialNumberString (currentSerialNumber : List Nat) : List Nat :=
  (cString currentSerialNumber).drop USB_SERIAL_NUMBER_OFFSET

/-- The loop filling `frequencyString`: the bytes stored and the flag `digit`. -/
def frequencyStringLoop (currentSerialNumber : List Nat) :
    List Nat → List Nat × Bool → List Nat × Bool
  | [], acc => acc
  | i :: is, (frequencyString, digit) =>
    if digit || decide (currentSerialNumber.getD i 0 > 48) then
      frequencyStringLoop currentSerialNumber is
        (frequencyString ++ [currentSerialNumber.getD i 0], true)
    else frequencyStringLoop currentSerialNumber is (frequencyString, digit)

/-- The bytes stored in `frequencyString`, in order.  The array has 4 bytes: with fewer
than 4 bytes stored it holds a terminated string, which is the label printed; with 4 bytes
stored (first character above `'0'`) it holds no terminator and `printf` reads past it, so
that the label printed is not defined. -/
def frequencyString (currentSerialNumber : List Nat) : List Nat :=
  (frequencyStringLoop currentSerialNumber (List.range (USB_SERIAL_NUMBER_OFFSET - 1))
    ([], false)).1

/-- The serial number of a device is read into `currentSerialNumber`: from the descriptor
of the enumeration, and from the opened device if that is NULL.  The result is `success`
and the buffer. -/
def readSerialNumber (device : hid_device_info) (currentSerialNumber : List Nat) :
    Bool × List Nat :=
  let r := convertToNarrow device.serial_number currentSerialNumber SERIAL_NUMBER_BUFFER_SIZE
  if r.1 then r
  else if device.opens then
    match device.serialString with
    | some wide => convertToNarrow (some wide) r.2 SERIAL_NUMBER_BUFFER_SIZE
    | none => (false, r.2)
  else (false, r.2)

/-- The strings `operationStrings[operationType - 2]`. -/
def operationString (operationType : operationType_t) : List Nat :=
  match operationType with
  | CONFIG_OP => cstr "CONFIG"
  | UPDATE_GAIN_OP => cstr "UPDATE"
  | SET_LED_OP => cstr "LED"
  | RESTORE_OP => cstr "RESTORE"
  | _ => []

/-- The lines printed after `communicate` returned `completed`. -/
def report (operationType : operationType_t) (completed : Bool) (serial : List Nat) : Output :=
  if completed then Output.sent (operationString operationType) serial
  else Output.problem serial

/-- The loop "List enumerated AudioMoth USB Microphone": the buffer and what is printed.
The label of a line is the content of `frequencyString`, which is the label printed when
fewer than 4 bytes are stored in it. -/
def listDevices : List hid_device_info → List Nat → List Nat × List Output
  | [], buffer => (buffer, [])
  | device :: next, buffer =>
    match device.path with
    | none => listDevices next buffer
    | some _ =>
      let r := readSerialNumber device buffer
      let rest := listDevices next r.2
      if r.1 && hasSerialNumber r.2 then
        (rest.1, Output.listed (serialNumberString r.2) (frequencyString r.2) :: rest.2)
      else rest

/-- The loop "Send CONFIG, UPDATE, LED or RESTORE to all connected AudioMoth USB
Microphone". -/
def sendToAll (operationType : operationType_t) (settings : configSettings_t) :
    List hid_device_info → List Nat → List Nat × List Output
  | [], buffer => (buffer, [])
  | device :: next, buffer =>
    match device.path with
    | none => sendToAll operationType settings next buffer
    | some path =>
      let r := readSerialNumber device buffer
      let rest := sendToAll operationType settings next r.2
      if r.1 && hasSerialNumber r.2 then
        let c := communicate operationType settings device path
        (rest.1, c.2 ++ report operationType c.1 (serialNumberString r.2) :: rest.2)
      else rest

/-- The inner loop of "Send ... to AudioMoth USB Microphone specified by serial number":
the devices are scanned for one parsed serial number.  The result is the buffer, `found`
and the output. -/
def sendToSerial (operationType : operationType_t) (settings : configSettings_t)
    (serial : List Nat) : List hid_device_info → List Nat → Bool → List Nat × Bool × List Output
  | [], buffer, found => (buffer, found, [])
  | device :: next, buffer, found =>
    match device.path with
    | none => sendToSerial operationType settings serial next buffer found
    | some path =>
      let r := readSerialNumber device buffer
      if r.1 then
        let buffer := (convertToNarrow device.serial_number r.2 SERIAL_NUMBER_BUFFER_SIZE).2
        if hasSerialNumber buffer &&
            strncmpEq (serialNumberString buffer) serial USB_SERIAL_NUMBER_LENGTH then
          let c := communicate operationType settings device path
          let rest := sendToSerial operationType settings serial next buffer true
          (rest.1, rest.2.1,
            c.2 ++ report operationType c.1 (serialNumberString buffer) :: rest.2.2)
        else sendToSerial operationType settings serial next buffer found
      else sendToSerial operationType settings serial next r.2 found

/-- The outer loop over the parsed serial numbers.  The entries are those of the list of
the model; they are the entries that the C program reads when the list has at most
`MAXIMUM_NUMBER_OF_DEVICES` entries and every token was tested with an entry of the table
as destination (fewer than `MAXIMUM_NUMBER_OF_DEVICES` entries suffice); beyond that the C
program reads and writes outside the table. -/
def sendToSerials (operationType : operationType_t) (settings : configSettings_t)
    (devices : List hid_device_info) : List (List Nat) → List Nat → List Output
  | [], _ => []
  | serial :: serials, buffer =>
    let r := sendToSerial operationType settings serial devices buffer false
    r.2.2 ++ (if r.2.1 then [] else [Output.couldNotFind serial]) ++
      sendToSerials operationType settings devices serials r.1

/-- The part "Perform the requested action" of `main`; `currentSerialNumber` starts
zeroed. -/
def performAction (st : ParseState) (devices : List hid_device_info) : List Output :=
  let buffer := List.replicate SERIAL_NUMBER_BUFFER_SIZE 0
  if st.operationType = LIST_OP then (listDevices devices buffer).2
  else if devices.isEmpty then [Output.noDevicesFound]
  else if st.numberOfSerialNumbers = 0 then
    (sendToAll st.operationType st.settings devices buffer).2
  else sendToSerials st.operationType st.settings devices st.parsedSerialNumbers buffer

/-- The result of a run: the value returned by `main` and what was printed and sent. -/
structure RunResult where
  exitCode : Nat
  output : List Output
  deriving DecidableEq, Repr

/-- The function `main`: `arguments` is `argv[1]`, ..., `argv[argc - 1]` and `devices` the
list returned by `hid_enumerate`. -/
def main (ov : List Nat → Int) (arguments : List (List Nat)) (devices : List hid_device_info) :
    RunResult :=
  match arguments with
  | [] => ⟨OKAY_RESPONSE, [Output.version]⟩
  | argument :: rest =>
    let st := parseArguments ov argument rest
    if st.parseError then ⟨ERROR_RESPONSE, [Output.version, Output.couldNotParse]⟩
    else
      match checkFilterValues st.filterType st.settings with
      | some message => ⟨ERROR_RESPONSE, [Output.version, message]⟩
      | none =>
        if repeatedSerialNumber st.parsedSerialNumbers then
          ⟨ERROR_RESPONSE, [Output.version, Output.repeatedDeviceID]⟩
        else ⟨OKAY_RESPONSE, Output.version :: performAction st devices⟩

/-! ## Concrete inputs -/

/-- An `atoi` that returns 0 for a value that does not fit an `int`. -/
def atoiZero : List Nat → Int := fun _ => 0

/-- The `atoi` of a C library that computes `(int) strtol(text, NULL, 10)` with a 64-bit
`long`, as glibc does, for a value that does not fit an `int`: a value that does not fit a
`long` gives `LONG_MAX`, and the conversion to `int` keeps the low 32 bits. -/
def atoiWrap (digits : List Nat) : Int :=
  let value := min (digitsValue digits) (2 ^ 63 - 1)
  (((value + 2 ^ 31) % 2 ^ 32 : Nat) : Int) - 2 ^ 31

/-- A device with the given serial descriptor that opens and answers every packet with its
bytes from the second on, as the firmware does. -/
def echoDevice (serial : String) : hid_device_info where
  path := some (cstr "/dev/hidraw0")
  serial_number := some (cstr serial)
  opens := true
  serialString := none
  response := fun packet => some (packet.drop 1 ++ [0])

/-- A device with the given serial descriptor that opens and answers nothing before the
read times out. -/
def silentDevice (serial : String) : hid_device_info where
  path := some (cstr "/dev/hidraw1")
  serial_number := some (cstr serial)
  opens := true
  serialString := none
  response := fun _ => some []

/-- A device whose wide serial string is `038`, the code 0xD800, `X` and 16 characters: it
holds no `_`. -/
def strayDevice : hid_device_info where
  path := some (cstr "/dev/hidraw2")
  serial_number := some (cstr "038" ++ [0xD800] ++ cstr "X00000000000000AA")
  opens := true
  serialString := none
  response := fun packet => some (packet.drop 1 ++ [0])

/-- The serial token made of 13 digits `0` and the three decimal digits of `k`. -/
def decimalSerial (k : Nat) : List Nat :=
  List.replicate 13 48 ++ [48 + k / 100 % 10, 48 + k / 10 % 10, 48 + k % 10]

/-- The serial tokens of the numbers below `count`, in order. -/
def manySerials (count : Nat) : List (List Nat) := (List.range count).map decimalSerial

/-! ## Words of the grammar, used to state properties of the parser -/

/-- Whether a token is a filter keyword, in any letter case. -/
def isFilterKeyword (token : List Nat) : Bool :=
  parseArgument (cstr "LOWPASSFILTER") token || parseArgument (cstr "LPF") token ||
    parseArgument (cstr "HIGHPASSFILTER") token || parseArgument (cstr "HPF") token ||
    parseArgument (cstr "BANDPASSFILTER") token || parseArgument (cstr "BPF") token

/-- Whether a token is a sample-rate token: decimal digits, not 16 of them, with one of the
8 valid values. -/
def isSampleRateToken (token : List Nat) : Bool :=
  token.all isDigit && decide (token.length ≠ USB_SERIAL_NUMBER_LENGTH) &&
    decide ((digitsValue token : Int) ∈ validSampleRates)

/-- Whether a token is one of the flag keywords of CONFIG alone, in any letter case. -/
def isConfigFlagKeyword (token : List Nat) : Bool :=
  parseArgument (cstr "ENERGYSAVERMODE") token || parseArgument (cstr "ESM") token ||
    parseArgument (cstr "DISABLE48HZ") token || parseArgument (cstr "D48") token

/-- Whether a token belongs to the grammar of CONFIG alone: a sample-rate token, a filter
keyword, `ENERGYSAVERMODE`/`ESM` or `DISABLE48HZ`/`D48`. -/
def isConfigOnlyToken (token : List Nat) : Bool :=
  isSampleRateToken token || isFilterKeyword token || isConfigFlagKeyword token

/-! ## The dispatch, in the words of the specification -/

/-- The narrow character that `convertToNarrow` stores for a wide character outside the
range 0xD800..0xD8FF. -/
def narrowChar (code : Nat) : Nat := if code < 128 then code else 63

/-- The narrow string of a wide string: its characters before the terminator, at most
`SERIAL_NUMBER_BUFFER_SIZE - 1` of them, each made narrow. -/
def narrowString (src : List Nat) : List Nat :=
  ((src.takeWhile fun c => c != 0).take (SERIAL_NUMBER_BUFFER_SIZE - 1)).map narrowChar

/-- Whether a wide string holds no code of the range 0xD800..0xD8FF, for which
`convertToNarrow` skips a destination byte. -/
def isPlainWide (src : List Nat) : Bool :=
  src.all fun code => !(decide (0xD800 ≤ code) && decide (code ≤ 0xD8FF))

/-- Whether the wide serial strings of a device, that of the enumeration and that read
from the opened device, hold no code of the range 0xD800..0xD8FF before their terminator. -/
def plainDevice (device : hid_device_info) : Bool :=
  (match device.serial_number with
    | some wide => isPlainWide (wide.takeWhile fun c => c != 0)
    | none => true) &&
  (match device.serialString with
    | some wide => isPlainWide (wide.takeWhile fun c => c != 0)
    | none => true)

/-- The serial descriptor string of a device: the narrow string of the descriptor of the
enumeration, or of the one read from the opened device when the enumeration has none. -/
def descriptorOf (device : hid_device_info) : Option (List Nat) :=
  match device.serial_number with
  | some wide => some (narrowString wide)
  | none => if device.opens then device.serialString.map narrowString else none

/-- A conforming descriptor: its first `_` is at zero-based index 4 and 16 characters
follow it. -/
def conformingString (descriptor : List Nat) : Bool :=
  decide (descriptor.indexOf 95 = 4) && decide (descriptor.length = 21)

/-- A conforming device: it has a path and a conforming descriptor. -/
def conformingDevice (device : hid_device_info) : Bool :=
  device.path.isSome &&
    match descriptorOf device with
    | some descriptor => conformingString descriptor
    | none => false

/-- The normalized identifier of a device: its descriptor from offset 5 on. -/
def normalizedIdentifier (device : hid_device_info) : List Nat :=
  ((descriptorOf device).getD []).drop 5

/-- The frequency label of a descriptor: its first four characters without the leading
ones that are not above `'0'`. -/
def frequencyLabel (descriptor : List Nat) : List Nat :=
  (descriptor.take 4).dropWhile fun c => decide (c ≤ 48)

/-- The line of `LIST` for a device. -/
def listing (device : hid_device_info) : Output :=
  Output.listed (normalizedIdentifier device) (frequencyLabel ((descriptorOf device).getD []))

/-- The serial identifiers of the lines of `LIST` in an output, in order. -/
def listedSerials (output : List Output) : List (List Nat) :=
  output.filterMap fun o =>
    match o with
    | Output.listed serial _ => some serial
    | _ => none

/-- One exchange with a device: the call of `communicate` and the line that reports it. -/
def exchange (operationType : operationType_t) (settings : configSettings_t)
    (device : hid_device_info) : List Output :=
  match device.path with
  | none => []
  | some path =>
    (communicate operationType settings device path).2 ++
      [report operationType (communicate operationType settings device path).1
        (normalizedIdentifier device)]

/-- Whether a device is conforming with the given normalized identifier. -/
def matchesSerial (serial : List Nat) (device : hid_device_info) : Bool :=
  conformingDevice device && (normalizedIdentifier device == serial)

/-- What the specification asks for one requested identifier: one exchange with every
matching device, in enumeration order, and one not-found report if there is none. -/
def forSerial (operationType : operationType_t) (settings : configSettings_t)
    (devices : List hid_device_info) (serial : List Nat) : List Output :=
  (devices.filter (matchesSerial serial)).flatMap (exchange operationType settings) ++
    (if devices.any (matchesSerial serial) then [] else [Output.couldNotFind serial])

/-- The conformity test in the words of claim C14: the separator `_` is at zero-based
index 5 and the suffix after it has 16 characters. -/
def conformingAsClaimed (descriptor : List Nat) : Bool :=
  decide (descriptor.getD 5 0 = 95) && decide ((descriptor.drop 6).length = 16)

/-- The frequency label in the words of claim C20: the characters before the separator
without the leading ones that are not a non-zero digit. -/
def frequencyLabelAsClaimed (descriptor : List Nat) : List Nat :=
  (descriptor.take 4).dropWhile fun c => !(isDigit c && decide (c ≠ 48))

/-! ## Reasoning about the parse loop -/

theorem parseLoop_error (ov : List Nat → Int) (st : ParseState) (l : List (List Nat))
    (h : st.parseError = true) : parseLoop ov st l = st := by
  cases l with
  | nil => rfl
  | cons a l => rw [parseLoop.eq_def]; simp [h]

theorem ite_pair_step {α β : Type} (f : β → α) (c : Prop) [Decidable c] (a a' : α) (b b' : β)
    (h1 : c → a = f b) (h2 : ¬c → a' = f b') :
    (if c then a else a') = f (if c then b else b') := by
  split_ifs with h
  · exact h1 h
  · exact h2 h

theorem ite_elim {α : Type} (P : α → Prop) (c : Prop) [Decidable c] (a b : α)
    (h1 : c → P a) (h2 : ¬c → P b) : P (if c then a else b) := by
  split_ifs with h
  · exact h1 h
  · exact h2 h

theorem ite_rel {α β : Type} (R : α → β → Prop) (c : Prop) [Decidable c] (a b : α) (a' b' : β)
    (h1 : c → R a a') (h2 : ¬c → R b b') :
    R (if c then a else b) (if c then a' else b') := by
  split_ifs with h
  · exact h1 h
  · exact h2 h

/-- The loop of `parseLoop` unfolds to one `parseStep` followed by the loop. -/
theorem parseLoop_cons (ov : List Nat → Int) (st : ParseState) (argument : List Nat)
    (rest : List (List Nat)) (h : st.parseError = false) :
    parseLoop ov st (argument :: rest) =
      parseLoop ov (parseStep ov st argument rest).1 (parseStep ov st argument rest).2 := by
  conv_lhs => rw [parseLoop.eq_def]
  dsimp only
  rw [if_neg (by rw [h]; exact Bool.false_ne_true)]
  unfold parseStep
  refine ite_pair_step (fun p : ParseState × List (List Nat) => parseLoop ov p.1 p.2)
    _ _ _ _ _ (fun _ => rfl) (fun _ => ?_)
  refine ite_pair_step (fun p : ParseState × List (List Nat) => parseLoop ov p.1 p.2)
    _ _ _ _ _ (fun _ => rfl) (fun _ => ?_)
  refine ite_pair_step (fun p : ParseState × List (List Nat) => parseLoop ov p.1 p.2)
    _ _ _ _ _ (fun _ => ?_) (fun _ => ?_)
  · cases rest <;> rfl
  refine ite_pair_step (fun p : ParseState × List (List Nat) => parseLoop ov p.1 p.2)
    _ _ _ _ _ (fun _ => ?_) (fun _ => ?_)
  · cases rest <;> rfl
  refine ite_pair_step (fun p : ParseState × List (List Nat) => parseLoop ov p.1 p.2)
    _ _ _ _ _ (fun _ => ?_) (fun _ => ?_)
  · cases rest <;> rfl
  refine ite_pair_step (fun p : ParseState × List (List Nat) => parseLoop ov p.1 p.2)
    _ _ _ _ _ (fun _ => ?_) (fun _ => ?_)
  · cases rest with
    | nil => rfl
    | cons b rest => cases rest <;> rfl
  refine ite_pair_step (fun p : ParseState × List (List Nat) => parseLoop ov p.1 p.2)
    _ _ _ _ _ (fun _ => rfl) (fun _ => ?_)
  refine ite_pair_step (fun p : ParseState × List (List Nat) => parseLoop ov p.1 p.2)
    _ _ _ _ _ (fun _ => rfl) (fun _ => ?_)
  exact ite_pair_step (fun p : ParseState × List (List Nat) => parseLoop ov p.1 p.2)
    _ _ _ _ _ (fun _ => rfl) (fun _ => rfl)

/-- Case analysis on the branch taken by one iteration. -/
theorem parseStep_elim (ov : List Nat → Int) (st : ParseState) (argument : List Nat)
    (rest : List (List Nat)) (P : ParseState × List (List Nat) → Prop)
    (serial : (parseSerialNumber argument).isSome = true → st.operationType ≠ LIST_OP →
      P ({ st with parsedSerialNumbers :=
            st.parsedSerialNumbers ++ [(parseSerialNumber argument).getD []] }, rest))
    (rate : (parseNumberAgainstList ov argument validSampleRates).isSome = true →
      st.operationType = CONFIG_OP → P (setSampleRate ov st argument, rest))
    (gainBreak : (st.operationType = CONFIG_OP ∨ st.operationType = UPDATE_GAIN_OP) →
      rest = [] → P ({ st with parseError := true }, []))
    (gain : (st.operationType = CONFIG_OP ∨ st.operationType = UPDATE_GAIN_OP) →
      ∀ v r, rest = v :: r → P (gainValue ov st v, r))
    (lowBreak : st.operationType = CONFIG_OP → st.filterType = NO_FILTER → rest = [] →
      P ({ st with filterType := LOW_PASS_FILTER, parseError := true }, []))
    (low : st.operationType = CONFIG_OP → st.filterType = NO_FILTER →
      ∀ v r, rest = v :: r → P (lowPassValue ov st v, r))
    (highBreak : st.operationType = CONFIG_OP → st.filterType = NO_FILTER → rest = [] →
      P ({ st with filterType := HIGH_PASS_FILTER, parseError := true }, []))
    (high : st.operationType = CONFIG_OP → st.filterType = NO_FILTER →
      ∀ v r, rest = v :: r → P (highPassValue ov st v, r))
    (bandBreak : st.operationType = CONFIG_OP → st.filterType = NO_FILTER →
      rest.length < 2 → P ({ st with filterType := BAND_PASS_FILTER, parseError := true }, []))
    (band : st.operationType = CONFIG_OP → st.filterType = NO_FILTER →
      ∀ v w r, rest = v :: w :: r → P (bandPassValues ov st v w, r))
    (lowGain : (st.operationType = CONFIG_OP ∨ st.operationType = UPDATE_GAIN_OP) →
      P ({ st with settings := { st.settings with enableLowGainRange := true } }, rest))
    (energy : st.operationType = CONFIG_OP →
      P ({ st with settings := { st.settings with enableEnergySaverMode := true } }, rest))
    (dc : st.operationType = CONFIG_OP →
      P ({ st with settings := { st.settings with disable48HzDCBlockingFilter := true } }, rest))
    (unknown : P ({ st with parseError := true }, rest)) :
    P (parseStep ov st argument rest) := by
  unfold parseStep
  refine ite_elim P _ _ _ (fun h => ?_) (fun _ => ?_)
  · simp only [Bool.and_eq_true, decide_eq_true_eq] at h
    exact serial h.1 h.2
  refine ite_elim P _ _ _ (fun h => ?_) (fun _ => ?_)
  · simp only [Bool.and_eq_true, decide_eq_true_eq] at h
    exact rate h.1 h.2
  refine ite_elim P _ _ _ (fun h => ?_) (fun _ => ?_)
  · simp only [Bool.and_eq_true, Bool.or_eq_true, decide_eq_true_eq] at h
    cases rest with
    | nil => exact gainBreak h.2 rfl
    | cons v r => exact gain h.2 v r rfl
  refine ite_elim P _ _ _ (fun h => ?_) (fun _ => ?_)
  · simp only [Bool.and_eq_true, Bool.or_eq_true, decide_eq_true_eq] at h
    cases rest with
    | nil => exact lowBreak h.1.2 h.2 rfl
    | cons v r => exact low h.1.2 h.2 v r rfl
  refine ite_elim P _ _ _ (fun h => ?_) (fun _ => ?_)
  · simp only [Bool.and_eq_true, Bool.or_eq_true, decide_eq_true_eq] at h
    cases rest with
    | nil => exact highBreak h.1.2 h.2 rfl
    | cons v r => exact high h.1.2 h.2 v r rfl
  refine ite_elim P _ _ _ (fun h => ?_) (fun _ => ?_)
  · simp only [Bool.and_eq_true, Bool.or_eq_true, decide_eq_true_eq] at h
    cases rest with
    | nil => exact bandBreak h.1.2 h.2 (by simp)
    | cons v r =>
      cases r with
      | nil => exact bandBreak h.1.2 h.2 (by simp)
      | cons w r => exact band h.1.2 h.2 v w r rfl
  refine ite_elim P _ _ _ (fun h => ?_) (fun _ => ?_)
  · simp only [Bool.and_eq_true, Bool.or_eq_true, decide_eq_true_eq] at h
    exact lowGain h.2
  refine ite_elim P _ _ _ (fun h => ?_) (fun _ => ?_)
  · simp only [Bool.and_eq_true, Bool.or_eq_true, decide_eq_true_eq] at h
    exact energy h.2
  refine ite_elim P _ _ _ (fun h => ?_) (fun _ => ?_)
  · simp only [Bool.and_eq_true, Bool.or_eq_true, decide_eq_true_eq] at h
    exact dc h.2
  exact unknown

theorem parseStep_length (ov : List Nat → Int) (st : ParseState) (argument : List Nat)
    (rest : List (List Nat)) : (parseStep ov st argument rest).2.length ≤ rest.length := by
  apply parseStep_elim ov st argument rest (fun p => p.2.length ≤ rest.length)
  all_goals intros
  all_goals simp_all
  all_goals omega

/-- Induction along the iterations of the loop. -/
theorem parseLoop_induction (ov : List Nat → Int) (P : ParseState → List (List Nat) → Prop)
    (nil : ∀ st, P st [])
    (error : ∀ st argument rest, st.parseError = true → P st (argument :: rest))
    (step : ∀ st argument rest, st.parseError = false →
      P (parseStep ov st argument rest).1 (parseStep ov st argument rest).2 →
      P st (argument :: rest)) :
    ∀ st l, P st l := by
  suffices h : ∀ n (l : List (List Nat)), l.length ≤ n → ∀ st, P st l from
    fun st l => h l.length l (Nat.le_refl _) st
  intro n
  induction n with
  | zero =>
    intro l hl st
    cases l with
    | nil => exact nil st
    | cons a rest => simp at hl
  | succ n ih =>
    intro l hl st
    cases l with
    | nil => exact nil st
    | cons a rest =>
      cases he : st.parseError with
      | true => exact error st a rest he
      | false =>
        apply step st a rest he
        apply ih
        have := parseStep_length ov st a rest
        simp at hl
        omega

/-! ## The parsing functions -/

theorem parseArgument_iff (pattern text : List Nat) (h : pattern.length < ARGUMENT_BUFFER_SIZE) :
    parseArgument pattern text = true ↔ text.map toupper = pattern := by
  unfold parseArgument strncmpEq
  rw [beq_iff_eq, List.take_of_length_le (Nat.le_of_lt h),
    List.take_of_length_le (by simp)]
  constructor
  · intro hp
    have hlen : (List.take ARGUMENT_BUFFER_SIZE text).length < ARGUMENT_BUFFER_SIZE := by
      have := congrArg List.length hp
      simp only [List.length_map] at this
      omega
    have htl : text.length < ARGUMENT_BUFFER_SIZE := by
      rw [List.length_take] at hlen
      omega
    rw [List.take_of_length_le (Nat.le_of_lt htl)] at hp
    exact hp.symm
  · intro hp
    have htl : text.length < ARGUMENT_BUFFER_SIZE := by
      have := congrArg List.length hp
      simp only [List.length_map] at this
      omega
    rw [List.take_of_length_le (Nat.le_of_lt htl)]
    exact hp.symm

/-- With the upper-cased text known, `parseArgument` compares it with the pattern. -/
theorem parseArgument_of_upper (pattern text upper : List Nat) (hu : text.map toupper = upper)
    (h : pattern.length < ARGUMENT_BUFFER_SIZE) :
    parseArgument pattern text = decide (upper = pattern) := by
  rw [Bool.eq_iff_iff, parseArgument_iff pattern text h, hu]
  simp

theorem toupper_of_isDigit (c : Nat) (h : isDigit c = true) : toupper c = c := by
  unfold isDigit at h
  unfold toupper
  simp only [Bool.and_eq_true, decide_eq_true_eq] at h
  rw [if_neg (by omega)]

theorem isDigit_toupper (c : Nat) : isDigit (toupper c) = isDigit c := by
  unfold isDigit toupper
  split_ifs with h
  · rw [Bool.eq_iff_iff]
    simp only [Bool.and_eq_true, decide_eq_true_eq]
    omega
  · rfl

theorem parseSerialNumberLoop_some (fuel : Nat) (text acc s : List Nat)
    (h : parseSerialNumberLoop fuel text acc = some s) :
    text.length = fuel ∧ s = acc ++ text.map toupper ∧
      ∀ c ∈ text, isHexUpper (toupper c) = true := by
  induction fuel generalizing text acc with
  | zero =>
    unfold parseSerialNumberLoop at h
    cases text with
    | nil => simp at h; simp [h]
    | cons c t => simp at h
  | succ n ih =>
    cases text with
    | nil => simp [parseSerialNumberLoop] at h
    | cons c t =>
      rw [parseSerialNumberLoop] at h
      split_ifs at h with hc
      obtain ⟨h1, h2, h3⟩ := ih t (acc ++ [toupper c]) h
      refine ⟨by simp [h1], by simp [h2], ?_⟩
      intro d hd
      rcases List.mem_cons.1 hd with rfl | hd
      · exact hc
      · exact h3 d hd

theorem parseSerialNumberLoop_of_hex (fuel : Nat) (text acc : List Nat)
    (hlen : text.length = fuel) (hhex : ∀ c ∈ text, isHexUpper (toupper c) = true) :
    parseSerialNumberLoop fuel text acc = some (acc ++ text.map toupper) := by
  induction fuel generalizing text acc with
  | zero =>
    have : text = [] := List.length_eq_zero.1 hlen
    subst this
    simp [parseSerialNumberLoop]
  | succ n ih =>
    cases text with
    | nil => simp at hlen
    | cons c t =>
      rw [parseSerialNumberLoop, if_pos (hhex c (List.mem_cons_self c t)),
        ih t _ (by simpa using hlen) (fun d hd => hhex d (List.mem_cons_of_mem c hd))]
      simp

/-- The function `parseSerialNumber` accepts exactly the texts of 16 hexadecimal digits, in
either letter case, and stores the text in upper case. -/
theorem parseSerialNumber_eq_some (text s : List Nat) :
    parseSerialNumber text = some s ↔
      text.length = USB_SERIAL_NUMBER_LENGTH ∧ (∀ c ∈ text, isHexUpper (toupper c) = true) ∧
        s = text.map toupper := by
  unfold parseSerialNumber
  constructor
  · intro h
    obtain ⟨h1, h2, h3⟩ := parseSerialNumberLoop_some _ _ _ _ h
    exact ⟨h1, h3, by simpa using h2⟩
  · rintro ⟨h1, h2, h3⟩
    rw [parseSerialNumberLoop_of_hex _ _ _ h1 h2, h3]
    simp

theorem parseSerialNumber_none_of_length (text : List Nat)
    (h : text.length ≠ USB_SERIAL_NUMBER_LENGTH) : parseSerialNumber text = none := by
  cases hs : parseSerialNumber text with
  | none => rfl
  | some s => exact absurd ((parseSerialNumber_eq_some text s).1 hs).1 h

theorem takeWhile_of_all (p : Nat → Bool) (l : List Nat) (h : l.all p = true) :
    l.takeWhile p = l := by
  induction l with
  | nil => rfl
  | cons a l ih =>
    simp only [List.all_cons, Bool.and_eq_true] at h
    rw [List.takeWhile_cons, if_pos h.1, ih h.2]

theorem all_take (p : Nat → Bool) (l : List Nat) (n : Nat) (h : l.all p = true) :
    (l.take n).all p = true := by
  rw [List.all_eq_true] at h ⊢
  intro x hx
  exact h x (List.mem_of_mem_take hx)

/-- On a text of decimal digits whose value fits an `int`, `parseNumber` gives the value. -/
theorem parseNumber_digits (ov : List Nat → Int) (text : List Nat)
    (hd : text.all isDigit = true) (hv : digitsValue text ≤ INT_MAX) :
    parseNumber ov text = some (digitsValue text : Int) := by
  unfold parseNumber atoi
  rw [if_pos (all_take _ _ _ hd), takeWhile_of_all _ _ hd]
  simp only [hv, ↓reduceIte]

/-- A text whose first byte is not a decimal digit is not a number. -/
theorem parseNumber_none (ov : List Nat → Int) (c : Nat) (text : List Nat)
    (h : isDigit c = false) : parseNumber ov (c :: text) = none := by
  unfold parseNumber
  rw [if_neg]
  simp [ARGUMENT_BUFFER_SIZE, h]

/-- A text whose upper-cased form starts with a byte that is not a digit is not a number. -/
theorem parseNumber_none_of_upper (ov : List Nat → Int) (text : List Nat) (c : Nat)
    (upper : List Nat) (hu : text.map toupper = c :: upper) (hc : isDigit c = false) :
    parseNumber ov text = none := by
  cases text with
  | nil => simp at hu
  | cons a t =>
    simp only [List.map_cons, List.cons.injEq] at hu
    apply parseNumber_none
    rw [← isDigit_toupper, hu.1, hc]

/-! ## Validation -/

theorem repeatedSerialNumber_iff (l : List (List Nat)) :
    repeatedSerialNumber l = true ↔
      ∃ i j, i < l.length ∧ j < l.length ∧ i ≠ j ∧
        (l.getD i []).take USB_SERIAL_NUMBER_LENGTH = (l.getD j []).take USB_SERIAL_NUMBER_LENGTH := by
  unfold repeatedSerialNumber strncmpEq
  simp only [List.any_eq_true, List.mem_range, Bool.and_eq_true, decide_eq_true_eq, beq_iff_eq]
  constructor
  · rintro ⟨i, hi, j, hj, hne, h⟩
    exact ⟨i, j, hi, hj, hne, h⟩
  · rintro ⟨i, j, hi, hj, hne, h⟩
    exact ⟨i, hi, j, hj, hne, h⟩

theorem checkFilterValues_eq_none (filterType : filterType_t) (settings : configSettings_t) :
    checkFilterValues filterType settings = none ↔
      (filterType = BAND_PASS_FILTER → settings.lowerFilterFreq < settings.higherFilterFreq) ∧
      (filterType = LOW_PASS_FILTER →
        settings.higherFilterFreq ≤
          settings.sampleRate / settings.sampleRateDiAUDIOMOTH_USB_VIDer / 100 / 2) ∧
      (filterType = HIGH_PASS_FILTER →
        settings.lowerFilterFreq ≤
          settings.sampleRate / settings.sampleRateDiAUDIOMOTH_USB_VIDer / 100 / 2) ∧
      (filterType = BAND_PASS_FILTER →
        settings.lowerFilterFreq ≤
            settings.sampleRate / settings.sampleRateDiAUDIOMOTH_USB_VIDer / 100 / 2 ∧
          settings.higherFilterFreq ≤
            settings.sampleRate / settings.sampleRateDiAUDIOMOTH_USB_VIDer / 100 / 2) := by
  unfold checkFilterValues nyquistFrequency
  cases filterType <;> simp
  generalize settings.sampleRate / settings.sampleRateDiAUDIOMOTH_USB_VIDer / 100 / 2 = n
  split_ifs <;> simp <;> omega

theorem main_exitCode (ov : List Nat → Int) (argument : List Nat) (rest : List (List Nat))
    (devices : List hid_device_info) :
    (main ov (argument :: rest) devices).exitCode =
      if (parseArguments ov argument rest).parseError = true ∨
          checkFilterValues (parseArguments ov argument rest).filterType
            (parseArguments ov argument rest).settings ≠ none ∨
          repeatedSerialNumber (parseArguments ov argument rest).parsedSerialNumbers = true
      then 1 else 0 := by
  unfold main
  dsimp only
  cases hp : (parseArguments ov argument rest).parseError with
  | true => simp [ERROR_RESPONSE]
  | false =>
    cases hc : checkFilterValues (parseArguments ov argument rest).filterType
        (parseArguments ov argument rest).settings with
    | some m => simp [ERROR_RESPONSE]
    | none =>
      cases hr : repeatedSerialNumber (parseArguments ov argument rest).parsedSerialNumbers with
      | true => simp [ERROR_RESPONSE]
      | false => simp [OKAY_RESPONSE]

/-- A run that ends with an error prints one line after the version line and sends
nothing. -/
theorem main_output_of_error (ov : List Nat → Int) (arguments : List (List Nat))
    (devices : List hid_device_info) (h : (main ov arguments devices).exitCode = 1) :
    ∀ path packet, Output.written path packet ∉ (main ov arguments devices).output := by
  intro path packet
  unfold main at h ⊢
  cases arguments with
  | nil => simp
  | cons argument rest =>
    dsimp only at h ⊢
    cases hp : (parseArguments ov argument rest).parseError with
    | true => simp
    | false =>
      cases hc : checkFilterValues (parseArguments ov argument rest).filterType
          (parseArguments ov argument rest).settings with
      | some m =>
        simp only [Bool.false_eq_true, ↓reduceIte, List.mem_cons, List.mem_singleton, not_or]
        refine ⟨by simp, ?_, by simp⟩
        unfold checkFilterValues at hc
        intro hm
        rw [← hm] at hc
        split_ifs at hc <;> simp at hc
      | none =>
        cases hr : repeatedSerialNumber (parseArguments ov argument rest).parsedSerialNumbers with
        | true => simp
        | false => simp [hp, hc, hr, OKAY_RESPONSE] at h

theorem map_toupper_of_digits (text : List Nat) (h : text.all isDigit = true) :
    text.map toupper = text := by
  induction text with
  | nil => rfl
  | cons a t ih =>
    simp only [List.all_cons, Bool.and_eq_true] at h
    rw [List.map_cons, toupper_of_isDigit a h.1, ih h.2]

/-- A text of decimal digits matches no pattern that has another byte. -/
theorem parseArgument_digits (pattern text : List Nat) (hd : text.all isDigit = true)
    (hp : pattern.all isDigit = false) (hlen : pattern.length < ARGUMENT_BUFFER_SIZE) :
    parseArgument pattern text = false := by
  cases h : parseArgument pattern text with
  | false => rfl
  | true =>
    rw [parseArgument_iff pattern text hlen, map_toupper_of_digits text hd] at h
    rw [h, hp] at hd
    exact absurd hd (by decide)

theorem findIndexFrom_none (value : Int) (l : List Int) (i : Nat) (h : value ∉ l) :
    findIndexFrom value l i = none := by
  induction l generalizing i with
  | nil => rfl
  | cons v vs ih =>
    simp only [List.mem_cons, not_or] at h
    rw [findIndexFrom, if_neg h.1, ih _ h.2]

/-- A sample-rate token in a CONFIG run: the state after the iteration. -/
theorem parseStep_sampleRate (ov : List Nat → Int) (st : ParseState) (argument : List Nat)
    (rest : List (List Nat)) (index : Nat)
    (hserial : parseSerialNumber argument = none)
    (hindex : parseNumberAgainstList ov argument validSampleRates = some index)
    (hop : st.operationType = CONFIG_OP) :
    parseStep ov st argument rest =
      ({ st with
          settings :=
            { st.settings with
              sampleRate := sampleRates.getD index 0
              sampleRateDiAUDIOMOTH_USB_VIDer := sampleRateDiAUDIOMOTH_USB_VIDers.getD index 0 } },
        rest) := by
  unfold parseStep setSampleRate
  simp only [hserial, hindex, hop, Option.isSome_none, Option.isSome_some, Bool.false_and,
    Bool.true_and, decide_True, Bool.false_eq_true, ↓reduceIte, Option.getD_some]

/-- A token of decimal digits that is neither a serial number nor a valid sample rate. -/
theorem parseStep_number_unknown (ov : List Nat → Int) (st : ParseState) (argument : List Nat)
    (rest : List (List Nat)) (hd : argument.all isDigit = true)
    (hserial : parseSerialNumber argument = none)
    (hindex : parseNumberAgainstList ov argument validSampleRates = none) :
    parseStep ov st argument rest = ({ st with parseError := true }, rest) := by
  unfold parseStep
  simp only [hserial, hindex, Option.isSome_none, Bool.false_and, Bool.false_eq_true, ↓reduceIte,
    parseArgument_digits _ argument hd (by decide : (cstr "GAIN").all isDigit = false) (by decide),
    parseArgument_digits _ argument hd (by decide : (cstr "G").all isDigit = false) (by decide),
    parseArgument_digits _ argument hd (by decide : (cstr "LOWPASSFILTER").all isDigit = false)
      (by decide),
    parseArgument_digits _ argument hd (by decide : (cstr "LPF").all isDigit = false) (by decide),
    parseArgument_digits _ argument hd (by decide : (cstr "HIGHPASSFILTER").all isDigit = false)
      (by decide),
    parseArgument_digits _ argument hd (by decide : (cstr "HPF").all isDigit = false) (by decide),
    parseArgument_digits _ argument hd (by decide : (cstr "BANDPASSFILTER").all isDigit = false)
      (by decide),
    parseArgument_digits _ argument hd (by decide : (cstr "BPF").all isDigit = false) (by decide),
    parseArgument_digits _ argument hd (by decide : (cstr "LOWGAINRANGE").all isDigit = false)
      (by decide),
    parseArgument_digits _ argument hd (by decide : (cstr "LGR").all isDigit = false) (by decide),
    parseArgument_digits _ argument hd (by decide : (cstr "ENERGYSAVERMODE").all isDigit = false)
      (by decide),
    parseArgument_digits _ argument hd (by decide : (cstr "ESM").all isDigit = false) (by decide),
    parseArgument_digits _ argument hd (by decide : (cstr "DISABLE48HZ").all isDigit = false)
      (by decide),
    parseArgument_digits _ argument hd (by decide : (cstr "D48").all isDigit = false) (by decide),
    Bool.or_self]

/-- With the upper-cased text known and shorter than the buffer, `parseArgument` compares
it with the pattern. -/
theorem parseArgument_eq_decide (text upper : List Nat) (hu : text.map toupper = upper)
    (hlen : upper.length < ARGUMENT_BUFFER_SIZE) (pattern : List Nat) :
    parseArgument pattern text = decide (upper = pattern) := by
  have htl : text.length < ARGUMENT_BUFFER_SIZE := by
    have := congrArg List.length hu
    simp only [List.length_map] at this
    omega
  unfold parseArgument strncmpEq
  rw [List.take_of_length_le (Nat.le_of_lt htl), hu, List.take_of_length_le (Nat.le_of_lt hlen)]
  by_cases hp : pattern.length ≤ ARGUMENT_BUFFER_SIZE
  · rw [List.take_of_length_le hp, Bool.eq_iff_iff, beq_iff_eq, decide_eq_true_eq]
    exact ⟨fun h => h.symm, fun h => h.symm⟩
  · have h1 : (List.take ARGUMENT_BUFFER_SIZE pattern == upper) = false := by
      rw [beq_eq_false_iff_ne]
      intro h
      have := congrArg List.length h
      rw [List.length_take] at this
      omega
    have h2 : decide (upper = pattern) = false := by
      rw [decide_eq_false_iff_not]
      intro h
      have := congrArg List.length h
      omega
    rw [h1, h2]

/-- A keyword is neither a serial number nor a number. -/
theorem keyword_not_serial_not_number (ov : List Nat → Int) (text upper : List Nat)
    (validNumbers : List Int) (hu : text.map toupper = upper)
    (hlen : upper.length ≠ USB_SERIAL_NUMBER_LENGTH) (hd : (upper.head?.map isDigit) = some false) :
    parseSerialNumber text = none ∧ parseNumberAgainstList ov text validNumbers = none := by
  constructor
  · apply parseSerialNumber_none_of_length
    rw [← hu, List.length_map] at hlen
    exact hlen
  · unfold parseNumberAgainstList
    cases upper with
    | nil => simp at hd
    | cons c u =>
      simp only [List.head?_cons, Option.map_some', Option.some.injEq] at hd
      rw [parseNumber_none_of_upper ov text c u hu hd]

theorem parseStep_lowPass (ov : List Nat → Int) (st : ParseState) (argument value : List Nat)
    (rest : List (List Nat))
    (hkey : argument.map toupper = cstr "LOWPASSFILTER" ∨ argument.map toupper = cstr "LPF")
    (hop : st.operationType = CONFIG_OP) (hf : st.filterType = NO_FILTER) :
    parseStep ov st argument (value :: rest) = (lowPassValue ov st value, rest) := by
  rcases hkey with hu | hu
  all_goals
    obtain ⟨hs, hn⟩ := keyword_not_serial_not_number ov argument _ validSampleRates hu
      (by decide) (by decide)
    unfold parseStep
    rw [if_neg (by simp [hs]), if_neg (by simp [hn]),
      if_neg (by simp +decide [parseArgument_eq_decide argument _ hu (by decide)]),
      if_pos (by simp +decide [parseArgument_eq_decide argument _ hu (by decide), hop, hf])]

/-! ## Invariants of the parse loop -/

theorem parseStep_append (ov : List Nat → Int) (st : ParseState) (argument : List Nat)
    (rest suffix : List (List Nat)) :
    (parseStep ov st argument rest).1.parseError = true ∨
      parseStep ov st argument (rest ++ suffix) =
        ((parseStep ov st argument rest).1, (parseStep ov st argument rest).2 ++ suffix) := by
  unfold parseStep
  refine ite_rel (fun a b : ParseState × List (List Nat) =>
    a.1.parseError = true ∨ b = (a.1, a.2 ++ suffix)) _ _ _ _ _ (fun _ => Or.inr rfl) (fun _ => ?_)
  refine ite_rel (fun a b : ParseState × List (List Nat) =>
    a.1.parseError = true ∨ b = (a.1, a.2 ++ suffix)) _ _ _ _ _ (fun _ => Or.inr rfl) (fun _ => ?_)
  refine ite_rel (fun a b : ParseState × List (List Nat) =>
    a.1.parseError = true ∨ b = (a.1, a.2 ++ suffix)) _ _ _ _ _ (fun _ => ?_) (fun _ => ?_)
  · cases rest with
    | nil => exact Or.inl rfl
    | cons v r => exact Or.inr rfl
  refine ite_rel (fun a b : ParseState × List (List Nat) =>
    a.1.parseError = true ∨ b = (a.1, a.2 ++ suffix)) _ _ _ _ _ (fun _ => ?_) (fun _ => ?_)
  · cases rest with
    | nil => exact Or.inl rfl
    | cons v r => exact Or.inr rfl
  refine ite_rel (fun a b : ParseState × List (List Nat) =>
    a.1.parseError = true ∨ b = (a.1, a.2 ++ suffix)) _ _ _ _ _ (fun _ => ?_) (fun _ => ?_)
  · cases rest with
    | nil => exact Or.inl rfl
    | cons v r => exact Or.inr rfl
  refine ite_rel (fun a b : ParseState × List (List Nat) =>
    a.1.parseError = true ∨ b = (a.1, a.2 ++ suffix)) _ _ _ _ _ (fun _ => ?_) (fun _ => ?_)
  · cases rest with
    | nil => exact Or.inl rfl
    | cons v r =>
      cases r with
      | nil => exact Or.inl rfl
      | cons w r => exact Or.inr rfl
  refine ite_rel (fun a b : ParseState × List (List Nat) =>
    a.1.parseError = true ∨ b = (a.1, a.2 ++ suffix)) _ _ _ _ _ (fun _ => Or.inr rfl) (fun _ => ?_)
  refine ite_rel (fun a b : ParseState × List (List Nat) =>
    a.1.parseError = true ∨ b = (a.1, a.2 ++ suffix)) _ _ _ _ _ (fun _ => Or.inr rfl) (fun _ => ?_)
  exact ite_rel (fun a b : ParseState × List (List Nat) =>
    a.1.parseError = true ∨ b = (a.1, a.2 ++ suffix)) _ _ _ _ _ (fun _ => Or.inr rfl)
    (fun _ => Or.inr rfl)

/-- Arguments that were parsed without error are parsed in the same way when more
arguments follow them. -/
theorem parseLoop_append (ov : List Nat → Int) (suffix : List (List Nat)) :
    ∀ (st : ParseState) (l : List (List Nat)), (parseLoop ov st l).parseError = false →
      parseLoop ov st (l ++ suffix) = parseLoop ov (parseLoop ov st l) suffix := by
  apply parseLoop_induction ov
  · intro st _
    rfl
  · intro st a rest he h
    rw [parseLoop_error ov st _ he, he] at h
    exact absurd h (by decide)
  · intro st a rest he ih h
    rw [parseLoop_cons ov st a rest he] at h ⊢
    rw [List.cons_append, parseLoop_cons ov st a _ he]
    rcases parseStep_append ov st a rest suffix with hs | hs
    · rw [parseLoop_error ov _ _ hs, hs] at h
      exact absurd h (by decide)
    · rw [hs]
      exact ih h

theorem gainValue_frame (ov : List Nat → Int) (st : ParseState) (v : List Nat) :
    (gainValue ov st v).operationType = st.operationType ∧
    (gainValue ov st v).filterType = st.filterType ∧
    (gainValue ov st v).parsedSerialNumbers = st.parsedSerialNumbers ∧
    (gainValue ov st v).settings.lowerFilterFreq = st.settings.lowerFilterFreq ∧
    (gainValue ov st v).settings.higherFilterFreq = st.settings.higherFilterFreq ∧
    (gainValue ov st v).settings.disableLED = st.settings.disableLED := by
  unfold gainValue
  split
  · split <;> simp
  · simp

theorem lowPassValue_frame (ov : List Nat → Int) (st : ParseState) (v : List Nat) :
    (lowPassValue ov st v).operationType = st.operationType ∧
    (lowPassValue ov st v).parsedSerialNumbers = st.parsedSerialNumbers ∧
    (lowPassValue ov st v).settings.disableLED = st.settings.disableLED := by
  unfold lowPassValue
  dsimp only
  split <;> simp

theorem highPassValue_frame (ov : List Nat → Int) (st : ParseState) (v : List Nat) :
    (highPassValue ov st v).operationType = st.operationType ∧
    (highPassValue ov st v).parsedSerialNumbers = st.parsedSerialNumbers ∧
    (highPassValue ov st v).settings.disableLED = st.settings.disableLED := by
  unfold highPassValue
  dsimp only
  split <;> simp

theorem bandPassValues_frame (ov : List Nat → Int) (st : ParseState) (v w : List Nat) :
    (bandPassValues ov st v w).operationType = st.operationType ∧
    (bandPassValues ov st v w).parsedSerialNumbers = st.parsedSerialNumbers ∧
    (bandPassValues ov st v w).settings.disableLED = st.settings.disableLED := by
  unfold bandPassValues
  dsimp only
  split <;> simp

theorem parseStep_operationType (ov : List Nat → Int) (st : ParseState) (argument : List Nat)
    (rest : List (List Nat)) :
    (parseStep ov st argument rest).1.operationType = st.operationType := by
  apply parseStep_elim ov st argument rest (fun p => p.1.operationType = st.operationType)
  all_goals intros
  all_goals first
    | rfl
    | exact (gainValue_frame ov st _).1
    | exact (lowPassValue_frame ov st _).1
    | exact (highPassValue_frame ov st _).1
    | exact (bandPassValues_frame ov st _ _).1

theorem parseLoop_operationType (ov : List Nat → Int) :
    ∀ (st : ParseState) (l : List (List Nat)),
      (parseLoop ov st l).operationType = st.operationType := by
  apply parseLoop_induction ov
  · intro st
    rfl
  · intro st a rest he
    rw [parseLoop_error ov st _ he]
  · intro st a rest he ih
    rw [parseLoop_cons ov st a rest he, ih, parseStep_operationType]

theorem parseStep_disableLED (ov : List Nat → Int) (st : ParseState) (argument : List Nat)
    (rest : List (List Nat)) :
    (parseStep ov st argument rest).1.settings.disableLED = st.settings.disableLED := by
  apply parseStep_elim ov st argument rest
    (fun p => p.1.settings.disableLED = st.settings.disableLED)
  all_goals intros
  all_goals first
    | rfl
    | exact (gainValue_frame ov st _).2.2.2.2.2
    | exact (lowPassValue_frame ov st _).2.2
    | exact (highPassValue_frame ov st _).2.2
    | exact (bandPassValues_frame ov st _ _).2.2

/-- The loop never writes `disableLED`. -/
theorem parseLoop_disableLED (ov : List Nat → Int) :
    ∀ (st : ParseState) (l : List (List Nat)),
      (parseLoop ov st l).settings.disableLED = st.settings.disableLED := by
  apply parseLoop_induction ov
  · intro st
    rfl
  · intro st a rest he
    rw [parseLoop_error ov st _ he]
  · intro st a rest he ih
    rw [parseLoop_cons ov st a rest he, ih, parseStep_disableLED]

theorem parseStep_filter_frozen (ov : List Nat → Int) (st : ParseState) (argument : List Nat)
    (rest : List (List Nat)) (hf : st.filterType ≠ NO_FILTER) :
    (parseStep ov st argument rest).1.filterType = st.filterType ∧
    (parseStep ov st argument rest).1.settings.lowerFilterFreq = st.settings.lowerFilterFreq ∧
    (parseStep ov st argument rest).1.settings.higherFilterFreq = st.settings.higherFilterFreq := by
  apply parseStep_elim ov st argument rest (fun p =>
    p.1.filterType = st.filterType ∧
    p.1.settings.lowerFilterFreq = st.settings.lowerFilterFreq ∧
    p.1.settings.higherFilterFreq = st.settings.higherFilterFreq)
  case gain =>
    intro _ v r _
    exact ⟨(gainValue_frame ov st v).2.1, (gainValue_frame ov st v).2.2.2.1,
      (gainValue_frame ov st v).2.2.2.2.1⟩
  all_goals intros
  all_goals first
    | exact ⟨rfl, rfl, rfl⟩
    | contradiction

/-- Once a filter keyword was taken, the filter type and both bounds stay as they are. -/
theorem parseLoop_filter_frozen (ov : List Nat → Int) :
    ∀ (st : ParseState) (l : List (List Nat)), st.filterType ≠ NO_FILTER →
      (parseLoop ov st l).filterType = st.filterType ∧
      (parseLoop ov st l).settings.lowerFilterFreq = st.settings.lowerFilterFreq ∧
      (parseLoop ov st l).settings.higherFilterFreq = st.settings.higherFilterFreq := by
  apply parseLoop_induction ov
  · intro st _
    exact ⟨rfl, rfl, rfl⟩
  · intro st a rest he _
    rw [parseLoop_error ov st _ he]
    exact ⟨rfl, rfl, rfl⟩
  · intro st a rest he ih hf
    have hs := parseStep_filter_frozen ov st a rest hf
    have := ih (by rw [hs.1]; exact hf)
    rw [parseLoop_cons ov st a rest he, this.1, this.2.1, this.2.2]
    exact hs

/-! ## Single iterations on keywords and values -/

theorem parseStep_highPass (ov : List Nat → Int) (st : ParseState) (argument value : List Nat)
    (rest : List (List Nat))
    (hkey : argument.map toupper = cstr "HIGHPASSFILTER" ∨ argument.map toupper = cstr "HPF")
    (hop : st.operationType = CONFIG_OP) (hf : st.filterType = NO_FILTER) :
    parseStep ov st argument (value :: rest) = (highPassValue ov st value, rest) := by
  rcases hkey with hu | hu
  all_goals
    obtain ⟨hs, hn⟩ := keyword_not_serial_not_number ov argument _ validSampleRates hu
      (by decide) (by decide)
    unfold parseStep
    rw [if_neg (by simp [hs]), if_neg (by simp [hn]),
      if_neg (by simp +decide [parseArgument_eq_decide argument _ hu (by decide)]),
      if_neg (by simp +decide [parseArgument_eq_decide argument _ hu (by decide)]),
      if_pos (by simp +decide [parseArgument_eq_decide argument _ hu (by decide), hop, hf])]

theorem parseStep_bandPass (ov : List Nat → Int) (st : ParseState)
    (argument value1 value2 : List Nat) (rest : List (List Nat))
    (hkey : argument.map toupper = cstr "BANDPASSFILTER" ∨ argument.map toupper = cstr "BPF")
    (hop : st.operationType = CONFIG_OP) (hf : st.filterType = NO_FILTER) :
    parseStep ov st argument (value1 :: value2 :: rest) =
      (bandPassValues ov st value1 value2, rest) := by
  rcases hkey with hu | hu
  all_goals
    obtain ⟨hs, hn⟩ := keyword_not_serial_not_number ov argument _ validSampleRates hu
      (by decide) (by decide)
    unfold parseStep
    rw [if_neg (by simp [hs]), if_neg (by simp [hn]),
      if_neg (by simp +decide [parseArgument_eq_decide argument _ hu (by decide)]),
      if_neg (by simp +decide [parseArgument_eq_decide argument _ hu (by decide)]),
      if_neg (by simp +decide [parseArgument_eq_decide argument _ hu (by decide)]),
      if_pos (by simp +decide [parseArgument_eq_decide argument _ hu (by decide), hop, hf])]

theorem parseStep_serial (ov : List Nat → Int) (st : ParseState) (argument s : List Nat)
    (rest : List (List Nat)) (hs : parseSerialNumber argument = some s)
    (hop : st.operationType ≠ LIST_OP) :
    parseStep ov st argument rest =
      ({ st with parsedSerialNumbers := st.parsedSerialNumbers ++ [s] }, rest) := by
  unfold parseStep
  rw [if_pos (by simp [hs, hop])]
  simp [hs]

theorem validFilterFreq_natCast (v : Nat) :
    validFilterFreq (some (v : Int)) = (decide (v ≤ 192000) && decide (v % 100 = 0)) := by
  unfold validFilterFreq MAXIMUM_FILTER_FREQUENCY FILTER_FREQ_MULTIPLIER
  rw [Bool.eq_iff_iff]
  simp only [Bool.and_eq_true, decide_eq_true_eq]
  rw [Int.tmod_eq_emod (by omega) (by omega)]
  omega

theorem toUInt16_tdiv (v : Nat) (h : v ≤ 192000) :
    toUInt16 ((v : Int).tdiv FILTER_FREQ_MULTIPLIER) = v / 100 := by
  unfold toUInt16 FILTER_FREQ_MULTIPLIER
  rw [Int.tdiv_eq_ediv (by omega) (by omega)]
  omega

theorem parseFirst_config (first : List Nat) (rest : List (List Nat))
    (h : first.map toupper = cstr "CONFIG") :
    parseFirst first rest = ({ initialState with operationType := CONFIG_OP }, rest) := by
  unfold parseFirst
  rw [if_neg (by simp +decide [parseArgument_eq_decide first _ h (by decide)]),
    if_neg (by simp +decide [parseArgument_eq_decide first _ h (by decide)]),
    if_pos (by simp +decide [parseArgument_eq_decide first _ h (by decide)])]

/-! ## The table of parsed serial numbers -/

theorem parseStep_serials (ov : List Nat → Int) (st : ParseState) (argument : List Nat)
    (rest : List (List Nat)) :
    ∃ ext, (parseStep ov st argument rest).1.parsedSerialNumbers =
        st.parsedSerialNumbers ++ ext ∧
      ∀ s ∈ ext, s.length = USB_SERIAL_NUMBER_LENGTH := by
  apply parseStep_elim ov st argument rest (fun p =>
    ∃ ext, p.1.parsedSerialNumbers = st.parsedSerialNumbers ++ ext ∧
      ∀ s ∈ ext, s.length = USB_SERIAL_NUMBER_LENGTH)
  case serial =>
    intro hs _
    refine ⟨[(parseSerialNumber argument).getD []], rfl, ?_⟩
    intro s hmem
    rw [List.mem_singleton] at hmem
    obtain ⟨t, ht⟩ := Option.isSome_iff_exists.1 hs
    rw [ht, Option.getD_some] at hmem
    have := (parseSerialNumber_eq_some argument t).1 ht
    rw [hmem, this.2.2, List.length_map]
    exact this.1
  case gain =>
    intro _ v r _
    exact ⟨[], by simp [(gainValue_frame ov st v).2.2.1], by simp⟩
  case low =>
    intro _ _ v r _
    exact ⟨[], by simp [(lowPassValue_frame ov st v).2.1], by simp⟩
  case high =>
    intro _ _ v r _
    exact ⟨[], by simp [(highPassValue_frame ov st v).2.1], by simp⟩
  case band =>
    intro _ _ v w r _
    exact ⟨[], by simp [(bandPassValues_frame ov st v w).2.1], by simp⟩
  all_goals intros
  all_goals exact ⟨[], by simp [setSampleRate], by simp⟩

/-- The loop only appends to the table, and what it appends has 16 bytes. -/
theorem parseLoop_serials (ov : List Nat → Int) :
    ∀ (st : ParseState) (l : List (List Nat)),
      ∃ ext, (parseLoop ov st l).parsedSerialNumbers = st.parsedSerialNumbers ++ ext ∧
        ∀ s ∈ ext, s.length = USB_SERIAL_NUMBER_LENGTH := by
  apply parseLoop_induction ov
  · intro st
    exact ⟨[], by simp [parseLoop], by simp⟩
  · intro st a rest he
    rw [parseLoop_error ov st _ he]
    exact ⟨[], by simp, by simp⟩
  · intro st a rest he ih
    obtain ⟨e1, h1, h1'⟩ := parseStep_serials ov st a rest
    obtain ⟨e2, h2, h2'⟩ := ih
    rw [parseLoop_cons ov st a rest he]
    refine ⟨e1 ++ e2, by rw [h2, h1, List.append_assoc], ?_⟩
    intro s hs
    rcases List.mem_append.1 hs with h | h
    · exact h1' s h
    · exact h2' s h

theorem parseFirst_serials (first : List Nat) (rest : List (List Nat)) :
    (parseFirst first rest).1.parsedSerialNumbers = [] := by
  unfold parseFirst
  split_ifs
  · rfl
  · rfl
  · rfl
  · cases rest with
    | nil => rfl
    | cons b tail =>
      dsimp only
      split_ifs <;> rfl
  · rfl
  · rfl

/-- Every entry of the table has 16 bytes. -/
theorem parseArguments_serials_length (ov : List Nat → Int) (first : List Nat)
    (rest : List (List Nat)) :
    ∀ s ∈ (parseArguments ov first rest).parsedSerialNumbers,
      s.length = USB_SERIAL_NUMBER_LENGTH := by
  unfold parseArguments
  obtain ⟨ext, h, h'⟩ := parseLoop_serials ov (parseFirst first rest).1 (parseFirst first rest).2
  rw [h, parseFirst_serials, List.nil_append]
  exact h'

/-! ## Claims -/

theorem checkFilterValues_some (filterType : filterType_t) (settings : configSettings_t)
    (message : Output) (h : checkFilterValues filterType settings = some message) :
    message = Output.bandPassOrder ∨ message = Output.lowPassNyquist ∨
      message = Output.highPassNyquist ∨ message = Output.bandPassLowerNyquist ∨
      message = Output.bandPassHigherNyquist := by
  unfold checkFilterValues at h
  split_ifs at h
  all_goals simp only [Option.some.injEq] at h
  all_goals subst h
  all_goals simp

theorem main_of_filter_message (ov : List Nat → Int) (first : List Nat) (rest : List (List Nat))
    (devices : List hid_device_info) (message : Output)
    (hparse : (parseArguments ov first rest).parseError = false)
    (h : checkFilterValues (parseArguments ov first rest).filterType
      (parseArguments ov first rest).settings = some message) :
    main ov (first :: rest) devices = ⟨1, [Output.version, message]⟩ := by
  unfold main
  simp only [hparse, h, Bool.false_eq_true, ↓reduceIte, ERROR_RESPONSE]

/-- C1: for every argument list (a CONFIG list in particular) that is tokenized without a
parse error, the run passes the filter validation (it prints none of the five filter
messages) only if every active filter bound (`higherFilterFreq` for low-pass,
`lowerFilterFreq` for high-pass, both for band-pass) is at most
`sampleRate / sampleRateDivider / 100 / 2` of the final settings; when an active bound
exceeds it the run prints one of the filter messages, returns 1 and sends nothing. -/
theorem C1_nyquist_validation (ov : List Nat → Int) (argument : List Nat)
    (rest : List (List Nat)) (devices : List hid_device_info)
    (hparse : (parseArguments ov argument rest).parseError = false) :
    ((Output.bandPassOrder ∉ (main ov (argument :: rest) devices).output ∧
        Output.lowPassNyquist ∉ (main ov (argument :: rest) devices).output ∧
        Output.highPassNyquist ∉ (main ov (argument :: rest) devices).output ∧
        Output.bandPassLowerNyquist ∉ (main ov (argument :: rest) devices).output ∧
        Output.bandPassHigherNyquist ∉ (main ov (argument :: rest) devices).output) →
      ((parseArguments ov argument rest).filterType = LOW_PASS_FILTER →
        (parseArguments ov argument rest).settings.higherFilterFreq ≤
          (parseArguments ov argument rest).settings.sampleRate /
            (parseArguments ov argument rest).settings.sampleRateDiAUDIOMOTH_USB_VIDer / 100 / 2) ∧
      ((parseArguments ov argument rest).filterType = HIGH_PASS_FILTER →
        (parseArguments ov argument rest).settings.lowerFilterFreq ≤
          (parseArguments ov argument rest).settings.sampleRate /
            (parseArguments ov argument rest).settings.sampleRateDiAUDIOMOTH_USB_VIDer / 100 / 2) ∧
      ((parseArguments ov argument rest).filterType = BAND_PASS_FILTER →
        (parseArguments ov argument rest).settings.lowerFilterFreq ≤
            (parseArguments ov argument rest).settings.sampleRate /
              (parseArguments ov argument rest).settings.sampleRateDiAUDIOMOTH_USB_VIDer / 100 / 2 ∧
          (parseArguments ov argument rest).settings.higherFilterFreq ≤
            (parseArguments ov argument rest).settings.sampleRate /
              (parseArguments ov argument rest).settings.sampleRateDiAUDIOMOTH_USB_VIDer / 100 / 2)) ∧
    ((((parseArguments ov argument rest).filterType = LOW_PASS_FILTER ∧
          (parseArguments ov argument rest).settings.higherFilterFreq >
            (parseArguments ov argument rest).settings.sampleRate /
              (parseArguments ov argument rest).settings.sampleRateDiAUDIOMOTH_USB_VIDer / 100 / 2) ∨
        ((parseArguments ov argument rest).filterType = HIGH_PASS_FILTER ∧
          (parseArguments ov argument rest).settings.lowerFilterFreq >
            (parseArguments ov argument rest).settings.sampleRate /
              (parseArguments ov argument rest).settings.sampleRateDiAUDIOMOTH_USB_VIDer / 100 / 2) ∨
        ((parseArguments ov argument rest).filterType = BAND_PASS_FILTER ∧
          ((parseArguments ov argument rest).settings.lowerFilterFreq >
              (parseArguments ov argument rest).settings.sampleRate /
                (parseArguments ov argument rest).settings.sampleRateDiAUDIOMOTH_USB_VIDer / 100 / 2 ∨
            (parseArguments ov argument rest).settings.higherFilterFreq >
              (parseArguments ov argument rest).settings.sampleRate /
                (parseArguments ov argument rest).settings.sampleRateDiAUDIOMOTH_USB_VIDer / 100 / 2))) →
      (main ov (argument :: rest) devices).exitCode = 1 ∧
        (∀ path packet,
          Output.written path packet ∉ (main ov (argument :: rest) devices).output) ∧
        (main ov (argument :: rest) devices = ⟨1, [Output.version, Output.bandPassOrder]⟩ ∨
          main ov (argument :: rest) devices = ⟨1, [Output.version, Output.lowPassNyquist]⟩ ∨
          main ov (argument :: rest) devices = ⟨1, [Output.version, Output.highPassNyquist]⟩ ∨
          main ov (argument :: rest) devices =
            ⟨1, [Output.version, Output.bandPassLowerNyquist]⟩ ∨
          main ov (argument :: rest) devices =
            ⟨1, [Output.version, Output.bandPassHigherNyquist]⟩)) := by
  have hnone := checkFilterValues_eq_none (parseArguments ov argument rest).filterType
    (parseArguments ov argument rest).settings
  constructor
  · intro hmsg
    have hc : checkFilterValues (parseArguments ov argument rest).filterType
        (parseArguments ov argument rest).settings = none := by
      cases hcheck : checkFilterValues (parseArguments ov argument rest).filterType
          (parseArguments ov argument rest).settings with
      | none => rfl
      | some message =>
        exfalso
        have hmain := main_of_filter_message ov argument rest devices message hparse hcheck
        rw [hmain] at hmsg
        rcases checkFilterValues_some _ _ _ hcheck with h | h | h | h | h
        all_goals subst h
        all_goals simp at hmsg
    exact (hnone.1 hc).2
  · intro hex
    cases hcheck : checkFilterValues (parseArguments ov argument rest).filterType
        (parseArguments ov argument rest).settings with
    | none =>
      exfalso
      have := (hnone.1 hcheck).2
      rcases hex with ⟨hf, hgt⟩ | ⟨hf, hgt⟩ | ⟨hf, hgt⟩
      · have := this.1 hf
        omega
      · have := this.2.1 hf
        omega
      · have := this.2.2 hf
        omega
    | some message =>
      have hmain := main_of_filter_message ov argument rest devices message hparse hcheck
      have hexit : (main ov (argument :: rest) devices).exitCode = 1 := by rw [hmain]
      refine ⟨hexit, main_output_of_error ov _ devices hexit, ?_⟩
      rw [hmain]
      rcases checkFilterValues_some _ _ _ hcheck with h | h | h | h | h
      all_goals subst h
      all_goals simp

/-- C1, witness: `CONFIG 8000 LPF 20000` and `CONFIG LPF 20000 8000` are tokenized without
error, the low-pass bound 200 exceeds the Nyquist bound 40, and the run returns 1 with the
low-pass message. -/
theorem C1_nyquist_validation_witness :
    (parseArguments atoiZero (cstr "CONFIG") [cstr "8000", cstr "LPF", cstr "20000"]).parseError
        = false ∧
      (main atoiZero [cstr "CONFIG", cstr "8000", cstr "LPF", cstr "20000"]
          [echoDevice "0384_0123456789ABCDEF"]).exitCode = 1 ∧
      (parseArguments atoiZero (cstr "CONFIG")
        [cstr "8000", cstr "LPF", cstr "20000"]).settings.higherFilterFreq = 200 ∧
      nyquistFrequency (parseArguments atoiZero (cstr "CONFIG")
        [cstr "8000", cstr "LPF", cstr "20000"]).settings = 40 ∧
      main atoiZero [cstr "CONFIG", cstr "8000", cstr "LPF", cstr "20000"]
          [echoDevice "0384_0123456789ABCDEF"] =
        ⟨1, [Output.version, Output.lowPassNyquist]⟩ ∧
      main atoiZero [cstr "CONFIG", cstr "LPF", cstr "20000", cstr "8000"]
          [echoDevice "0384_0123456789ABCDEF"] =
        ⟨1, [Output.version, Output.lowPassNyquist]⟩ :=
  ⟨by decide,
    ((C1_nyquist_validation atoiZero (cstr "CONFIG") [cstr "8000", cstr "LPF", cstr "20000"]
      [echoDevice "0384_0123456789ABCDEF"] (by decide)).2 (Or.inl ⟨by decide, by decide⟩)).1,
    by decide, by decide, by decide, by decide⟩

theorem findIndexFrom_validSampleRates (value : Int) (index : Nat) (hi : index < 8)
    (hv : value = validSampleRates.getD index 0) :
    findIndexFrom value validSampleRates 0 = some index := by
  subst hv
  interval_cases index <;> rfl

theorem validSampleRates_le (index : Nat) (v : Nat)
    (hv : (v : Int) = validSampleRates.getD index 0) : v ≤ INT_MAX := by
  unfold INT_MAX
  by_cases hi : index < 8
  · interval_cases index <;> simp [validSampleRates] at hv <;> omega
  · rw [List.getD_eq_default _ _ (by simp [validSampleRates]; omega)] at hv
    omega

/-- C2, counterexample: the token `0000000000000123` is numeric, its value 123 is none of
the 8 sample rates, and `CONFIG 0000000000000123` is tokenized without a parse error: the
token is stored as a serial number and the run returns 0. -/
theorem C2_counterexample_sixteen_digits :
    (cstr "0000000000000123").all isDigit = true ∧
      parseNumber atoiZero (cstr "0000000000000123") = some 123 ∧
      (123 : Int) ∉ validSampleRates ∧
      (parseArguments atoiZero (cstr "CONFIG") [cstr "0000000000000123"]).parseError = false ∧
      (parseArguments atoiZero (cstr "CONFIG") [cstr "0000000000000123"]).parsedSerialNumbers =
        [cstr "0000000000000123"] ∧
      (main atoiZero [cstr "CONFIG", cstr "0000000000000123"] []).exitCode = 0 := by
  refine ⟨by decide, by decide, by decide, by decide, by decide, by decide⟩

/-- C2 (amended): the three tables pair 8000 with (384000, 48), 16000 with (384000, 24),
32000 with (384000, 12), 48000 with (384000, 8), 96000 with (384000, 4), 192000 with
(384000, 2), 250000 with (250000, 1) and 384000 with (384000, 1).  In a CONFIG run, a token
of decimal digits that is not 16 bytes long and stands where an option is expected (the
arguments `pre` before it are parsed without error) sets `sampleRate` and the divider to the
pair at the index of its value when the value is one of the 8, and is a parse error, with
result 1, when its value fits an `int` and is none of the 8. -/
theorem C2_sample_rate_table (ov : List Nat → Int) (first : List Nat)
    (pre : List (List Nat)) (argument : List Nat) (post : List (List Nat))
    (devices : List hid_device_info)
    (hfirst : first.map toupper = cstr "CONFIG")
    (hpre : (parseLoop ov (parseFirst first []).1 pre).parseError = false)
    (hd : argument.all isDigit = true) (hlen : argument.length ≠ 16) :
    List.zip validSampleRates (List.zip sampleRates sampleRateDiAUDIOMOTH_USB_VIDers) =
        [(8000, 384000, 48), (16000, 384000, 24), (32000, 384000, 12), (48000, 384000, 8),
          (96000, 384000, 4), (192000, 384000, 2), (250000, 250000, 1), (384000, 384000, 1)] ∧
      (∀ index, index < 8 → (digitsValue argument : Int) = validSampleRates.getD index 0 →
        parseArguments ov first (pre ++ argument :: post) =
          parseLoop ov
            { parseLoop ov (parseFirst first []).1 pre with
              settings :=
                { (parseLoop ov (parseFirst first []).1 pre).settings with
                  sampleRate := sampleRates.getD index 0
                  sampleRateDiAUDIOMOTH_USB_VIDer :=
                    sampleRateDiAUDIOMOTH_USB_VIDers.getD index 0 } }
            post) ∧
      (digitsValue argument ≤ INT_MAX → (digitsValue argument : Int) ∉ validSampleRates →
        (parseArguments ov first (pre ++ argument :: post)).parseError = true ∧
          main ov (first :: (pre ++ argument :: post)) devices =
            ⟨1, [Output.version, Output.couldNotParse]⟩) := by
  have hserial : parseSerialNumber argument = none := parseSerialNumber_none_of_length _ hlen
  have hcfg : ∀ rest, parseFirst first rest =
      ({ initialState with operationType := CONFIG_OP }, rest) :=
    fun rest => parseFirst_config first rest hfirst
  have hrun : parseArguments ov first (pre ++ argument :: post) =
      parseLoop ov (parseStep ov (parseLoop ov (parseFirst first []).1 pre) argument post).1
        (parseStep ov (parseLoop ov (parseFirst first []).1 pre) argument post).2 := by
    unfold parseArguments
    rw [hcfg] at hpre ⊢
    rw [hcfg]
    dsimp only
    rw [parseLoop_append ov _ _ _ hpre, parseLoop_cons ov _ _ _ hpre]
  have hop : (parseLoop ov (parseFirst first []).1 pre).operationType = CONFIG_OP := by
    rw [parseLoop_operationType, hcfg]
  refine ⟨by decide, ?_, ?_⟩
  · intro index hi hv
    have hindex : parseNumberAgainstList ov argument validSampleRates = some index := by
      unfold parseNumberAgainstList
      rw [parseNumber_digits ov argument hd (validSampleRates_le index _ hv)]
      exact findIndexFrom_validSampleRates _ index hi hv
    rw [hrun, parseStep_sampleRate ov _ argument post index hserial hindex hop]
  · intro hmax hnot
    have hindex : parseNumberAgainstList ov argument validSampleRates = none := by
      unfold parseNumberAgainstList
      rw [parseNumber_digits ov argument hd hmax]
      exact findIndexFrom_none _ _ _ hnot
    have herr : (parseArguments ov first (pre ++ argument :: post)).parseError = true := by
      rw [hrun, parseStep_number_unknown ov _ argument post hd hserial hindex,
        parseLoop_error ov _ _ rfl]
    refine ⟨herr, ?_⟩
    unfold main
    simp only [herr, ↓reduceIte, ERROR_RESPONSE]

/-- C2, witness: `CONFIG 8000` sets (384000, 48), `CONFIG LGR 250000 ESM` sets (250000, 1),
and `CONFIG 44100` is a parse error. -/
theorem C2_sample_rate_table_witness :
    ((parseArguments atoiZero (cstr "CONFIG") [cstr "8000"]).settings.sampleRate = 384000 ∧
      (parseArguments atoiZero (cstr "CONFIG")
        [cstr "8000"]).settings.sampleRateDiAUDIOMOTH_USB_VIDer = 48) ∧
    parseArguments atoiZero (cstr "config") ([cstr "LGR"] ++ cstr "250000" :: [cstr "ESM"]) =
      parseLoop atoiZero
        { parseLoop atoiZero (parseFirst (cstr "config") []).1 [cstr "LGR"] with
          settings :=
            { (parseLoop atoiZero (parseFirst (cstr "config") []).1 [cstr "LGR"]).settings with
              sampleRate := sampleRates.getD 6 0
              sampleRateDiAUDIOMOTH_USB_VIDer := sampleRateDiAUDIOMOTH_USB_VIDers.getD 6 0 } }
        [cstr "ESM"] ∧
    main atoiZero (cstr "CONFIG" :: ([] ++ cstr "44100" :: [])) [] =
      ⟨1, [Output.version, Output.couldNotParse]⟩ :=
  ⟨by decide,
    (C2_sample_rate_table atoiZero (cstr "config") [cstr "LGR"] (cstr "250000") [cstr "ESM"] []
      (by decide) (by decide) (by decide) (by decide)).2.1 6 (by decide) (by decide),
    ((C2_sample_rate_table atoiZero (cstr "CONFIG") [] (cstr "44100") [] []
      (by decide) (by decide) (by decide) (by decide)).2.2 (by decide) (by decide)).2⟩

/-- A CONFIG run is the loop on the arguments after `CONFIG`, and arguments parsed without
error can be split off. -/
theorem parseArguments_config (ov : List Nat → Int) (first : List Nat)
    (pre suffix : List (List Nat)) (hfirst : first.map toupper = cstr "CONFIG")
    (hpre : (parseLoop ov (parseFirst first []).1 pre).parseError = false) :
    parseArguments ov first (pre ++ suffix) =
        parseLoop ov (parseLoop ov (parseFirst first []).1 pre) suffix ∧
      (parseLoop ov (parseFirst first []).1 pre).operationType = CONFIG_OP := by
  unfold parseArguments
  rw [parseFirst_config first _ hfirst] at hpre ⊢
  rw [parseFirst_config first _ hfirst]
  dsimp only
  rw [parseLoop_append ov _ _ _ hpre, parseLoop_operationType]
  exact ⟨rfl, rfl⟩

theorem main_of_parseError (ov : List Nat → Int) (first : List Nat) (rest : List (List Nat))
    (devices : List hid_device_info) (h : (parseArguments ov first rest).parseError = true) :
    main ov (first :: rest) devices = ⟨1, [Output.version, Output.couldNotParse]⟩ := by
  unfold main
  simp only [h, ↓reduceIte, ERROR_RESPONSE]

theorem lowPassValue_digits (ov : List Nat → Int) (st : ParseState) (value : List Nat)
    (hd : value.all isDigit = true) (hint : digitsValue value ≤ INT_MAX) :
    lowPassValue ov st value =
      if digitsValue value ≤ 192000 ∧ digitsValue value % 100 = 0 then
        { st with
          filterType := LOW_PASS_FILTER
          settings :=
            { st.settings with
              lowerFilterFreq := 65535
              higherFilterFreq := digitsValue value / 100 } }
      else { st with filterType := LOW_PASS_FILTER, parseError := true } := by
  unfold lowPassValue
  rw [parseNumber_digits ov value hd hint]
  simp only [validFilterFreq_natCast, Option.getD_some, Bool.and_eq_true, decide_eq_true_eq]
  split_ifs with h
  · rw [toUInt16_tdiv _ h.1]
    rfl
  · rfl

theorem highPassValue_digits (ov : List Nat → Int) (st : ParseState) (value : List Nat)
    (hd : value.all isDigit = true) (hint : digitsValue value ≤ INT_MAX) :
    highPassValue ov st value =
      if digitsValue value ≤ 192000 ∧ digitsValue value % 100 = 0 then
        { st with
          filterType := HIGH_PASS_FILTER
          settings :=
            { st.settings with
              lowerFilterFreq := digitsValue value / 100
              higherFilterFreq := 65535 } }
      else { st with filterType := HIGH_PASS_FILTER, parseError := true } := by
  unfold highPassValue
  rw [parseNumber_digits ov value hd hint]
  simp only [validFilterFreq_natCast, Option.getD_some, Bool.and_eq_true, decide_eq_true_eq]
  split_ifs with h
  · rw [toUInt16_tdiv _ h.1]
    rfl
  · rfl

theorem bandPassValues_digits (ov : List Nat → Int) (st : ParseState) (low high : List Nat)
    (hdl : low.all isDigit = true) (hdh : high.all isDigit = true)
    (hvl : digitsValue low ≤ 192000) (hml : digitsValue low % 100 = 0)
    (hvh : digitsValue high ≤ 192000) (hmh : digitsValue high % 100 = 0)
    (herr : st.parseError = false) :
    bandPassValues ov st low high =
      { st with
        filterType := BAND_PASS_FILTER
        settings :=
          { st.settings with
            lowerFilterFreq := digitsValue low / 100
            higherFilterFreq := digitsValue high / 100 } } := by
  unfold bandPassValues
  rw [parseNumber_digits ov low hdl (by unfold INT_MAX; omega),
    parseNumber_digits ov high hdh (by unfold INT_MAX; omega)]
  simp only [validFilterFreq_natCast, Option.getD_some, hvl, hml, hvh, hmh, decide_True,
    Bool.and_self, Bool.not_true, ↓reduceIte, toUInt16_tdiv]
  rw [← herr]

/-- Single-sided filters, for values within the range of `int`: in a CONFIG run, where an
option is expected and no filter keyword was taken before
(the arguments `pre` are parsed without error and leave `filterType` at `NO_FILTER`), the
keyword `LPF`/`LOWPASSFILTER` (any letter case) followed by a decimal token of value `v`
with `v <= 192000` and `v % 100 = 0` stores `lowerFilterFreq = 0xFFFF` and
`higherFilterFreq = v / 100`, and `HPF`/`HIGHPASSFILTER` stores `lowerFilterFreq = v / 100`
and `higherFilterFreq = 0xFFFF`; both bounds and the filter type are those of the final
state, whatever follows.  A value (fitting an `int`) that is not a multiple of 100 or
exceeds 192000 is a parse error and the run returns 1. -/
theorem single_sided_filter_int (ov : List Nat → Int) (first : List Nat)
    (pre : List (List Nat)) (keyword value : List Nat) (post : List (List Nat))
    (devices : List hid_device_info)
    (hfirst : first.map toupper = cstr "CONFIG")
    (hpre : (parseLoop ov (parseFirst first []).1 pre).parseError = false)
    (hnofilter : (parseLoop ov (parseFirst first []).1 pre).filterType = NO_FILTER)
    (hd : value.all isDigit = true) (hint : digitsValue value ≤ INT_MAX) :
    ((keyword.map toupper = cstr "LOWPASSFILTER" ∨ keyword.map toupper = cstr "LPF") →
      ((digitsValue value ≤ 192000 ∧ digitsValue value % 100 = 0) →
        parseArguments ov first (pre ++ keyword :: value :: post) =
            parseLoop ov
              { parseLoop ov (parseFirst first []).1 pre with
                filterType := LOW_PASS_FILTER
                settings :=
                  { (parseLoop ov (parseFirst first []).1 pre).settings with
                    lowerFilterFreq := 0xFFFF
                    higherFilterFreq := digitsValue value / 100 } }
              post ∧
          (parseArguments ov first (pre ++ keyword :: value :: post)).filterType =
            LOW_PASS_FILTER ∧
          (parseArguments ov first (pre ++ keyword :: value :: post)).settings.lowerFilterFreq =
            0xFFFF ∧
          (parseArguments ov first (pre ++ keyword :: value :: post)).settings.higherFilterFreq =
            digitsValue value / 100) ∧
      (¬(digitsValue value ≤ 192000 ∧ digitsValue value % 100 = 0) →
        (parseArguments ov first (pre ++ keyword :: value :: post)).parseError = true ∧
          main ov (first :: (pre ++ keyword :: value :: post)) devices =
            ⟨1, [Output.version, Output.couldNotParse]⟩)) ∧
    ((keyword.map toupper = cstr "HIGHPASSFILTER" ∨ keyword.map toupper = cstr "HPF") →
      ((digitsValue value ≤ 192000 ∧ digitsValue value % 100 = 0) →
        parseArguments ov first (pre ++ keyword :: value :: post) =
            parseLoop ov
              { parseLoop ov (parseFirst first []).1 pre with
                filterType := HIGH_PASS_FILTER
                settings :=
                  { (parseLoop ov (parseFirst first []).1 pre).settings with
                    lowerFilterFreq := digitsValue value / 100
                    higherFilterFreq := 0xFFFF } }
              post ∧
          (parseArguments ov first (pre ++ keyword :: value :: post)).filterType =
            HIGH_PASS_FILTER ∧
          (parseArguments ov first (pre ++ keyword :: value :: post)).settings.lowerFilterFreq =
            digitsValue value / 100 ∧
          (parseArguments ov first (pre ++ keyword :: value :: post)).settings.higherFilterFreq =
            0xFFFF) ∧
      (¬(digitsValue value ≤ 192000 ∧ digitsValue value % 100 = 0) →
        (parseArguments ov first (pre ++ keyword :: value :: post)).parseError = true ∧
          main ov (first :: (pre ++ keyword :: value :: post)) devices =
            ⟨1, [Output.version, Output.couldNotParse]⟩)) := by
  obtain ⟨hrun, hop⟩ := parseArguments_config ov first pre (keyword :: value :: post) hfirst hpre
  rw [parseLoop_cons ov _ _ _ hpre] at hrun
  constructor
  · intro hkey
    rw [parseStep_lowPass ov _ keyword value post hkey hop hnofilter,
      lowPassValue_digits ov _ value hd hint] at hrun
    constructor
    · intro hv
      rw [if_pos hv] at hrun
      refine ⟨hrun, ?_⟩
      have := parseLoop_filter_frozen ov _ post
        (show ({ parseLoop ov (parseFirst first []).1 pre with
                filterType := LOW_PASS_FILTER
                settings :=
                  { (parseLoop ov (parseFirst first []).1 pre).settings with
                    lowerFilterFreq := 65535
                    higherFilterFreq := digitsValue value / 100 } } : ParseState).filterType
              ≠ NO_FILTER from by simp)
      rw [hrun]
      exact this
    · intro hv
      rw [if_neg hv, parseLoop_error ov _ _ rfl] at hrun
      have herr : (parseArguments ov first (pre ++ keyword :: value :: post)).parseError = true := by
        rw [hrun]
      exact ⟨herr, main_of_parseError ov first _ devices herr⟩
  · intro hkey
    rw [parseStep_highPass ov _ keyword value post hkey hop hnofilter,
      highPassValue_digits ov _ value hd hint] at hrun
    constructor
    · intro hv
      rw [if_pos hv] at hrun
      refine ⟨hrun, ?_⟩
      have := parseLoop_filter_frozen ov _ post
        (show ({ parseLoop ov (parseFirst first []).1 pre with
                filterType := HIGH_PASS_FILTER
                settings :=
                  { (parseLoop ov (parseFirst first []).1 pre).settings with
                    lowerFilterFreq := digitsValue value / 100
                    higherFilterFreq := 65535 } } : ParseState).filterType
              ≠ NO_FILTER from by simp)
      rw [hrun]
      exact this
    · intro hv
      rw [if_neg hv, parseLoop_error ov _ _ rfl] at hrun
      have herr : (parseArguments ov first (pre ++ keyword :: value :: post)).parseError = true := by
        rw [hrun]
      exact ⟨herr, main_of_parseError ov first _ devices herr⟩

/-- An instance: `CONFIG 384000 LPF 20000` gives `lowerFilterFreq = 0xFFFF` and
`higherFilterFreq = 200`; the Nyquist bound is 1920, the filter check passes and the run
returns 0.  `CONFIG HPF 20050` and `CONFIG HPF 192100` are parse errors. -/
theorem single_sided_filter_int_witness :
    ((parseArguments atoiZero (cstr "CONFIG")
          ([cstr "384000"] ++ cstr "LPF" :: cstr "20000" :: [])).filterType = LOW_PASS_FILTER ∧
      (parseArguments atoiZero (cstr "CONFIG")
          ([cstr "384000"] ++ cstr "LPF" :: cstr "20000" :: [])).settings.lowerFilterFreq
        = 0xFFFF ∧
      (parseArguments atoiZero (cstr "CONFIG")
          ([cstr "384000"] ++ cstr "LPF" :: cstr "20000" :: [])).settings.higherFilterFreq
        = digitsValue (cstr "20000") / 100) ∧
    digitsValue (cstr "20000") / 100 = 200 ∧
    nyquistFrequency (parseArguments atoiZero (cstr "CONFIG")
      [cstr "384000", cstr "LPF", cstr "20000"]).settings = 1920 ∧
    checkFilterValues LOW_PASS_FILTER (parseArguments atoiZero (cstr "CONFIG")
      [cstr "384000", cstr "LPF", cstr "20000"]).settings = none ∧
    (main atoiZero [cstr "CONFIG", cstr "384000", cstr "LPF", cstr "20000"]
      [echoDevice "0384_0123456789ABCDEF"]).exitCode = 0 ∧
    main atoiZero (cstr "CONFIG" :: ([] ++ cstr "hpf" :: cstr "20050" :: [])) [] =
      ⟨1, [Output.version, Output.couldNotParse]⟩ ∧
    main atoiZero (cstr "CONFIG" :: ([] ++ cstr "hpf" :: cstr "192100" :: [])) [] =
      ⟨1, [Output.version, Output.couldNotParse]⟩ :=
  ⟨(((single_sided_filter_int atoiZero (cstr "CONFIG") [cstr "384000"] (cstr "LPF")
      (cstr "20000") [] [] (by decide) (by decide) (by decide) (by decide) (by decide)).1
      (Or.inr (by decide))).1 ⟨by decide, by decide⟩).2,
    by decide, by decide, by decide, by decide,
    (((single_sided_filter_int atoiZero (cstr "CONFIG") [] (cstr "hpf")
      (cstr "20050") [] [] (by decide) (by decide) (by decide) (by decide) (by decide)).2
      (Or.inr (by decide))).2 (by decide)).2,
    (((single_sided_filter_int atoiZero (cstr "CONFIG") [] (cstr "hpf")
      (cstr "192100") [] [] (by decide) (by decide) (by decide) (by decide) (by decide)).2
      (Or.inr (by decide))).2 (by decide)).2⟩

/-- C3, the code at the failing input: the value 4294977296 (2^32 + 10000) exceeds 192000
and does not fit an `int`.  With the `atoi` of glibc (64-bit `long`) `parseNumber` stores
10000, so `CONFIG LPF 4294977296` is tokenized without a parse error, stores
`lowerFilterFreq = 0xFFFF` and `higherFilterFreq = 100`, passes the filter check, returns 0
and sends the packet of a 10 kHz low-pass filter.  `CONFIG HPF 4294967196` (2^32 - 100) is
tokenized without a parse error too, the value stored being -100. -/
theorem C3_filter_value_overflow :
    digitsValue (cstr "4294977296") = 4294977296 ∧
      parseNumber atoiWrap (cstr "4294977296") = some 10000 ∧
      (parseArguments atoiWrap (cstr "CONFIG") [cstr "LPF", cstr "4294977296"]).parseError =
        false ∧
      (parseArguments atoiWrap (cstr "CONFIG")
        [cstr "LPF", cstr "4294977296"]).settings.lowerFilterFreq = 0xFFFF ∧
      (parseArguments atoiWrap (cstr "CONFIG")
        [cstr "LPF", cstr "4294977296"]).settings.higherFilterFreq = 100 ∧
      main atoiWrap [cstr "CONFIG", cstr "LPF", cstr "4294977296"]
          [echoDevice "0384_0123456789ABCDEF"] =
        ⟨0, [Output.version,
          Output.written (cstr "/dev/hidraw0")
            ([0, 1, 0, 0, 0, 0, 2, 4, 16, 1, 0, 0xDC, 5, 0, 1, 0xFF, 0xFF, 100, 0, 0] ++
              List.replicate 44 0),
          Output.sent (cstr "CONFIG") (cstr "0123456789ABCDEF")]⟩ ∧
      parseNumber atoiWrap (cstr "4294967196") = some (-100) ∧
      (parseArguments atoiWrap (cstr "CONFIG") [cstr "HPF", cstr "4294967196"]).parseError =
        false := by
  refine ⟨by decide, by decide, by decide, by decide, by decide, by decide, by decide,
    by decide⟩

/-- C4: in a CONFIG run, where an option is expected and no filter keyword was taken before,
`BPF`/`BANDPASSFILTER` (any letter case) followed by decimal tokens of values `lo` and `hi`,
both multiples of 100 not above 192000, stores `lowerFilterFreq = lo / 100` and
`higherFilterFreq = hi / 100`, which are the bounds of the final state.  The run returns 1
and sends nothing whenever `lo / 100 >= hi / 100` (with the band-pass message when the
arguments are tokenized without error); with `lo < hi` and `hi / 100` at most the Nyquist
bound of the final settings the filter check passes. -/
theorem C4_band_pass_filter (ov : List Nat → Int) (first : List Nat)
    (pre : List (List Nat)) (keyword low high : List Nat) (post : List (List Nat))
    (devices : List hid_device_info)
    (hfirst : first.map toupper = cstr "CONFIG")
    (hpre : (parseLoop ov (parseFirst first []).1 pre).parseError = false)
    (hnofilter : (parseLoop ov (parseFirst first []).1 pre).filterType = NO_FILTER)
    (hkey : keyword.map toupper = cstr "BANDPASSFILTER" ∨ keyword.map toupper = cstr "BPF")
    (hdl : low.all isDigit = true) (hdh : high.all isDigit = true)
    (hvl : digitsValue low ≤ 192000) (hml : digitsValue low % 100 = 0)
    (hvh : digitsValue high ≤ 192000) (hmh : digitsValue high % 100 = 0) :
    (parseArguments ov first (pre ++ keyword :: low :: high :: post)).filterType =
        BAND_PASS_FILTER ∧
      (parseArguments ov first (pre ++ keyword :: low :: high :: post)).settings.lowerFilterFreq =
        digitsValue low / 100 ∧
      (parseArguments ov first (pre ++ keyword :: low :: high :: post)).settings.higherFilterFreq =
        digitsValue high / 100 ∧
      (digitsValue low / 100 ≥ digitsValue high / 100 →
        (main ov (first :: (pre ++ keyword :: low :: high :: post)) devices).exitCode = 1 ∧
          (∀ path packet, Output.written path packet ∉
            (main ov (first :: (pre ++ keyword :: low :: high :: post)) devices).output) ∧
          ((parseArguments ov first (pre ++ keyword :: low :: high :: post)).parseError = false →
            main ov (first :: (pre ++ keyword :: low :: high :: post)) devices =
              ⟨1, [Output.version, Output.bandPassOrder]⟩)) ∧
      (digitsValue low < digitsValue high →
        digitsValue high / 100 ≤
          (parseArguments ov first (pre ++ keyword :: low :: high :: post)).settings.sampleRate /
            (parseArguments ov first
              (pre ++ keyword :: low :: high :: post)).settings.sampleRateDiAUDIOMOTH_USB_VIDer
            / 100 / 2 →
        checkFilterValues
          (parseArguments ov first (pre ++ keyword :: low :: high :: post)).filterType
          (parseArguments ov first (pre ++ keyword :: low :: high :: post)).settings = none) := by
  obtain ⟨hrun, hop⟩ :=
    parseArguments_config ov first pre (keyword :: low :: high :: post) hfirst hpre
  rw [parseLoop_cons ov _ _ _ hpre, parseStep_bandPass ov _ keyword low high post hkey hop
    hnofilter, bandPassValues_digits ov _ low high hdl hdh hvl hml hvh hmh hpre] at hrun
  have hfrozen := parseLoop_filter_frozen ov _ post
    (show ({ parseLoop ov (parseFirst first []).1 pre with
            filterType := BAND_PASS_FILTER
            settings :=
              { (parseLoop ov (parseFirst first []).1 pre).settings with
                lowerFilterFreq := digitsValue low / 100
                higherFilterFreq := digitsValue high / 100 } } : ParseState).filterType
          ≠ NO_FILTER from by simp)
  rw [← hrun] at hfrozen
  dsimp only at hfrozen
  obtain ⟨hft, hlo, hhi⟩ := hfrozen
  refine ⟨hft, hlo, hhi, ?_, ?_⟩
  · intro hge
    have hcheck : checkFilterValues
        (parseArguments ov first (pre ++ keyword :: low :: high :: post)).filterType
        (parseArguments ov first (pre ++ keyword :: low :: high :: post)).settings =
        some Output.bandPassOrder := by
      unfold checkFilterValues
      rw [if_pos ⟨hft, by rw [hlo, hhi]; exact hge⟩]
    have hexit := main_exitCode ov first (pre ++ keyword :: low :: high :: post) devices
    rw [if_pos (Or.inr (Or.inl (by rw [hcheck]; simp)))] at hexit
    refine ⟨hexit, main_output_of_error ov _ devices hexit, ?_⟩
    intro hne
    unfold main
    simp only [hne, hcheck, Bool.false_eq_true, ↓reduceIte, ERROR_RESPONSE]
  · intro hlt hny
    rw [checkFilterValues_eq_none]
    rw [hft, hlo, hhi]
    refine ⟨fun _ => ?_, fun h => absurd h (by decide), fun h => absurd h (by decide),
      fun _ => ⟨?_, hny⟩⟩
    · omega
    · omega

/-- C4, witness: `CONFIG BPF 30000 20000` stores 300 and 200 and fails because
300 >= 200. -/
theorem C4_band_pass_filter_witness :
    (parseArguments atoiZero (cstr "CONFIG")
        ([] ++ cstr "BPF" :: cstr "30000" :: cstr "20000" :: [])).settings.lowerFilterFreq = 300 ∧
      (parseArguments atoiZero (cstr "CONFIG")
        ([] ++ cstr "BPF" :: cstr "30000" :: cstr "20000" :: [])).settings.higherFilterFreq = 200 ∧
      main atoiZero (cstr "CONFIG" :: ([] ++ cstr "BPF" :: cstr "30000" :: cstr "20000" :: []))
          [echoDevice "0384_0123456789ABCDEF"] =
        ⟨1, [Output.version, Output.bandPassOrder]⟩ ∧
      (main atoiZero [cstr "CONFIG", cstr "BPF", cstr "10000", cstr "20000"]
          [echoDevice "0384_0123456789ABCDEF"]).exitCode = 0 :=
  ⟨by decide, by decide,
    ((C4_band_pass_filter atoiZero (cstr "CONFIG") [] (cstr "BPF") (cstr "30000") (cstr "20000")
      [] [echoDevice "0384_0123456789ABCDEF"] (by decide) (by decide) (by decide)
      (Or.inr (by decide)) (by decide) (by decide) (by decide) (by decide) (by decide)
      (by decide)).2.2.2.1 (by decide)).2.2 (by decide),
    by decide⟩

theorem configSettingsBytes_length (settings : configSettings_t) :
    (configSettingsBytes settings).length = 18 := by
  simp [configSettingsBytes, le32, le16]

theorem usbOutputBuffer_length (operationType : operationType_t) (settings : configSettings_t) :
    (usbOutputBuffer operationType settings).length = 64 := by
  unfold usbOutputBuffer
  have h := configSettingsBytes_length settings
  split_ifs <;> simp [memcpy, USB_PACKETSIZE, h]

theorem readResponse_some (r : List Nat) :
    (readResponse (some r)).2 = (r.length : Int) ∧
      (r.length = 64 → (readResponse (some r)).1 = r) := by
  unfold readResponse
  refine ⟨rfl, fun h => ?_⟩
  dsimp only
  unfold USB_PACKETSIZE
  rw [List.take_append_of_le_length (by omega), List.take_of_length_le (by omega)]

theorem checkResponse_iff (operationType : operationType_t) (output input : List Nat)
    (length : Int) :
    checkResponse operationType output input length = true ↔
      length = 64 ∧
        ∀ i, i < (if operationType = RESTORE_OP then 1 else 1 + 18) →
          output.getD (i + 1) 0 = input.getD i 0 := by
  unfold checkResponse USB_PACKETSIZE sizeofConfigSettings
  by_cases hl : length = 64
  · subst hl
    simp only [Nat.cast_ofNat, ne_eq, not_true_eq_false, ↓reduceIte, List.all_eq_true,
      List.mem_range, beq_iff_eq, true_and]
  · have : length ≠ ((64 : Nat) : Int) := by simpa using hl
    simp [this, hl]

/-- C5: when the device opens and `hid_read_timeout` delivers a response `r` of `n` bytes
after the packet `s` was written, the exchange is reported successful iff `n = 64` and
`s[i + 1] = r[i]` for every `i < L`, with `L = 1` for Restore and `L = 1 + 18` otherwise;
a Restore exchange succeeds iff `n = 64` and `r[0]` is the Restore code 4; a failed read is
a communication failure. -/
theorem C5_exchange_success (operationType : operationType_t) (settings : configSettings_t)
    (device : hid_device_info) (path : List Nat) (hopen : device.opens = true) :
    (∀ r, device.response (usbOutputBuffer operationType settings) = some r →
      ((communicate operationType settings device path).1 = true ↔
        r.length = 64 ∧
          ∀ i, i < (if operationType = RESTORE_OP then 1 else 1 + 18) →
            (usbOutputBuffer operationType settings).getD (i + 1) 0 = r.getD i 0)) ∧
    (∀ r, operationType = RESTORE_OP →
      device.response (usbOutputBuffer operationType settings) = some r →
      ((communicate operationType settings device path).1 = true ↔
        r.length = 64 ∧ r.getD 0 0 = 4)) ∧
    (device.response (usbOutputBuffer operationType settings) = none →
      (communicate operationType settings device path).1 = false) := by
  have hmain : ∀ r, device.response (usbOutputBuffer operationType settings) = some r →
      ((communicate operationType settings device path).1 = true ↔
        r.length = 64 ∧
          ∀ i, i < (if operationType = RESTORE_OP then 1 else 1 + 18) →
            (usbOutputBuffer operationType settings).getD (i + 1) 0 = r.getD i 0) := by
    intro r hr
    unfold communicate
    rw [if_neg (by rw [hopen]; decide)]
    dsimp only
    rw [hr, checkResponse_iff, (readResponse_some r).1]
    constructor
    · rintro ⟨hlen, hall⟩
      have hlen' : r.length = 64 := by exact_mod_cast hlen
      rw [(readResponse_some r).2 hlen'] at hall
      exact ⟨hlen', hall⟩
    · rintro ⟨hlen, hall⟩
      rw [(readResponse_some r).2 hlen]
      exact ⟨by exact_mod_cast hlen, hall⟩
  refine ⟨hmain, ?_, ?_⟩
  · intro r hop hr
    rw [hmain r hr]
    subst hop
    simp only [↓reduceIte, Nat.lt_one_iff, forall_eq, zero_add]
    have : (usbOutputBuffer RESTORE_OP settings).getD 1 0 = 4 := by
      simp [usbOutputBuffer, USB_PACKETSIZE, HID_RESTORE_MESSAGE, List.replicate]
    rw [this]
    exact ⟨fun h => ⟨h.1, h.2.symm⟩, fun h => ⟨h.1, h.2.symm⟩⟩
  · intro hr
    unfold communicate
    rw [if_neg (by rw [hopen]; decide)]
    dsimp only
    rw [hr]
    unfold checkResponse readResponse
    simp

/-- C5, witness: a device that echoes the packet completes a CONFIG exchange, one that
answers nothing (a read of 0 bytes) does not. -/
theorem C5_exchange_success_witness :
    (communicate CONFIG_OP defaultConfigSettings (echoDevice "0384_0123456789ABCDEF")
        (cstr "/dev/hidraw0")).1 = true ∧
      (communicate CONFIG_OP defaultConfigSettings (silentDevice "0384_0123456789ABCDEF")
        (cstr "/dev/hidraw1")).1 = false :=
  ⟨((C5_exchange_success CONFIG_OP defaultConfigSettings (echoDevice "0384_0123456789ABCDEF")
      (cstr "/dev/hidraw0") rfl).1 _ rfl).2 ⟨by decide, by decide⟩,
    by decide⟩

/-- C6: the packet written for CONFIG, UPDATE and LED has 64 bytes: byte 0 is 0, byte 1 the
message code (1, 2, 3), bytes 2..19 the 18 bytes of the settings and bytes 20..63 are 0;
for RESTORE byte 1 is 4 and every other byte is 0. -/
theorem C6_packet_layout (settings : configSettings_t) :
    (configSettingsBytes settings).length = 18 ∧
      usbOutputBuffer CONFIG_OP settings =
        [0, 1] ++ configSettingsBytes settings ++ List.replicate 44 0 ∧
      usbOutputBuffer UPDATE_GAIN_OP settings =
        [0, 2] ++ configSettingsBytes settings ++ List.replicate 44 0 ∧
      usbOutputBuffer SET_LED_OP settings =
        [0, 3] ++ configSettingsBytes settings ++ List.replicate 44 0 ∧
      usbOutputBuffer RESTORE_OP settings = [0, 4] ++ List.replicate 62 0 ∧
      (∀ operationType, (usbOutputBuffer operationType settings).length = 64) := by
  refine ⟨configSettingsBytes_length settings, ?_, ?_, ?_, ?_,
    fun op => usbOutputBuffer_length op settings⟩
  · simp [usbOutputBuffer, memcpy, configSettingsBytes, le32, le16, USB_PACKETSIZE,
      HID_CONFIGURATION_MESSAGE, List.replicate]
  · simp [usbOutputBuffer, memcpy, configSettingsBytes, le32, le16, USB_PACKETSIZE,
      HID_UPDATE_GAIN_MESSAGE, List.replicate]
  · simp [usbOutputBuffer, memcpy, configSettingsBytes, le32, le16, USB_PACKETSIZE,
      HID_SET_LED_MESSAGE, List.replicate]
  · simp [usbOutputBuffer, USB_PACKETSIZE, HID_RESTORE_MESSAGE, List.replicate]

/-- C7: the settings are encoded in 18 bytes at fixed offsets, little-endian: `time` in
bytes 0..3, `gain` in 4, `clockDivider` in 5, `acquisitionCycles` in 6, `oversampleRate` in
7, `sampleRate` in 8..11, `sampleRateDivider` in 12, `lowerFilterFreq` in 13..14,
`higherFilterFreq` in 15..16, and in byte 17 the flags `energySaverMode` (bit 0),
`disable48HzDCBlockingFilter` (bit 1), `lowGainRange` (bit 2), `disableLED` (bit 3), with
bits 4..7 zero.  `CONFIG` with no options sends the default settings: the packet starts
00 01 | 00 00 00 00 | 02 | 04 | 10 | 01 | 00 DC 05 00 | 01 | 00 00 | 00 00 | 00 and is zero
afterwards. -/
theorem C7_settings_encoding (ov : List Nat → Int) (settings : configSettings_t) :
    (configSettingsBytes settings).length = 18 ∧
      (∀ i, i < 18 → (configSettingsBytes settings).getD i 0 < 256) ∧
      (configSettingsBytes settings).getD 0 0 + 256 * (configSettingsBytes settings).getD 1 0 +
          65536 * (configSettingsBytes settings).getD 2 0 +
          16777216 * (configSettingsBytes settings).getD 3 0 = settings.time % 4294967296 ∧
      (configSettingsBytes settings).getD 4 0 = settings.gain % 256 ∧
      (configSettingsBytes settings).getD 5 0 = settings.clockDiAUDIOMOTH_USB_VIDer % 256 ∧
      (configSettingsBytes settings).getD 6 0 = settings.acquisitionCycles % 256 ∧
      (configSettingsBytes settings).getD 7 0 = settings.oversampleRate % 256 ∧
      (configSettingsBytes settings).getD 8 0 + 256 * (configSettingsBytes settings).getD 9 0 +
          65536 * (configSettingsBytes settings).getD 10 0 +
          16777216 * (configSettingsBytes settings).getD 11 0 =
        settings.sampleRate % 4294967296 ∧
      (configSettingsBytes settings).getD 12 0 =
        settings.sampleRateDiAUDIOMOTH_USB_VIDer % 256 ∧
      (configSettingsBytes settings).getD 13 0 + 256 * (configSettingsBytes settings).getD 14 0 =
        settings.lowerFilterFreq % 65536 ∧
      (configSettingsBytes settings).getD 15 0 + 256 * (configSettingsBytes settings).getD 16 0 =
        settings.higherFilterFreq % 65536 ∧
      (((configSettingsBytes settings).getD 17 0 % 2 = 1) ↔
        settings.enableEnergySaverMode = true) ∧
      (((configSettingsBytes settings).getD 17 0 / 2 % 2 = 1) ↔
        settings.disable48HzDCBlockingFilter = true) ∧
      (((configSettingsBytes settings).getD 17 0 / 4 % 2 = 1) ↔
        settings.enableLowGainRange = true) ∧
      (((configSettingsBytes settings).getD 17 0 / 8 % 2 = 1) ↔ settings.disableLED = true) ∧
      (configSettingsBytes settings).getD 17 0 / 16 = 0 ∧
      (parseArguments ov (cstr "CONFIG") []).settings = defaultConfigSettings ∧
      usbOutputBuffer CONFIG_OP (parseArguments ov (cstr "CONFIG") []).settings =
        [0x00, 0x01, 0x00, 0x00, 0x00, 0x00, 0x02, 0x04, 0x10, 0x01, 0x00, 0xDC, 0x05, 0x00,
          0x01, 0x00, 0x00, 0x00, 0x00, 0x00] ++ List.replicate 44 0 ∧
      main ov [cstr "CONFIG"] [echoDevice "0384_0123456789ABCDEF"] =
        ⟨0, [Output.version,
          Output.written (cstr "/dev/hidraw0")
            ([0x00, 0x01, 0x00, 0x00, 0x00, 0x00, 0x02, 0x04, 0x10, 0x01, 0x00, 0xDC, 0x05, 0x00,
              0x01, 0x00, 0x00, 0x00, 0x00, 0x00] ++ List.replicate 44 0),
          Output.sent (cstr "CONFIG") (cstr "0123456789ABCDEF")]⟩ := by
  have hbytes : configSettingsBytes settings =
      [settings.time % 256, settings.time / 256 % 256, settings.time / 65536 % 256,
        settings.time / 16777216 % 256, settings.gain % 256,
        settings.clockDiAUDIOMOTH_USB_VIDer % 256, settings.acquisitionCycles % 256,
        settings.oversampleRate % 256, settings.sampleRate % 256,
        settings.sampleRate / 256 % 256, settings.sampleRate / 65536 % 256,
        settings.sampleRate / 16777216 % 256, settings.sampleRateDiAUDIOMOTH_USB_VIDer % 256,
        settings.lowerFilterFreq % 256, settings.lowerFilterFreq / 256 % 256,
        settings.higherFilterFreq % 256, settings.higherFilterFreq / 256 % 256,
        bitOf settings.enableEnergySaverMode + 2 * bitOf settings.disable48HzDCBlockingFilter +
          4 * bitOf settings.enableLowGainRange + 8 * bitOf settings.disableLED] := by
    simp [configSettingsBytes, le32, le16]
  have hbit : ∀ b : Bool, bitOf b ≤ 1 ∧ (bitOf b = 1 ↔ b = true) := by
    intro b
    cases b <;> simp [bitOf]
  have h1 := hbit settings.enableEnergySaverMode
  have h2 := hbit settings.disable48HzDCBlockingFilter
  have h3 := hbit settings.enableLowGainRange
  have h4 := hbit settings.disableLED
  have hmain : main ov [cstr "CONFIG"] [echoDevice "0384_0123456789ABCDEF"] =
      main atoiZero [cstr "CONFIG"] [echoDevice "0384_0123456789ABCDEF"] := rfl
  have hparse : parseArguments ov (cstr "CONFIG") [] = parseArguments atoiZero (cstr "CONFIG") [] :=
    rfl
  refine ⟨configSettingsBytes_length settings, ?_, ?_, ?_, ?_, ?_, ?_, ?_, ?_, ?_, ?_, ?_, ?_, ?_,
    ?_, ?_, ?_, ?_, ?_⟩
  · intro i hi
    rw [hbytes]
    interval_cases i <;> simp only [List.getD_cons_zero, List.getD_cons_succ] <;> omega
  all_goals try (rw [hbytes]; simp only [List.getD_cons_zero, List.getD_cons_succ]; done)
  all_goals try (rw [hbytes]; simp only [List.getD_cons_zero, List.getD_cons_succ]; omega)
  · rw [hbytes]; simp only [List.getD_cons_zero, List.getD_cons_succ]; rw [← h1.2]; omega
  · rw [hbytes]; simp only [List.getD_cons_zero, List.getD_cons_succ]; rw [← h2.2]; omega
  · rw [hbytes]; simp only [List.getD_cons_zero, List.getD_cons_succ]; rw [← h3.2]; omega
  · rw [hbytes]; simp only [List.getD_cons_zero, List.getD_cons_succ]; rw [← h4.2]; omega
  · rw [hparse]; decide
  · rw [hparse]; decide
  · rw [hmain]; decide

theorem repeatedSerialNumber_iff_eq (l : List (List Nat))
    (hlen : ∀ s ∈ l, s.length = USB_SERIAL_NUMBER_LENGTH) :
    repeatedSerialNumber l = true ↔
      ∃ i j, i < l.length ∧ j < l.length ∧ i ≠ j ∧ l.getD i [] = l.getD j [] := by
  rw [repeatedSerialNumber_iff]
  have htake : ∀ i, i < l.length →
      (l.getD i []).take USB_SERIAL_NUMBER_LENGTH = l.getD i [] := by
    intro i hi
    apply List.take_of_length_le
    rw [List.getD_eq_getElem _ _ hi, hlen _ (List.getElem_mem hi)]
  constructor
  · rintro ⟨i, j, hi, hj, hne, h⟩
    rw [htake i hi, htake j hj] at h
    exact ⟨i, j, hi, hj, hne, h⟩
  · rintro ⟨i, j, hi, hj, hne, h⟩
    exact ⟨i, j, hi, hj, hne, by rw [htake i hi, htake j hj, h]⟩

/-- C8: the value returned by `main` depends only on the arguments: it is 0 without
arguments; with arguments it is the same for every list of devices and every answer of
theirs, it is 1 exactly when tokenizing fails or a validation fails (band-pass order, a
bound above the Nyquist bound, a repeated serial number), and 0 otherwise.  A serial number
that is not found and a device that does not answer leave it at 0. -/
theorem C8_exit_code (ov : List Nat → Int) (argument : List Nat) (rest : List (List Nat))
    (devices devices' : List hid_device_info) :
    (main ov [] devices).exitCode = 0 ∧
      (main ov (argument :: rest) devices).exitCode =
        (main ov (argument :: rest) devices').exitCode ∧
      ((main ov (argument :: rest) devices).exitCode = 0 ∨
        (main ov (argument :: rest) devices).exitCode = 1) ∧
      ((main ov (argument :: rest) devices).exitCode = 1 ↔
        (parseArguments ov argument rest).parseError = true ∨
        ((parseArguments ov argument rest).filterType = BAND_PASS_FILTER ∧
          (parseArguments ov argument rest).settings.lowerFilterFreq ≥
            (parseArguments ov argument rest).settings.higherFilterFreq) ∨
        ((parseArguments ov argument rest).filterType = LOW_PASS_FILTER ∧
          (parseArguments ov argument rest).settings.higherFilterFreq >
            (parseArguments ov argument rest).settings.sampleRate /
              (parseArguments ov argument rest).settings.sampleRateDiAUDIOMOTH_USB_VIDer / 100 / 2) ∨
        ((parseArguments ov argument rest).filterType = HIGH_PASS_FILTER ∧
          (parseArguments ov argument rest).settings.lowerFilterFreq >
            (parseArguments ov argument rest).settings.sampleRate /
              (parseArguments ov argument rest).settings.sampleRateDiAUDIOMOTH_USB_VIDer / 100 / 2) ∨
        ((parseArguments ov argument rest).filterType = BAND_PASS_FILTER ∧
          ((parseArguments ov argument rest).settings.lowerFilterFreq >
              (parseArguments ov argument rest).settings.sampleRate /
                (parseArguments ov argument rest).settings.sampleRateDiAUDIOMOTH_USB_VIDer / 100 / 2 ∨
            (parseArguments ov argument rest).settings.higherFilterFreq >
              (parseArguments ov argument rest).settings.sampleRate /
                (parseArguments ov argument rest).settings.sampleRateDiAUDIOMOTH_USB_VIDer / 100 / 2)) ∨
        ∃ i j, i < (parseArguments ov argument rest).numberOfSerialNumbers ∧
          j < (parseArguments ov argument rest).numberOfSerialNumbers ∧ i ≠ j ∧
          (parseArguments ov argument rest).parsedSerialNumbers.getD i [] =
            (parseArguments ov argument rest).parsedSerialNumbers.getD j []) ∧
      main ov [cstr "RESTORE", cstr "0123456789ABCDEF"] [echoDevice "0384_0123456789ABCDEE"] =
        ⟨0, [Output.version, Output.couldNotFind (cstr "0123456789ABCDEF")]⟩ ∧
      main ov [cstr "RESTORE"] [silentDevice "0384_0123456789ABCDEF"] =
        ⟨0, [Output.version,
          Output.written (cstr "/dev/hidraw1") ([0, 4] ++ List.replicate 62 0),
          Output.problem (cstr "0123456789ABCDEF")]⟩ := by
  have hexit := main_exitCode ov argument rest devices
  have hexit' := main_exitCode ov argument rest devices'
  have hnone := checkFilterValues_eq_none (parseArguments ov argument rest).filterType
    (parseArguments ov argument rest).settings
  have hrep := repeatedSerialNumber_iff_eq (parseArguments ov argument rest).parsedSerialNumbers
    (parseArguments_serials_length ov argument rest)
  refine ⟨rfl, by rw [hexit, hexit'], ?_, ?_, ?_, ?_⟩
  · rw [hexit]
    split_ifs
    · exact Or.inr rfl
    · exact Or.inl rfl
  · rw [hexit]
    unfold ParseState.numberOfSerialNumbers
    rw [← hrep]
    generalize (parseArguments ov argument rest).settings.sampleRate /
      (parseArguments ov argument rest).settings.sampleRateDiAUDIOMOTH_USB_VIDer / 100 / 2 = n
      at hnone ⊢
    constructor
    · intro h
      split_ifs at h with hc
      rcases hc with hc | hc | hc
      · exact Or.inl hc
      · right
        rw [ne_eq, hnone] at hc
        by_contra hcon
        apply hc
        simp only [not_or, not_and, not_lt, gt_iff_lt, ge_iff_le, not_le] at hcon
        obtain ⟨h1, h2, h3, h4, -⟩ := hcon
        exact ⟨h1, h2, h3, fun hb => ⟨(h4 hb).1, (h4 hb).2⟩⟩
      · exact Or.inr (Or.inr (Or.inr (Or.inr (Or.inr hc))))
    · intro h
      rw [if_pos]
      rcases h with h | h | h | h | h | h
      · exact Or.inl h
      · refine Or.inr (Or.inl ?_)
        rw [ne_eq, hnone]
        intro hh
        have := hh.1 h.1
        omega
      · refine Or.inr (Or.inl ?_)
        rw [ne_eq, hnone]
        intro hh
        have := hh.2.1 h.1
        omega
      · refine Or.inr (Or.inl ?_)
        rw [ne_eq, hnone]
        intro hh
        have := hh.2.2.1 h.1
        omega
      · refine Or.inr (Or.inl ?_)
        rw [ne_eq, hnone]
        intro hh
        have := hh.2.2.2 h.1
        omega
      · exact Or.inr (Or.inr h)
  · have : main ov [cstr "RESTORE", cstr "0123456789ABCDEF"]
        [echoDevice "0384_0123456789ABCDEE"] =
        main atoiZero [cstr "RESTORE", cstr "0123456789ABCDEF"]
          [echoDevice "0384_0123456789ABCDEE"] := rfl
    rw [this]
    decide
  · have : main ov [cstr "RESTORE"] [silentDevice "0384_0123456789ABCDEF"] =
        main atoiZero [cstr "RESTORE"] [silentDevice "0384_0123456789ABCDEF"] := rfl
    rw [this]
    decide

theorem repeatedSerialNumber_of_two (a b c : List (List Nat)) (s : List Nat) :
    repeatedSerialNumber (a ++ s :: (b ++ s :: c)) = true := by
  rw [repeatedSerialNumber_iff]
  refine ⟨a.length, a.length + 1 + b.length, ?_, ?_, ?_, ?_⟩
  · simp
  · simp only [List.length_append, List.length_cons]
    omega
  · omega
  · have h1 : (a ++ s :: (b ++ s :: c)).getD a.length [] = s := by
      rw [List.getD_append_right _ _ _ _ (Nat.le_refl _)]
      simp
    have h2 : (a ++ s :: (b ++ s :: c)).getD (a.length + 1 + b.length) [] = s := by
      rw [List.getD_append_right _ _ _ _ (by omega)]
      have : a.length + 1 + b.length - a.length = (b.length) + 1 := by omega
      rw [this, List.getD_cons_succ, List.getD_append_right _ _ _ _ (Nat.le_refl _)]
      simp
    rw [h1, h2]

/-- C9, counterexample: `RESTORE 0123456789ABCDEF 0123456789abcdef X` holds the same serial
identifier twice and ends with the parse error, not with the repeated-ID error; and in
`CONFIG G 0000000000000001 0000000000000001` the first of the two equal tokens is the value
of `G`, so that one serial number is stored, the run returns 0 and the device is sent the
packet. -/
theorem C9_counterexample_two_equal_tokens :
    main atoiZero [cstr "RESTORE", cstr "0123456789ABCDEF", cstr "0123456789abcdef", cstr "X"]
        [echoDevice "0384_0123456789ABCDEF"] =
      ⟨1, [Output.version, Output.couldNotParse]⟩ ∧
    parseSerialNumber (cstr "0123456789ABCDEF") = some (cstr "0123456789ABCDEF") ∧
    parseSerialNumber (cstr "0123456789abcdef") = some (cstr "0123456789ABCDEF") ∧
    (parseArguments atoiZero (cstr "CONFIG")
      [cstr "G", cstr "0000000000000001", cstr "0000000000000001"]).parsedSerialNumbers =
      [cstr "0000000000000001"] ∧
    (main atoiZero [cstr "CONFIG", cstr "G", cstr "0000000000000001", cstr "0000000000000001"]
      [echoDevice "0384_0000000000000001"]).exitCode = 0 ∧
    Output.sent (cstr "CONFIG") (cstr "0000000000000001") ∈
      (main atoiZero [cstr "CONFIG", cstr "G", cstr "0000000000000001", cstr "0000000000000001"]
        [echoDevice "0384_0000000000000001"]).output := by
  refine ⟨by decide, by decide, by decide, by decide, by decide, by decide⟩

/-- C9 (amended): in a run of an operation other than List whose arguments are tokenized
without a parse error and pass the filter check, if two tokens that stand where an option
is expected (the arguments before each are parsed without error) are serial identifiers of
16 hexadecimal digits that are equal after upper-casing, the run ends with the repeated-ID
error and result 1, and nothing is sent to any device. -/
theorem C9_repeated_serial (ov : List Nat → Int) (first : List Nat)
    (rest pre : List (List Nat)) (token1 : List Nat) (mid : List (List Nat)) (token2 : List Nat)
    (post : List (List Nat)) (devices : List hid_device_info)
    (hsplit : (parseFirst first rest).2 = pre ++ token1 :: (mid ++ token2 :: post))
    (hlist : (parseFirst first rest).1.operationType ≠ LIST_OP)
    (hparse : (parseArguments ov first rest).parseError = false)
    (hfilter : checkFilterValues (parseArguments ov first rest).filterType
      (parseArguments ov first rest).settings = none)
    (hpre : (parseLoop ov (parseFirst first rest).1 pre).parseError = false)
    (hmid : (parseLoop ov (parseFirst first rest).1 (pre ++ token1 :: mid)).parseError = false)
    (hlen : token1.length = 16) (hhex : ∀ c ∈ token1, isHexUpper (toupper c) = true)
    (hsame : token1.map toupper = token2.map toupper) :
    main ov (first :: rest) devices = ⟨1, [Output.version, Output.repeatedDeviceID]⟩ ∧
      ∀ path packet, Output.written path packet ∉ (main ov (first :: rest) devices).output := by
  have hs1 : parseSerialNumber token1 = some (token1.map toupper) :=
    (parseSerialNumber_eq_some token1 _).2 ⟨hlen, hhex, rfl⟩
  have hs2 : parseSerialNumber token2 = some (token1.map toupper) := by
    rw [parseSerialNumber_eq_some]
    refine ⟨?_, ?_, hsame⟩
    · have := congrArg List.length hsame
      simp only [List.length_map] at this
      rw [← this]
      exact hlen
    · intro c hc
      have hmem : toupper c ∈ token1.map toupper := by
        rw [hsame]
        exact List.mem_map_of_mem toupper hc
      obtain ⟨d, hd, hdc⟩ := List.mem_map.1 hmem
      rw [← hdc]
      exact hhex d hd
  have hop : ∀ l, (parseLoop ov (parseFirst first rest).1 l).operationType ≠ LIST_OP := by
    intro l
    rw [parseLoop_operationType]
    exact hlist
  -- the state after `token1`
  have h1 : parseLoop ov (parseFirst first rest).1 (pre ++ token1 :: mid) =
      parseLoop ov
        { parseLoop ov (parseFirst first rest).1 pre with
          parsedSerialNumbers :=
            (parseLoop ov (parseFirst first rest).1 pre).parsedSerialNumbers ++
              [token1.map toupper] } mid := by
    rw [parseLoop_append ov _ _ _ hpre, parseLoop_cons ov _ _ _ hpre,
      parseStep_serial ov _ token1 _ mid hs1 (hop pre)]
  -- the state after `token2`
  have h2 : parseArguments ov first rest =
      parseLoop ov
        { parseLoop ov (parseFirst first rest).1 (pre ++ token1 :: mid) with
          parsedSerialNumbers :=
            (parseLoop ov (parseFirst first rest).1 (pre ++ token1 :: mid)).parsedSerialNumbers ++
              [token1.map toupper] } post := by
    unfold parseArguments
    rw [hsplit]
    have : pre ++ token1 :: (mid ++ token2 :: post) = (pre ++ token1 :: mid) ++ token2 :: post := by
      simp
    rw [this, parseLoop_append ov _ _ _ hmid, parseLoop_cons ov _ _ _ hmid,
      parseStep_serial ov _ token2 _ post hs2 (hop _)]
  obtain ⟨e1, he1, -⟩ := parseLoop_serials ov
    { parseLoop ov (parseFirst first rest).1 pre with
      parsedSerialNumbers :=
        (parseLoop ov (parseFirst first rest).1 pre).parsedSerialNumbers ++
          [token1.map toupper] } mid
  obtain ⟨e2, he2, -⟩ := parseLoop_serials ov
    { parseLoop ov (parseFirst first rest).1 (pre ++ token1 :: mid) with
      parsedSerialNumbers :=
        (parseLoop ov (parseFirst first rest).1 (pre ++ token1 :: mid)).parsedSerialNumbers ++
          [token1.map toupper] } post
  have hrep : repeatedSerialNumber (parseArguments ov first rest).parsedSerialNumbers = true := by
    rw [h2, he2]
    dsimp only
    rw [h1, he1]
    dsimp only
    have := repeatedSerialNumber_of_two
      (parseLoop ov (parseFirst first rest).1 pre).parsedSerialNumbers e1 e2 (token1.map toupper)
    simpa using this
  have hmain : main ov (first :: rest) devices =
      ⟨1, [Output.version, Output.repeatedDeviceID]⟩ := by
    unfold main
    simp only [hparse, hfilter, hrep, Bool.false_eq_true, ↓reduceIte, ERROR_RESPONSE]
  refine ⟨hmain, ?_⟩
  intro path packet
  rw [hmain]
  simp

/-- C9, witness: `RESTORE 0123456789ABCDEF 0123456789abcdef` ends with the repeated-ID
error. -/
theorem C9_repeated_serial_witness :
    main atoiZero [cstr "RESTORE", cstr "0123456789ABCDEF", cstr "0123456789abcdef"]
        [echoDevice "0384_0123456789ABCDEF"] =
      ⟨1, [Output.version, Output.repeatedDeviceID]⟩ :=
  (C9_repeated_serial atoiZero (cstr "RESTORE")
    [cstr "0123456789ABCDEF", cstr "0123456789abcdef"] [] (cstr "0123456789ABCDEF") []
    (cstr "0123456789abcdef") [] [echoDevice "0384_0123456789ABCDEF"]
    (by decide) (by decide) (by decide) (by decide) (by decide) (by decide) (by decide)
    (by decide) (by decide)).1

theorem parseFirst_led (first value : List Nat) (rest : List (List Nat))
    (hled : first.map toupper = cstr "LED") :
    parseFirst first [] =
        ({ initialState with operationType := SET_LED_OP, parseError := true }, []) ∧
      parseFirst first (value :: rest) =
        if parseArgument (cstr "TRUE") value || parseArgument (cstr "ON") value
            || parseArgument (cstr "1") value then
          ({ initialState with
              operationType := SET_LED_OP
              settings := { initialState.settings with disableLED := false } }, rest)
        else if parseArgument (cstr "FALSE") value || parseArgument (cstr "OFF") value
            || parseArgument (cstr "0") value then
          ({ initialState with
              operationType := SET_LED_OP
              settings := { initialState.settings with disableLED := true } }, rest)
        else
          ({ initialState with operationType := SET_LED_OP, parseError := true }, rest) := by
  constructor
  all_goals
    unfold parseFirst
    rw [if_neg (by simp +decide [parseArgument_eq_decide first _ hled (by decide)]),
      if_neg (by simp +decide [parseArgument_eq_decide first _ hled (by decide)]),
      if_neg (by simp +decide [parseArgument_eq_decide first _ hled (by decide)]),
      if_pos (by simp +decide [parseArgument_eq_decide first _ hled (by decide)])]

/-- C10: for the LED operation (the keyword in any letter case) the token after `LED`
decides the flag: `TRUE`, `ON` or `1` (any letter case) stores `disableLED = false`,
`FALSE`, `OFF` or `0` stores `disableLED = true`, and that is the value of the final state;
a missing token or any other token is a parse error and the run returns 1. -/
theorem C10_led_flag (ov : List Nat → Int) (first value : List Nat) (rest : List (List Nat))
    (devices : List hid_device_info) (hled : first.map toupper = cstr "LED") :
    main ov [first] devices = ⟨1, [Output.version, Output.couldNotParse]⟩ ∧
    ((value.map toupper = cstr "TRUE" ∨ value.map toupper = cstr "ON" ∨
        value.map toupper = cstr "1") →
      parseFirst first (value :: rest) =
          ({ initialState with
              operationType := SET_LED_OP
              settings := { defaultConfigSettings with disableLED := false } }, rest) ∧
        (parseArguments ov first (value :: rest)).settings.disableLED = false) ∧
    ((value.map toupper = cstr "FALSE" ∨ value.map toupper = cstr "OFF" ∨
        value.map toupper = cstr "0") →
      parseFirst first (value :: rest) =
          ({ initialState with
              operationType := SET_LED_OP
              settings := { defaultConfigSettings with disableLED := true } }, rest) ∧
        (parseArguments ov first (value :: rest)).settings.disableLED = true) ∧
    (¬(value.map toupper = cstr "TRUE" ∨ value.map toupper = cstr "ON" ∨
        value.map toupper = cstr "1" ∨ value.map toupper = cstr "FALSE" ∨
        value.map toupper = cstr "OFF" ∨ value.map toupper = cstr "0") →
      (parseArguments ov first (value :: rest)).parseError = true ∧
        main ov (first :: value :: rest) devices =
          ⟨1, [Output.version, Output.couldNotParse]⟩) := by
  obtain ⟨hnil, hcons⟩ := parseFirst_led first value rest hled
  have hT := parseArgument_iff (cstr "TRUE") value (by decide)
  have hON := parseArgument_iff (cstr "ON") value (by decide)
  have h1 := parseArgument_iff (cstr "1") value (by decide)
  have hF := parseArgument_iff (cstr "FALSE") value (by decide)
  have hOFF := parseArgument_iff (cstr "OFF") value (by decide)
  have h0 := parseArgument_iff (cstr "0") value (by decide)
  refine ⟨?_, ?_, ?_, ?_⟩
  · apply main_of_parseError
    unfold parseArguments
    rw [hnil]
    rfl
  · intro hv
    have hpos : (parseArgument (cstr "TRUE") value || parseArgument (cstr "ON") value
        || parseArgument (cstr "1") value) = true := by
      simp only [Bool.or_eq_true, hT, hON, h1]
      rcases hv with hv | hv | hv
      · exact Or.inl (Or.inl hv)
      · exact Or.inl (Or.inr hv)
      · exact Or.inr hv
    rw [if_pos hpos] at hcons
    refine ⟨hcons, ?_⟩
    unfold parseArguments
    rw [hcons, parseLoop_disableLED]
  · intro hv
    have hneg : ¬(parseArgument (cstr "TRUE") value || parseArgument (cstr "ON") value
        || parseArgument (cstr "1") value) = true := by
      simp only [Bool.or_eq_true, hT, hON, h1]
      rcases hv with hv | hv | hv <;> rw [hv] <;> decide
    have hpos : (parseArgument (cstr "FALSE") value || parseArgument (cstr "OFF") value
        || parseArgument (cstr "0") value) = true := by
      simp only [Bool.or_eq_true, hF, hOFF, h0]
      rcases hv with hv | hv | hv
      · exact Or.inl (Or.inl hv)
      · exact Or.inl (Or.inr hv)
      · exact Or.inr hv
    rw [if_neg hneg, if_pos hpos] at hcons
    refine ⟨hcons, ?_⟩
    unfold parseArguments
    rw [hcons, parseLoop_disableLED]
  · intro hv
    have hneg : ¬(parseArgument (cstr "TRUE") value || parseArgument (cstr "ON") value
        || parseArgument (cstr "1") value) = true := by
      simp only [Bool.or_eq_true, hT, hON, h1]
      rintro ((h | h) | h)
      · exact hv (Or.inl h)
      · exact hv (Or.inr (Or.inl h))
      · exact hv (Or.inr (Or.inr (Or.inl h)))
    have hneg' : ¬(parseArgument (cstr "FALSE") value || parseArgument (cstr "OFF") value
        || parseArgument (cstr "0") value) = true := by
      simp only [Bool.or_eq_true, hF, hOFF, h0]
      rintro ((h | h) | h)
      · exact hv (Or.inr (Or.inr (Or.inr (Or.inl h))))
      · exact hv (Or.inr (Or.inr (Or.inr (Or.inr (Or.inl h)))))
      · exact hv (Or.inr (Or.inr (Or.inr (Or.inr (Or.inr h)))))
    rw [if_neg hneg, if_neg hneg'] at hcons
    have herr : (parseArguments ov first (value :: rest)).parseError = true := by
      unfold parseArguments
      rw [hcons, parseLoop_error ov _ _ rfl]
    exact ⟨herr, main_of_parseError ov first _ devices herr⟩

/-- C10, witness: `LED MAYBE` fails to parse; `led on` leaves `disableLED` false and
`Led Off` sets it. -/
theorem C10_led_flag_witness :
    main atoiZero [cstr "LED", cstr "MAYBE"] [echoDevice "0384_0123456789ABCDEF"] =
        ⟨1, [Output.version, Output.couldNotParse]⟩ ∧
      main atoiZero [cstr "LED"] [echoDevice "0384_0123456789ABCDEF"] =
        ⟨1, [Output.version, Output.couldNotParse]⟩ ∧
      (parseArguments atoiZero (cstr "led") (cstr "on" :: [])).settings.disableLED = false ∧
      (parseArguments atoiZero (cstr "Led") (cstr "Off" :: [])).settings.disableLED = true :=
  ⟨((C10_led_flag atoiZero (cstr "LED") (cstr "MAYBE") [] [echoDevice "0384_0123456789ABCDEF"]
      (by decide)).2.2.2 (by decide)).2,
    (C10_led_flag atoiZero (cstr "LED") (cstr "MAYBE") [] [echoDevice "0384_0123456789ABCDEF"]
      (by decide)).1,
    ((C10_led_flag atoiZero (cstr "led") (cstr "on") [] [] (by decide)).2.1
      (Or.inr (Or.inl (by decide)))).2,
    ((C10_led_flag atoiZero (cstr "Led") (cstr "Off") [] [] (by decide)).2.2.1
      (Or.inr (Or.inl (by decide)))).2⟩

/-- C19: for each of the 8 valid sample-rate values `r`, the pair `(sampleRate, divider)` at
the same index of the tables satisfies `sampleRate = r * divider`, so `sampleRate / divider`
is `r` and the Nyquist bound of settings holding that pair is `r / 200`: 40 for 8000, 1250
for 250000 and 1920 for 384000. -/
theorem C19_table_product (settings : configSettings_t) (index : Nat) (hindex : index < 8) :
    (sampleRates.getD index 0 : Int) =
        validSampleRates.getD index 0 * (sampleRateDiAUDIOMOTH_USB_VIDers.getD index 0 : Int) ∧
      ((sampleRates.getD index 0 / sampleRateDiAUDIOMOTH_USB_VIDers.getD index 0 : Nat) : Int) =
        validSampleRates.getD index 0 ∧
      ((nyquistFrequency
          { settings with
            sampleRate := sampleRates.getD index 0
            sampleRateDiAUDIOMOTH_USB_VIDer :=
              sampleRateDiAUDIOMOTH_USB_VIDers.getD index 0 } : Nat) : Int) =
        validSampleRates.getD index 0 / 200 ∧
      nyquistFrequency (parseArguments atoiZero (cstr "CONFIG") [cstr "8000"]).settings = 40 ∧
      nyquistFrequency (parseArguments atoiZero (cstr "CONFIG") [cstr "250000"]).settings = 1250 ∧
      nyquistFrequency (parseArguments atoiZero (cstr "CONFIG") [cstr "384000"]).settings = 1920 := by
  refine ⟨?_, ?_, ?_, by decide, by decide, by decide⟩
  · interval_cases index <;> decide
  · interval_cases index <;> decide
  · unfold nyquistFrequency
    dsimp only
    interval_cases index <;> decide

/-- C19, witness: the pair selected by `48000` is (384000, 8), and 384000 = 48000 * 8. -/
theorem C19_table_product_witness :
    (sampleRates.getD 3 0 : Int) =
        validSampleRates.getD 3 0 * (sampleRateDiAUDIOMOTH_USB_VIDers.getD 3 0 : Int) ∧
      validSampleRates.getD 3 0 = 48000 :=
  ⟨(C19_table_product defaultConfigSettings 3 (by decide)).1, by decide⟩

/-! ## The operations other than CONFIG -/

theorem parseFirst_list (first : List Nat) (rest : List (List Nat))
    (h : first.map toupper = cstr "LIST") :
    parseFirst first rest = ({ initialState with operationType := LIST_OP }, rest) := by
  unfold parseFirst
  rw [if_pos (by simp +decide [parseArgument_eq_decide first _ h (by decide)])]

theorem parseFirst_restore (first : List Nat) (rest : List (List Nat))
    (h : first.map toupper = cstr "RESTORE") :
    parseFirst first rest = ({ initialState with operationType := RESTORE_OP }, rest) := by
  unfold parseFirst
  rw [if_neg (by simp +decide [parseArgument_eq_decide first _ h (by decide)]),
    if_pos (by simp +decide [parseArgument_eq_decide first _ h (by decide)])]

theorem parseFirst_update (first : List Nat) (rest : List (List Nat))
    (h : first.map toupper = cstr "UPDATE") :
    parseFirst first rest = ({ initialState with operationType := UPDATE_GAIN_OP }, rest) := by
  unfold parseFirst
  rw [if_neg (by simp +decide [parseArgument_eq_decide first _ h (by decide)]),
    if_neg (by simp +decide [parseArgument_eq_decide first _ h (by decide)]),
    if_neg (by simp +decide [parseArgument_eq_decide first _ h (by decide)]),
    if_neg (by simp +decide [parseArgument_eq_decide first _ h (by decide)]),
    if_pos (by simp +decide [parseArgument_eq_decide first _ h (by decide)])]

/-- In a LIST run every argument is a parse error. -/
theorem parseStep_list (ov : List Nat → Int) (st : ParseState) (argument : List Nat)
    (rest : List (List Nat)) (hop : st.operationType = LIST_OP) :
    parseStep ov st argument rest = ({ st with parseError := true }, rest) := by
  unfold parseStep
  rw [if_neg (by simp [hop]), if_neg (by simp [hop]), if_neg (by simp [hop]),
    if_neg (by simp [hop]), if_neg (by simp [hop]), if_neg (by simp [hop]),
    if_neg (by simp [hop]), if_neg (by simp [hop]), if_neg (by simp [hop])]

theorem listDevices_output (devices : List hid_device_info) :
    ∀ buffer, ∀ o ∈ (listDevices devices buffer).2, ∃ serial frequency,
      o = Output.listed serial frequency := by
  induction devices with
  | nil =>
    intro buffer o ho
    simp [listDevices] at ho
  | cons device next ih =>
    intro buffer o ho
    rw [listDevices] at ho
    cases hp : device.path with
    | none =>
      rw [hp] at ho
      exact ih buffer o ho
    | some path =>
      rw [hp] at ho
      dsimp only at ho
      split_ifs at ho
      · rcases List.mem_cons.1 ho with h | h
        · exact ⟨_, _, h⟩
        · exact ih _ o h
      · exact ih _ o ho

/-- C18: when the first argument is `LIST` (any letter case), every further argument, a
16-character hexadecimal serial identifier included, is a parse error and the run returns
1; `LIST` alone returns 0 and prints only the lines of the listed devices: no packet is
written and no exchange is reported. -/
theorem C18_list_accepts_nothing (ov : List Nat → Int) (first argument : List Nat)
    (rest : List (List Nat)) (devices : List hid_device_info)
    (hlist : first.map toupper = cstr "LIST") :
    (parseArguments ov first (argument :: rest)).parseError = true ∧
      main ov (first :: argument :: rest) devices =
        ⟨1, [Output.version, Output.couldNotParse]⟩ ∧
      (main ov [first] devices).exitCode = 0 ∧
      (∀ o ∈ (main ov [first] devices).output,
        o = Output.version ∨ ∃ serial frequency, o = Output.listed serial frequency) ∧
      (∀ path packet, Output.written path packet ∉ (main ov [first] devices).output) := by
  have herr : (parseArguments ov first (argument :: rest)).parseError = true := by
    unfold parseArguments
    rw [parseFirst_list first _ hlist]
    dsimp only
    rw [parseLoop_cons ov _ _ _ rfl, parseStep_list ov _ _ _ rfl, parseLoop_error ov _ _ rfl]
  have hmain : main ov [first] devices =
      ⟨0, Output.version :: (listDevices devices (List.replicate SERIAL_NUMBER_BUFFER_SIZE 0)).2⟩ := by
    have hp : parseArguments ov first [] = { initialState with operationType := LIST_OP } := by
      unfold parseArguments
      rw [parseFirst_list first _ hlist]
      rfl
    unfold main
    dsimp only
    rw [hp]
    rfl
  have hout : ∀ o ∈ (main ov [first] devices).output,
      o = Output.version ∨ ∃ serial frequency, o = Output.listed serial frequency := by
    intro o ho
    rw [hmain] at ho
    rcases List.mem_cons.1 ho with h | h
    · exact Or.inl h
    · exact Or.inr (listDevices_output devices _ o h)
  refine ⟨herr, main_of_parseError ov first _ devices herr, by rw [hmain], hout, ?_⟩
  intro path packet hmem
  rcases hout _ hmem with h | ⟨s, f, h⟩
  · exact absurd h (by simp)
  · exact absurd h (by simp)

/-- C18, witness: `LIST 0123456789ABCDEF` is a parse error; `list` prints the device. -/
theorem C18_list_accepts_nothing_witness :
    main atoiZero [cstr "LIST", cstr "0123456789ABCDEF"] [echoDevice "0384_0123456789ABCDEF"] =
        ⟨1, [Output.version, Output.couldNotParse]⟩ ∧
      main atoiZero [cstr "list"] [echoDevice "0384_0123456789ABCDEF"] =
        ⟨0, [Output.version, Output.listed (cstr "0123456789ABCDEF") (cstr "384")]⟩ :=
  ⟨(C18_list_accepts_nothing atoiZero (cstr "LIST") (cstr "0123456789ABCDEF") []
      [echoDevice "0384_0123456789ABCDEF"] (by decide)).2.1,
    by decide⟩

/-! ## The keyword GAIN -/

theorem parseStep_gain (ov : List Nat → Int) (st : ParseState) (argument value : List Nat)
    (rest : List (List Nat))
    (hkey : argument.map toupper = cstr "GAIN" ∨ argument.map toupper = cstr "G")
    (hop : st.operationType = CONFIG_OP ∨ st.operationType = UPDATE_GAIN_OP) :
    parseStep ov st argument (value :: rest) = (gainValue ov st value, rest) ∧
      parseStep ov st argument [] = ({ st with parseError := true }, []) := by
  rcases hkey with hu | hu
  all_goals
    obtain ⟨hs, hn⟩ := keyword_not_serial_not_number ov argument _ validSampleRates hu
      (by decide) (by decide)
    constructor
    all_goals
      unfold parseStep
      rw [if_neg (by simp [hs]), if_neg (by simp [hn]),
        if_pos (by
          rcases hop with hop | hop <;>
            simp +decide [parseArgument_eq_decide argument _ hu (by decide), hop])]

/-- The keyword `GAIN` given to another operation is a parse error. -/
theorem parseStep_gain_other (ov : List Nat → Int) (st : ParseState) (argument : List Nat)
    (rest : List (List Nat))
    (hkey : argument.map toupper = cstr "GAIN" ∨ argument.map toupper = cstr "G")
    (hop : st.operationType ≠ CONFIG_OP ∧ st.operationType ≠ UPDATE_GAIN_OP) :
    parseStep ov st argument rest = ({ st with parseError := true }, rest) := by
  rcases hkey with hu | hu
  all_goals
    obtain ⟨hs, hn⟩ := keyword_not_serial_not_number ov argument _ validSampleRates hu
      (by decide) (by decide)
    unfold parseStep
    rw [if_neg (by simp [hs]), if_neg (by simp [hn]),
      if_neg (by simp [hop.1, hop.2]),
      if_neg (by simp +decide [parseArgument_eq_decide argument _ hu (by decide)]),
      if_neg (by simp +decide [parseArgument_eq_decide argument _ hu (by decide)]),
      if_neg (by simp +decide [parseArgument_eq_decide argument _ hu (by decide)]),
      if_neg (by simp +decide [parseArgument_eq_decide argument _ hu (by decide)]),
      if_neg (by simp +decide [parseArgument_eq_decide argument _ hu (by decide)]),
      if_neg (by simp +decide [parseArgument_eq_decide argument _ hu (by decide)])]

theorem parseNumber_eq_none (ov : List Nat → Int) (text : List Nat)
    (h : (text.take ARGUMENT_BUFFER_SIZE).all isDigit = false) : parseNumber ov text = none := by
  unfold parseNumber
  rw [h]
  rfl

theorem gainValue_digits (ov : List Nat → Int) (st : ParseState) (value : List Nat)
    (hd : value.all isDigit = true) (hint : digitsValue value ≤ INT_MAX) :
    gainValue ov st value =
      if digitsValue value ≤ 4 then
        { st with settings := { st.settings with gain := digitsValue value } }
      else { st with parseError := true } := by
  unfold gainValue
  rw [parseNumber_digits ov value hd hint]
  dsimp only
  by_cases h : digitsValue value ≤ 4
  · rw [if_pos h, if_pos (by simp; omega)]
    have : toUInt8 (digitsValue value : Int) = digitsValue value := by
      unfold toUInt8
      omega
    rw [this]
  · rw [if_neg h, if_neg (by simp; omega)]

/-- What the code does with the keyword `GAIN`/`G` (any letter case) met where an option is
expected: for CONFIG and UPDATE, a following token of decimal digits (the empty token
included, with value 0) of value `n <= 4` sets `gain` to `n`; a missing token, a token that
is not a number and a value above 4 within the range of `int` are parse errors; for every
other operation the keyword is a parse error. -/
theorem gain_keyword (ov : List Nat → Int) (st : ParseState) (keyword value : List Nat)
    (rest : List (List Nat)) (herr : st.parseError = false)
    (hkey : keyword.map toupper = cstr "GAIN" ∨ keyword.map toupper = cstr "G") :
    ((st.operationType = CONFIG_OP ∨ st.operationType = UPDATE_GAIN_OP) →
      (parseLoop ov st [keyword]).parseError = true ∧
      (value.all isDigit = true → digitsValue value ≤ 4 →
        parseLoop ov st (keyword :: value :: rest) =
          parseLoop ov { st with settings := { st.settings with gain := digitsValue value } }
            rest) ∧
      (value.all isDigit = true → 4 < digitsValue value → digitsValue value ≤ INT_MAX →
        (parseLoop ov st (keyword :: value :: rest)).parseError = true) ∧
      ((value.take ARGUMENT_BUFFER_SIZE).all isDigit = false →
        (parseLoop ov st (keyword :: value :: rest)).parseError = true)) ∧
    ((st.operationType ≠ CONFIG_OP ∧ st.operationType ≠ UPDATE_GAIN_OP) →
      (parseLoop ov st (keyword :: rest)).parseError = true) := by
  constructor
  · intro hop
    obtain ⟨h1, h2⟩ := parseStep_gain ov st keyword value rest hkey hop
    refine ⟨?_, ?_, ?_, ?_⟩
    · rw [parseLoop_cons ov _ _ _ herr, h2, parseLoop_error ov _ _ rfl]
    · intro hd hv
      rw [parseLoop_cons ov _ _ _ herr, h1,
        gainValue_digits ov st value hd (by unfold INT_MAX; omega), if_pos hv]
    · intro hd hv hint
      rw [parseLoop_cons ov _ _ _ herr, h1, gainValue_digits ov st value hd hint,
        if_neg (by omega), parseLoop_error ov _ _ rfl]
    · intro hd
      rw [parseLoop_cons ov _ _ _ herr, h1]
      unfold gainValue
      rw [parseNumber_eq_none ov value hd, parseLoop_error ov _ _ rfl]
  · intro hop
    rw [parseLoop_cons ov _ _ _ herr, parseStep_gain_other ov st keyword rest hkey hop,
      parseLoop_error ov _ _ rfl]

/-- C11, the code at the failing input: the empty token after `GAIN` is taken as the number
0 (`parseNumber` meets the terminator before any byte and `atoi` gives 0), so that
`CONFIG GAIN ""` and `UPDATE G ""` are tokenized without a parse error, set `gain` to 0,
return 0 and send the packet with gain byte 0. -/
theorem C11_empty_gain_token :
    parseNumber atoiZero [] = some 0 ∧
      (parseArguments atoiZero (cstr "CONFIG") [cstr "GAIN", []]).parseError = false ∧
      (parseArguments atoiZero (cstr "CONFIG") [cstr "GAIN", []]).settings.gain = 0 ∧
      (parseArguments atoiZero (cstr "UPDATE") [cstr "G", []]).parseError = false ∧
      (parseArguments atoiZero (cstr "UPDATE") [cstr "G", []]).settings.gain = 0 ∧
      main atoiZero [cstr "UPDATE", cstr "G", []] [echoDevice "0384_0123456789ABCDEF"] =
        ⟨0, [Output.version,
          Output.written (cstr "/dev/hidraw0")
            ([0, 2, 0, 0, 0, 0, 0, 4, 16, 1, 0, 0xDC, 5, 0, 1, 0, 0, 0, 0, 0] ++
              List.replicate 44 0),
          Output.sent (cstr "UPDATE") (cstr "0123456789ABCDEF")]⟩ := by
  refine ⟨by decide, by decide, by decide, by decide, by decide, by decide⟩

/-! ## Letter case -/

theorem toupper_toupper (c : Nat) : toupper (toupper c) = toupper c := by
  unfold toupper
  split_ifs <;> omega

theorem parseArgument_congr (pattern text text' : List Nat)
    (h : text.map toupper = text'.map toupper) :
    parseArgument pattern text = parseArgument pattern text' := by
  unfold parseArgument
  rw [List.map_take, List.map_take, h]

theorem parseSerialNumberLoop_congr (fuel : Nat) :
    ∀ (text text' acc : List Nat), text.map toupper = text'.map toupper →
      parseSerialNumberLoop fuel text acc = parseSerialNumberLoop fuel text' acc := by
  induction fuel with
  | zero =>
    intro text text' acc h
    cases text <;> cases text' <;> simp_all [parseSerialNumberLoop]
  | succ n ih =>
    intro text text' acc h
    cases text with
    | nil =>
      cases text' with
      | nil => rfl
      | cons c' t' => simp at h
    | cons c t =>
      cases text' with
      | nil => simp at h
      | cons c' t' =>
        simp only [List.map_cons, List.cons.injEq] at h
        rw [parseSerialNumberLoop, parseSerialNumberLoop, h.1, ih t t' _ h.2]

theorem parseSerialNumber_congr (text text' : List Nat)
    (h : text.map toupper = text'.map toupper) :
    parseSerialNumber text = parseSerialNumber text' :=
  parseSerialNumberLoop_congr _ text text' [] h

theorem isDigit_eq_of_toupper (c c' : Nat) (h : toupper c = toupper c') :
    isDigit c = isDigit c' ∧ (isDigit c = true → c = c') := by
  have h1 : isDigit c = isDigit c' := by
    rw [← isDigit_toupper c, ← isDigit_toupper c', h]
  refine ⟨h1, fun hd => ?_⟩
  have := toupper_of_isDigit c hd
  have := toupper_of_isDigit c' (h1 ▸ hd)
  omega

theorem takeWhile_isDigit_congr :
    ∀ (text text' : List Nat), text.map toupper = text'.map toupper →
      text.takeWhile isDigit = text'.takeWhile isDigit := by
  intro text
  induction text with
  | nil =>
    intro text' h
    cases text' with
    | nil => rfl
    | cons c' t' => simp at h
  | cons c t ih =>
    intro text' h
    cases text' with
    | nil => simp at h
    | cons c' t' =>
      simp only [List.map_cons, List.cons.injEq] at h
      obtain ⟨h1, h2⟩ := isDigit_eq_of_toupper c c' h.1
      rw [List.takeWhile_cons, List.takeWhile_cons, ← h1]
      cases hd : isDigit c with
      | true =>
        simp only [↓reduceIte]
        rw [h2 hd, ih t' h.2]
      | false => simp

theorem all_isDigit_map_toupper (text : List Nat) :
    (text.map toupper).all isDigit = text.all isDigit := by
  induction text with
  | nil => rfl
  | cons c t ih => simp only [List.map_cons, List.all_cons, isDigit_toupper, ih]

theorem parseNumber_congr (ov : List Nat → Int) (text text' : List Nat)
    (h : text.map toupper = text'.map toupper) :
    parseNumber ov text = parseNumber ov text' := by
  unfold parseNumber atoi
  have h1 : (text.take ARGUMENT_BUFFER_SIZE).all isDigit =
      (text'.take ARGUMENT_BUFFER_SIZE).all isDigit := by
    rw [← all_isDigit_map_toupper, ← all_isDigit_map_toupper (text'.take _), List.map_take,
      List.map_take, h]
  rw [h1, takeWhile_isDigit_congr text text' h]

/-- One iteration sees an argument only through its upper-case form. -/
theorem parseStep_congr_argument (ov : List Nat → Int) (st : ParseState)
    (argument argument' : List Nat) (rest : List (List Nat))
    (h : argument.map toupper = argument'.map toupper) :
    parseStep ov st argument rest = parseStep ov st argument' rest := by
  have hs := parseSerialNumber_congr argument argument' h
  have hn : parseNumberAgainstList ov argument validSampleRates =
      parseNumberAgainstList ov argument' validSampleRates := by
    unfold parseNumberAgainstList
    rw [parseNumber_congr ov argument argument' h]
  have hr : setSampleRate ov st argument = setSampleRate ov st argument' := by
    unfold setSampleRate
    rw [hn]
  unfold parseStep
  rw [hs, hn, hr, parseArgument_congr (cstr "GAIN") _ _ h, parseArgument_congr (cstr "G") _ _ h,
    parseArgument_congr (cstr "LOWPASSFILTER") _ _ h, parseArgument_congr (cstr "LPF") _ _ h,
    parseArgument_congr (cstr "HIGHPASSFILTER") _ _ h, parseArgument_congr (cstr "HPF") _ _ h,
    parseArgument_congr (cstr "BANDPASSFILTER") _ _ h, parseArgument_congr (cstr "BPF") _ _ h,
    parseArgument_congr (cstr "LOWGAINRANGE") _ _ h, parseArgument_congr (cstr "LGR") _ _ h,
    parseArgument_congr (cstr "ENERGYSAVERMODE") _ _ h, parseArgument_congr (cstr "ESM") _ _ h,
    parseArgument_congr (cstr "DISABLE48HZ") _ _ h, parseArgument_congr (cstr "D48") _ _ h]

theorem gainValue_congr (ov : List Nat → Int) (st : ParseState) (v v' : List Nat)
    (h : v.map toupper = v'.map toupper) : gainValue ov st v = gainValue ov st v' := by
  unfold gainValue
  rw [parseNumber_congr ov v v' h]

theorem lowPassValue_congr (ov : List Nat → Int) (st : ParseState) (v v' : List Nat)
    (h : v.map toupper = v'.map toupper) : lowPassValue ov st v = lowPassValue ov st v' := by
  unfold lowPassValue
  rw [parseNumber_congr ov v v' h]

theorem highPassValue_congr (ov : List Nat → Int) (st : ParseState) (v v' : List Nat)
    (h : v.map toupper = v'.map toupper) : highPassValue ov st v = highPassValue ov st v' := by
  unfold highPassValue
  rw [parseNumber_congr ov v v' h]

theorem bandPassValues_congr (ov : List Nat → Int) (st : ParseState) (v v' w w' : List Nat)
    (h : v.map toupper = v'.map toupper) (h' : w.map toupper = w'.map toupper) :
    bandPassValues ov st v w = bandPassValues ov st v' w' := by
  unfold bandPassValues
  rw [parseNumber_congr ov v v' h, parseNumber_congr ov w w' h']

/-- One iteration on arguments that differ in letter case only. -/
theorem parseStep_congr_rest (ov : List Nat → Int) (st : ParseState) (argument : List Nat)
    (rest rest' : List (List Nat))
    (h : List.Forall₂ (fun t t' : List Nat => t.map toupper = t'.map toupper) rest rest') :
    (parseStep ov st argument rest).1 = (parseStep ov st argument rest').1 ∧
      List.Forall₂ (fun t t' : List Nat => t.map toupper = t'.map toupper)
        (parseStep ov st argument rest).2 (parseStep ov st argument rest').2 := by
  unfold parseStep
  refine ite_rel (fun a b : ParseState × List (List Nat) => a.1 = b.1 ∧
    List.Forall₂ (fun t t' : List Nat => t.map toupper = t'.map toupper) a.2 b.2)
    _ _ _ _ _ (fun _ => ⟨rfl, h⟩) (fun _ => ?_)
  refine ite_rel (fun a b : ParseState × List (List Nat) => a.1 = b.1 ∧
    List.Forall₂ (fun t t' : List Nat => t.map toupper = t'.map toupper) a.2 b.2)
    _ _ _ _ _ (fun _ => ⟨rfl, h⟩) (fun _ => ?_)
  refine ite_rel (fun a b : ParseState × List (List Nat) => a.1 = b.1 ∧
    List.Forall₂ (fun t t' : List Nat => t.map toupper = t'.map toupper) a.2 b.2)
    _ _ _ _ _ (fun _ => ?_) (fun _ => ?_)
  · cases h with
    | nil => exact ⟨rfl, List.Forall₂.nil⟩
    | cons hv hr => exact ⟨gainValue_congr ov st _ _ hv, hr⟩
  refine ite_rel (fun a b : ParseState × List (List Nat) => a.1 = b.1 ∧
    List.Forall₂ (fun t t' : List Nat => t.map toupper = t'.map toupper) a.2 b.2)
    _ _ _ _ _ (fun _ => ?_) (fun _ => ?_)
  · cases h with
    | nil => exact ⟨rfl, List.Forall₂.nil⟩
    | cons hv hr => exact ⟨lowPassValue_congr ov st _ _ hv, hr⟩
  refine ite_rel (fun a b : ParseState × List (List Nat) => a.1 = b.1 ∧
    List.Forall₂ (fun t t' : List Nat => t.map toupper = t'.map toupper) a.2 b.2)
    _ _ _ _ _ (fun _ => ?_) (fun _ => ?_)
  · cases h with
    | nil => exact ⟨rfl, List.Forall₂.nil⟩
    | cons hv hr => exact ⟨highPassValue_congr ov st _ _ hv, hr⟩
  refine ite_rel (fun a b : ParseState × List (List Nat) => a.1 = b.1 ∧
    List.Forall₂ (fun t t' : List Nat => t.map toupper = t'.map toupper) a.2 b.2)
    _ _ _ _ _ (fun _ => ?_) (fun _ => ?_)
  · cases h with
    | nil => exact ⟨rfl, List.Forall₂.nil⟩
    | cons hv hr =>
      cases hr with
      | nil => exact ⟨rfl, List.Forall₂.nil⟩
      | cons hw hr => exact ⟨bandPassValues_congr ov st _ _ _ _ hv hw, hr⟩
  refine ite_rel (fun a b : ParseState × List (List Nat) => a.1 = b.1 ∧
    List.Forall₂ (fun t t' : List Nat => t.map toupper = t'.map toupper) a.2 b.2)
    _ _ _ _ _ (fun _ => ⟨rfl, h⟩) (fun _ => ?_)
  refine ite_rel (fun a b : ParseState × List (List Nat) => a.1 = b.1 ∧
    List.Forall₂ (fun t t' : List Nat => t.map toupper = t'.map toupper) a.2 b.2)
    _ _ _ _ _ (fun _ => ⟨rfl, h⟩) (fun _ => ?_)
  exact ite_rel (fun a b : ParseState × List (List Nat) => a.1 = b.1 ∧
    List.Forall₂ (fun t t' : List Nat => t.map toupper = t'.map toupper) a.2 b.2)
    _ _ _ _ _ (fun _ => ⟨rfl, h⟩) (fun _ => ⟨rfl, h⟩)

/-- The loop gives the same state on arguments that differ in letter case only. -/
theorem parseLoop_congr (ov : List Nat → Int) :
    ∀ (st : ParseState) (l l' : List (List Nat)),
      List.Forall₂ (fun t t' : List Nat => t.map toupper = t'.map toupper) l l' →
      parseLoop ov st l = parseLoop ov st l' := by
  refine parseLoop_induction ov
    (fun st l => ∀ l', List.Forall₂ (fun t t' : List Nat => t.map toupper = t'.map toupper) l l' →
      parseLoop ov st l = parseLoop ov st l') ?_ ?_ ?_
  · intro st l' h
    cases h
    rfl
  · intro st a rest he l' _
    rw [parseLoop_error ov st _ he, parseLoop_error ov st _ he]
  · intro st a rest he ih l' h
    cases h with
    | cons ha hr =>
      rename_i a' rest'
      rw [parseLoop_cons ov st a rest he, parseLoop_cons ov st a' rest' he,
        ← parseStep_congr_argument ov st a a' rest' ha]
      obtain ⟨h1, h2⟩ := parseStep_congr_rest ov st a rest rest' hr
      rw [← h1]
      exact ih _ h2

theorem parseFirst_congr (first first' : List Nat) (rest rest' : List (List Nat))
    (hf : first.map toupper = first'.map toupper)
    (h : List.Forall₂ (fun t t' : List Nat => t.map toupper = t'.map toupper) rest rest') :
    (parseFirst first rest).1 = (parseFirst first' rest').1 ∧
      List.Forall₂ (fun t t' : List Nat => t.map toupper = t'.map toupper)
        (parseFirst first rest).2 (parseFirst first' rest').2 := by
  unfold parseFirst
  rw [parseArgument_congr (cstr "LIST") _ _ hf, parseArgument_congr (cstr "RESTORE") _ _ hf,
    parseArgument_congr (cstr "CONFIG") _ _ hf, parseArgument_congr (cstr "LED") _ _ hf,
    parseArgument_congr (cstr "UPDATE") _ _ hf]
  refine ite_rel (fun a b : ParseState × List (List Nat) => a.1 = b.1 ∧
    List.Forall₂ (fun t t' : List Nat => t.map toupper = t'.map toupper) a.2 b.2)
    _ _ _ _ _ (fun _ => ⟨rfl, h⟩) (fun _ => ?_)
  refine ite_rel (fun a b : ParseState × List (List Nat) => a.1 = b.1 ∧
    List.Forall₂ (fun t t' : List Nat => t.map toupper = t'.map toupper) a.2 b.2)
    _ _ _ _ _ (fun _ => ⟨rfl, h⟩) (fun _ => ?_)
  refine ite_rel (fun a b : ParseState × List (List Nat) => a.1 = b.1 ∧
    List.Forall₂ (fun t t' : List Nat => t.map toupper = t'.map toupper) a.2 b.2)
    _ _ _ _ _ (fun _ => ⟨rfl, h⟩) (fun _ => ?_)
  refine ite_rel (fun a b : ParseState × List (List Nat) => a.1 = b.1 ∧
    List.Forall₂ (fun t t' : List Nat => t.map toupper = t'.map toupper) a.2 b.2)
    _ _ _ _ _ (fun _ => ?_) (fun _ => ?_)
  · cases h with
    | nil => exact ⟨rfl, List.Forall₂.nil⟩
    | cons hv hr =>
      dsimp only
      rw [parseArgument_congr (cstr "TRUE") _ _ hv, parseArgument_congr (cstr "ON") _ _ hv,
        parseArgument_congr (cstr "1") _ _ hv, parseArgument_congr (cstr "FALSE") _ _ hv,
        parseArgument_congr (cstr "OFF") _ _ hv, parseArgument_congr (cstr "0") _ _ hv]
      split_ifs
      · exact ⟨rfl, hr⟩
      · exact ⟨rfl, hr⟩
      · exact ⟨rfl, hr⟩
  exact ite_rel (fun a b : ParseState × List (List Nat) => a.1 = b.1 ∧
    List.Forall₂ (fun t t' : List Nat => t.map toupper = t'.map toupper) a.2 b.2)
    _ _ _ _ _ (fun _ => ⟨rfl, h⟩) (fun _ => ⟨rfl, h⟩)

/-- C15: two argument lists of the same length whose tokens differ pairwise in letter case
only (they have the same upper-case form) give the same outcome: the same parse state, that
is the same error flag, operation, filter type, settings and table of upper-cased serial
numbers, and with the same devices the same result and output. -/
theorem C15_case_insensitive (ov : List Nat → Int) (arguments arguments' : List (List Nat))
    (devices : List hid_device_info)
    (h : List.Forall₂ (fun t t' : List Nat => t.map toupper = t'.map toupper)
      arguments arguments') :
    main ov arguments devices = main ov arguments' devices ∧
      ∀ first rest first' rest', arguments = first :: rest → arguments' = first' :: rest' →
        parseArguments ov first rest = parseArguments ov first' rest' := by
  have hparse : ∀ first rest first' rest', arguments = first :: rest →
      arguments' = first' :: rest' →
      parseArguments ov first rest = parseArguments ov first' rest' := by
    intro first rest first' rest' h1 h2
    subst h1 h2
    cases h with
    | cons hf hr =>
      obtain ⟨hs, hl⟩ := parseFirst_congr first first' rest rest' hf hr
      unfold parseArguments
      rw [hs]
      exact parseLoop_congr ov _ _ _ hl
  refine ⟨?_, hparse⟩
  cases h with
  | nil => rfl
  | cons hf hr =>
    rename_i first first' rest rest'
    unfold main
    dsimp only
    rw [hparse first rest first' rest' rfl rfl]

/-- C15, witness: `config 8000 lpf 2000 0123456789abcdef` and
`CONFIG 8000 LpF 2000 0123456789ABCDEF` give the same run. -/
theorem C15_case_insensitive_witness :
    main atoiZero [cstr "config", cstr "8000", cstr "lpf", cstr "2000", cstr "0123456789abcdef"]
        [echoDevice "0384_0123456789ABCDEF"] =
      main atoiZero [cstr "CONFIG", cstr "8000", cstr "LpF", cstr "2000", cstr "0123456789ABCDEF"]
        [echoDevice "0384_0123456789ABCDEF"] :=
  (C15_case_insensitive atoiZero
    [cstr "config", cstr "8000", cstr "lpf", cstr "2000", cstr "0123456789abcdef"]
    [cstr "CONFIG", cstr "8000", cstr "LpF", cstr "2000", cstr "0123456789ABCDEF"]
    [echoDevice "0384_0123456789ABCDEF"]
    (List.Forall₂.cons (by decide) (List.Forall₂.cons (by decide) (List.Forall₂.cons (by decide)
      (List.Forall₂.cons (by decide) (List.Forall₂.cons (by decide) List.Forall₂.nil)))))).1

/-! ## One filter keyword at most -/

/-- Case analysis on the branch taken by one iteration, with the test that selected it. -/
theorem parseStep_cases (ov : List Nat → Int) (st : ParseState) (argument : List Nat)
    (rest : List (List Nat)) (P : ParseState × List (List Nat) → Prop)
    (serial : (parseSerialNumber argument).isSome = true → st.operationType ≠ LIST_OP →
      P ({ st with parsedSerialNumbers :=
            st.parsedSerialNumbers ++ [(parseSerialNumber argument).getD []] }, rest))
    (rate : (parseNumberAgainstList ov argument validSampleRates).isSome = true →
      st.operationType = CONFIG_OP → P (setSampleRate ov st argument, rest))
    (gainBreak : P ({ st with parseError := true }, []))
    (gain : (parseArgument (cstr "GAIN") argument = true ∨
        parseArgument (cstr "G") argument = true) →
      (st.operationType = CONFIG_OP ∨ st.operationType = UPDATE_GAIN_OP) →
      ∀ v r, rest = v :: r → P (gainValue ov st v, r))
    (lowBreak : P ({ st with filterType := LOW_PASS_FILTER, parseError := true }, []))
    (low : isFilterKeyword argument = true → st.operationType = CONFIG_OP →
      st.filterType = NO_FILTER → ∀ v r, rest = v :: r → P (lowPassValue ov st v, r))
    (highBreak : P ({ st with filterType := HIGH_PASS_FILTER, parseError := true }, []))
    (high : isFilterKeyword argument = true → st.operationType = CONFIG_OP →
      st.filterType = NO_FILTER → ∀ v r, rest = v :: r → P (highPassValue ov st v, r))
    (bandBreak : P ({ st with filterType := BAND_PASS_FILTER, parseError := true }, []))
    (band : isFilterKeyword argument = true → st.operationType = CONFIG_OP →
      st.filterType = NO_FILTER → ∀ v w r, rest = v :: w :: r → P (bandPassValues ov st v w, r))
    (lowGain : (parseArgument (cstr "LOWGAINRANGE") argument = true ∨
        parseArgument (cstr "LGR") argument = true) →
      (st.operationType = CONFIG_OP ∨ st.operationType = UPDATE_GAIN_OP) →
      P ({ st with settings := { st.settings with enableLowGainRange := true } }, rest))
    (energy : (parseArgument (cstr "ENERGYSAVERMODE") argument = true ∨
        parseArgument (cstr "ESM") argument = true) → st.operationType = CONFIG_OP →
      P ({ st with settings := { st.settings with enableEnergySaverMode := true } }, rest))
    (dc : (parseArgument (cstr "DISABLE48HZ") argument = true ∨
        parseArgument (cstr "D48") argument = true) → st.operationType = CONFIG_OP →
      P ({ st with settings := { st.settings with disable48HzDCBlockingFilter := true } }, rest))
    (unknown : P ({ st with parseError := true }, rest)) :
    P (parseStep ov st argument rest) := by
  unfold parseStep
  refine ite_elim P _ _ _ (fun h => ?_) (fun _ => ?_)
  · simp only [Bool.and_eq_true, decide_eq_true_eq] at h
    exact serial h.1 h.2
  refine ite_elim P _ _ _ (fun h => ?_) (fun _ => ?_)
  · simp only [Bool.and_eq_true, decide_eq_true_eq] at h
    exact rate h.1 h.2
  refine ite_elim P _ _ _ (fun h => ?_) (fun _ => ?_)
  · simp only [Bool.and_eq_true, Bool.or_eq_true, decide_eq_true_eq] at h
    cases rest with
    | nil => exact gainBreak
    | cons v r => exact gain h.1 h.2 v r rfl
  refine ite_elim P _ _ _ (fun h => ?_) (fun _ => ?_)
  · simp only [Bool.and_eq_true, Bool.or_eq_true, decide_eq_true_eq] at h
    have hk : isFilterKeyword argument = true := by
      unfold isFilterKeyword
      rcases h.1.1 with h1 | h1 <;> simp [h1]
    cases rest with
    | nil => exact lowBreak
    | cons v r => exact low hk h.1.2 h.2 v r rfl
  refine ite_elim P _ _ _ (fun h => ?_) (fun _ => ?_)
  · simp only [Bool.and_eq_true, Bool.or_eq_true, decide_eq_true_eq] at h
    have hk : isFilterKeyword argument = true := by
      unfold isFilterKeyword
      rcases h.1.1 with h1 | h1 <;> simp [h1]
    cases rest with
    | nil => exact highBreak
    | cons v r => exact high hk h.1.2 h.2 v r rfl
  refine ite_elim P _ _ _ (fun h => ?_) (fun _ => ?_)
  · simp only [Bool.and_eq_true, Bool.or_eq_true, decide_eq_true_eq] at h
    have hk : isFilterKeyword argument = true := by
      unfold isFilterKeyword
      rcases h.1.1 with h1 | h1 <;> simp [h1]
    cases rest with
    | nil => exact bandBreak
    | cons v r =>
      cases r with
      | nil => exact bandBreak
      | cons w r => exact band hk h.1.2 h.2 v w r rfl
  refine ite_elim P _ _ _ (fun h => ?_) (fun _ => ?_)
  · simp only [Bool.and_eq_true, Bool.or_eq_true, decide_eq_true_eq] at h
    exact lowGain h.1 h.2
  refine ite_elim P _ _ _ (fun h => ?_) (fun _ => ?_)
  · simp only [Bool.and_eq_true, Bool.or_eq_true, decide_eq_true_eq] at h
    exact energy h.1 h.2
  refine ite_elim P _ _ _ (fun h => ?_) (fun _ => ?_)
  · simp only [Bool.and_eq_true, Bool.or_eq_true, decide_eq_true_eq] at h
    exact dc h.1 h.2
  exact unknown

/-- A token that `parseNumber` accepts matches no pattern that has a byte other than a
digit. -/
theorem parseArgument_of_number (ov : List Nat → Int) (pattern text : List Nat)
    (hn : (parseNumber ov text).isSome = true) (hp : pattern.all isDigit = false)
    (hlen : pattern.length < ARGUMENT_BUFFER_SIZE) : parseArgument pattern text = false := by
  cases h : parseArgument pattern text with
  | false => rfl
  | true =>
    exfalso
    have hu := (parseArgument_iff pattern text hlen).1 h
    have htl : text.length < ARGUMENT_BUFFER_SIZE := by
      have := congrArg List.length hu
      simp only [List.length_map] at this
      omega
    have hd : text.all isDigit = true := by
      unfold parseNumber at hn
      rw [List.take_of_length_le (Nat.le_of_lt htl)] at hn
      by_contra hc
      rw [if_neg hc] at hn
      simp at hn
    rw [parseArgument_digits pattern text hd hp hlen] at h
    exact absurd h (by decide)

/-- A token that matches a pattern matches no other pattern. -/
theorem parseArgument_unique (pattern pattern' text : List Nat)
    (h : parseArgument pattern text = true) (hlen : pattern.length < ARGUMENT_BUFFER_SIZE)
    (hlen' : pattern'.length < ARGUMENT_BUFFER_SIZE) (hne : pattern ≠ pattern') :
    parseArgument pattern' text = false := by
  cases h' : parseArgument pattern' text with
  | false => rfl
  | true =>
    rw [parseArgument_iff _ _ hlen] at h
    rw [parseArgument_iff _ _ hlen'] at h'
    exact absurd (h.symm.trans h') hne

theorem isFilterKeyword_of_number (ov : List Nat → Int) (text : List Nat)
    (hn : (parseNumber ov text).isSome = true) : isFilterKeyword text = false := by
  unfold isFilterKeyword
  rw [parseArgument_of_number ov _ text hn (by decide) (by decide),
    parseArgument_of_number ov _ text hn (by decide) (by decide),
    parseArgument_of_number ov _ text hn (by decide) (by decide),
    parseArgument_of_number ov _ text hn (by decide) (by decide),
    parseArgument_of_number ov _ text hn (by decide) (by decide),
    parseArgument_of_number ov _ text hn (by decide) (by decide)]
  rfl

theorem isFilterKeyword_of_serial (text : List Nat)
    (hs : (parseSerialNumber text).isSome = true) : isFilterKeyword text = false := by
  obtain ⟨s, hs⟩ := Option.isSome_iff_exists.1 hs
  have hlen := ((parseSerialNumber_eq_some text s).1 hs).1
  have key : ∀ pattern : List Nat, pattern.length < ARGUMENT_BUFFER_SIZE →
      pattern.length ≠ 16 → parseArgument pattern text = false := by
    intro pattern h1 h2
    cases h : parseArgument pattern text with
    | false => rfl
    | true =>
      exfalso
      rw [parseArgument_iff _ _ h1] at h
      have := congrArg List.length h
      simp only [List.length_map] at this
      unfold USB_SERIAL_NUMBER_LENGTH at hlen
      omega
  unfold isFilterKeyword
  rw [key _ (by decide) (by decide), key _ (by decide) (by decide),
    key _ (by decide) (by decide), key _ (by decide) (by decide),
    key _ (by decide) (by decide), key _ (by decide) (by decide)]
  rfl

/-- A token that matches a pattern other than the six filter keywords is no filter
keyword. -/
theorem isFilterKeyword_of_other (pattern text : List Nat)
    (h : parseArgument pattern text = true) (hlen : pattern.length < ARGUMENT_BUFFER_SIZE)
    (hne : pattern ≠ cstr "LOWPASSFILTER" ∧ pattern ≠ cstr "LPF" ∧
      pattern ≠ cstr "HIGHPASSFILTER" ∧ pattern ≠ cstr "HPF" ∧
      pattern ≠ cstr "BANDPASSFILTER" ∧ pattern ≠ cstr "BPF") :
    isFilterKeyword text = false := by
  unfold isFilterKeyword
  rw [parseArgument_unique pattern _ text h hlen (by decide) hne.1,
    parseArgument_unique pattern _ text h hlen (by decide) hne.2.1,
    parseArgument_unique pattern _ text h hlen (by decide) hne.2.2.1,
    parseArgument_unique pattern _ text h hlen (by decide) hne.2.2.2.1,
    parseArgument_unique pattern _ text h hlen (by decide) hne.2.2.2.2.1,
    parseArgument_unique pattern _ text h hlen (by decide) hne.2.2.2.2.2]
  rfl

theorem gainValue_noerror (ov : List Nat → Int) (st : ParseState) (v : List Nat)
    (h : (gainValue ov st v).parseError = false) :
    ∃ gain, parseNumber ov v = some gain ∧ 0 ≤ gain ∧ gain ≤ 4 ∧
      gainValue ov st v = { st with settings := { st.settings with gain := toUInt8 gain } } := by
  unfold gainValue at h ⊢
  cases hp : parseNumber ov v with
  | none =>
    rw [hp] at h
    exact absurd h (by simp)
  | some gain =>
    rw [hp] at h
    dsimp only at h ⊢
    by_cases hg : (decide (0 ≤ gain) && decide (gain ≤ 4)) = true
    · rw [if_pos hg]
      simp only [Bool.and_eq_true, decide_eq_true_eq] at hg
      exact ⟨gain, rfl, hg.1, hg.2, rfl⟩
    · rw [if_neg hg] at h
      exact absurd h (by simp)

theorem validFilterFreq_isSome (parsed : Option Int) (h : validFilterFreq parsed = true) :
    parsed.isSome = true := by
  cases parsed with
  | none => simp [validFilterFreq] at h
  | some v => rfl

theorem lowPassValue_noerror (ov : List Nat → Int) (st : ParseState) (v : List Nat)
    (h : (lowPassValue ov st v).parseError = false) :
    (parseNumber ov v).isSome = true ∧ (lowPassValue ov st v).filterType = LOW_PASS_FILTER := by
  unfold lowPassValue at h ⊢
  dsimp only at h ⊢
  by_cases hv : validFilterFreq (parseNumber ov v) = true
  · rw [if_pos hv]
    exact ⟨validFilterFreq_isSome _ hv, rfl⟩
  · rw [if_neg hv] at h
    exact absurd h (by simp)

theorem highPassValue_noerror (ov : List Nat → Int) (st : ParseState) (v : List Nat)
    (h : (highPassValue ov st v).parseError = false) :
    (parseNumber ov v).isSome = true ∧ (highPassValue ov st v).filterType = HIGH_PASS_FILTER := by
  unfold highPassValue at h ⊢
  dsimp only at h ⊢
  by_cases hv : validFilterFreq (parseNumber ov v) = true
  · rw [if_pos hv]
    exact ⟨validFilterFreq_isSome _ hv, rfl⟩
  · rw [if_neg hv] at h
    exact absurd h (by simp)

theorem bandPassValues_noerror (ov : List Nat → Int) (st : ParseState) (v w : List Nat)
    (h : (bandPassValues ov st v w).parseError = false) :
    (parseNumber ov v).isSome = true ∧ (parseNumber ov w).isSome = true ∧
      (bandPassValues ov st v w).filterType = BAND_PASS_FILTER := by
  unfold bandPassValues at h ⊢
  dsimp only at h ⊢
  by_cases hw : validFilterFreq (parseNumber ov w) = true
  · rw [if_pos hw] at h ⊢
    dsimp only at h
    have hv : validFilterFreq (parseNumber ov v) = true := by
      cases hvv : validFilterFreq (parseNumber ov v) with
      | true => rfl
      | false =>
        rw [hvv] at h
        exact absurd h (by simp)
    exact ⟨validFilterFreq_isSome _ hv, validFilterFreq_isSome _ hw, rfl⟩
  · rw [if_neg hw] at h
    exact absurd h (by simp)

theorem parseNumberAgainstList_isSome (ov : List Nat → Int) (text : List Nat)
    (validNumbers : List Int)
    (h : (parseNumberAgainstList ov text validNumbers).isSome = true) :
    (parseNumber ov text).isSome = true := by
  unfold parseNumberAgainstList at h
  cases hp : parseNumber ov text with
  | none =>
    rw [hp] at h
    exact absurd h (by simp)
  | some v => rfl

theorem filter_count_le_one (token : List Nat) :
    ([token].filter isFilterKeyword).length ≤ 1 := by
  exact le_trans (List.length_filter_le _ _) (by simp)

/-- One iteration that leaves no parse error takes at most as many filter keywords as it
activates filters. -/
theorem parseStep_filter_count (ov : List Nat → Int) (st : ParseState) (argument : List Nat)
    (rest : List (List Nat)) :
    (parseStep ov st argument rest).1.parseError = false →
      ((argument :: rest).filter isFilterKeyword).length +
          (if st.filterType = NO_FILTER then 0 else 1) ≤
        ((parseStep ov st argument rest).2.filter isFilterKeyword).length +
          (if (parseStep ov st argument rest).1.filterType = NO_FILTER then 0 else 1) := by
  apply parseStep_cases ov st argument rest (fun p => p.1.parseError = false →
    ((argument :: rest).filter isFilterKeyword).length +
        (if st.filterType = NO_FILTER then 0 else 1) ≤
      (p.2.filter isFilterKeyword).length + (if p.1.filterType = NO_FILTER then 0 else 1))
  case serial =>
    intro hs _ _
    rw [List.filter_cons_of_neg (by rw [isFilterKeyword_of_serial argument hs]; decide)]
  case rate =>
    intro hn _ _
    rw [List.filter_cons_of_neg (by
      rw [isFilterKeyword_of_number ov argument (parseNumberAgainstList_isSome ov _ _ hn)]
      decide)]
    rfl
  case gainBreak => intro h; exact absurd h (by simp)
  case lowBreak => intro h; exact absurd h (by simp)
  case highBreak => intro h; exact absurd h (by simp)
  case bandBreak => intro h; exact absurd h (by simp)
  case unknown => intro h; exact absurd h (by simp)
  case gain =>
    intro hkey _ v r hr hne
    subst hr
    obtain ⟨g, hg, -, -, heq⟩ := gainValue_noerror ov st v hne
    have ha : isFilterKeyword argument = false := by
      rcases hkey with h | h
      · exact isFilterKeyword_of_other _ _ h (by decide) (by decide)
      · exact isFilterKeyword_of_other _ _ h (by decide) (by decide)
    have hv : isFilterKeyword v = false :=
      isFilterKeyword_of_number ov v (by rw [hg]; rfl)
    rw [List.filter_cons_of_neg (by rw [ha]; decide),
      List.filter_cons_of_neg (by rw [hv]; decide), heq]
  case low =>
    intro _ _ hf v r hr hne
    subst hr
    obtain ⟨hn, hft⟩ := lowPassValue_noerror ov st v hne
    have hv : isFilterKeyword v = false := isFilterKeyword_of_number ov v hn
    have := filter_count_le_one argument
    dsimp only
    rw [hft, if_pos hf, if_neg (by decide), List.filter_cons,
      List.filter_cons_of_neg (by rw [hv]; decide)]
    rw [List.filter_cons, List.filter_nil] at this
    split_ifs at this ⊢
    simp at this ⊢
  case high =>
    intro _ _ hf v r hr hne
    subst hr
    obtain ⟨hn, hft⟩ := highPassValue_noerror ov st v hne
    have hv : isFilterKeyword v = false := isFilterKeyword_of_number ov v hn
    dsimp only
    rw [hft, if_pos hf, if_neg (by decide), List.filter_cons,
      List.filter_cons_of_neg (by rw [hv]; decide)]
    split_ifs
    simp
  case band =>
    intro _ _ hf v w r hr hne
    subst hr
    obtain ⟨hn, hn', hft⟩ := bandPassValues_noerror ov st v w hne
    have hv : isFilterKeyword v = false := isFilterKeyword_of_number ov v hn
    have hw : isFilterKeyword w = false := isFilterKeyword_of_number ov w hn'
    dsimp only
    rw [hft, if_pos hf, if_neg (by decide), List.filter_cons,
      List.filter_cons_of_neg (by rw [hv]; decide),
      List.filter_cons_of_neg (by rw [hw]; decide)]
    split_ifs
    simp
  case lowGain =>
    intro hkey _ _
    have ha : isFilterKeyword argument = false := by
      rcases hkey with h | h
      · exact isFilterKeyword_of_other _ _ h (by decide) (by decide)
      · exact isFilterKeyword_of_other _ _ h (by decide) (by decide)
    rw [List.filter_cons_of_neg (by rw [ha]; decide)]
  case energy =>
    intro hkey _ _
    have ha : isFilterKeyword argument = false := by
      rcases hkey with h | h
      · exact isFilterKeyword_of_other _ _ h (by decide) (by decide)
      · exact isFilterKeyword_of_other _ _ h (by decide) (by decide)
    rw [List.filter_cons_of_neg (by rw [ha]; decide)]
  case dc =>
    intro hkey _ _
    have ha : isFilterKeyword argument = false := by
      rcases hkey with h | h
      · exact isFilterKeyword_of_other _ _ h (by decide) (by decide)
      · exact isFilterKeyword_of_other _ _ h (by decide) (by decide)
    rw [List.filter_cons_of_neg (by rw [ha]; decide)]

/-- Arguments parsed without error hold at most one filter keyword, and none when a filter
is active already. -/
theorem parseLoop_filter_count (ov : List Nat → Int) :
    ∀ (st : ParseState) (l : List (List Nat)), (parseLoop ov st l).parseError = false →
      (l.filter isFilterKeyword).length + (if st.filterType = NO_FILTER then 0 else 1) ≤ 1 := by
  apply parseLoop_induction ov
  · intro st _
    simp only [List.filter_nil, List.length_nil, zero_add]
    split_ifs <;> omega
  · intro st a rest he h
    rw [parseLoop_error ov st _ he, he] at h
    exact absurd h (by decide)
  · intro st a rest he ih h
    rw [parseLoop_cons ov st a rest he] at h
    have hs : (parseStep ov st a rest).1.parseError = false := by
      cases hc : (parseStep ov st a rest).1.parseError with
      | false => rfl
      | true =>
        rw [parseLoop_error ov _ _ hc, hc] at h
        exact absurd h (by decide)
    exact le_trans (parseStep_filter_count ov st a rest hs) (ih h)

/-- A filter keyword met when a filter is active is a parse error. -/
theorem parseStep_second_filter (ov : List Nat → Int) (st : ParseState) (argument : List Nat)
    (rest : List (List Nat)) (hkey : isFilterKeyword argument = true)
    (hf : st.filterType ≠ NO_FILTER) :
    (parseStep ov st argument rest).1.parseError = true := by
  apply parseStep_cases ov st argument rest (fun p => p.1.parseError = true)
  case serial =>
    intro hs _
    rw [isFilterKeyword_of_serial argument hs] at hkey
    exact absurd hkey (by decide)
  case rate =>
    intro hn _
    rw [isFilterKeyword_of_number ov argument (parseNumberAgainstList_isSome ov _ _ hn)] at hkey
    exact absurd hkey (by decide)
  case gain =>
    intro hk _ v r _
    exfalso
    rcases hk with h | h
    · rw [isFilterKeyword_of_other _ _ h (by decide) (by decide)] at hkey
      exact absurd hkey (by decide)
    · rw [isFilterKeyword_of_other _ _ h (by decide) (by decide)] at hkey
      exact absurd hkey (by decide)
  case low => intro _ _ h; exact absurd h hf
  case high => intro _ _ h; exact absurd h hf
  case band => intro _ _ h; exact absurd h hf
  case lowGain =>
    intro hk _
    exfalso
    rcases hk with h | h
    · rw [isFilterKeyword_of_other _ _ h (by decide) (by decide)] at hkey
      exact absurd hkey (by decide)
    · rw [isFilterKeyword_of_other _ _ h (by decide) (by decide)] at hkey
      exact absurd hkey (by decide)
  case energy =>
    intro hk _
    exfalso
    rcases hk with h | h
    · rw [isFilterKeyword_of_other _ _ h (by decide) (by decide)] at hkey
      exact absurd hkey (by decide)
    · rw [isFilterKeyword_of_other _ _ h (by decide) (by decide)] at hkey
      exact absurd hkey (by decide)
  case dc =>
    intro hk _
    exfalso
    rcases hk with h | h
    · rw [isFilterKeyword_of_other _ _ h (by decide) (by decide)] at hkey
      exact absurd hkey (by decide)
    · rw [isFilterKeyword_of_other _ _ h (by decide) (by decide)] at hkey
      exact absurd hkey (by decide)
  all_goals rfl

/-- C16: a CONFIG argument list that is parsed without error contains at most one filter
keyword (`LPF`, `HPF`, `BPF` or a long form, in any letter case); and a filter keyword met
where an option is expected after a filter keyword was taken (the filter type is no longer
`NO_FILTER`), of the same or of another kind, is a parse error and the run returns 1. -/
theorem C16_one_filter_keyword (ov : List Nat → Int) (first : List Nat)
    (rest pre : List (List Nat)) (keyword : List Nat) (post : List (List Nat))
    (devices : List hid_device_info) (hfirst : first.map toupper = cstr "CONFIG") :
    ((parseArguments ov first rest).parseError = false →
      (rest.filter isFilterKeyword).length ≤ 1) ∧
    ((parseLoop ov (parseFirst first []).1 pre).parseError = false →
      (parseLoop ov (parseFirst first []).1 pre).filterType ≠ NO_FILTER →
      isFilterKeyword keyword = true →
      (parseArguments ov first (pre ++ keyword :: post)).parseError = true ∧
        main ov (first :: (pre ++ keyword :: post)) devices =
          ⟨1, [Output.version, Output.couldNotParse]⟩) := by
  constructor
  · intro h
    unfold parseArguments at h
    rw [parseFirst_config first rest hfirst] at h
    have := parseLoop_filter_count ov _ rest h
    exact le_trans (Nat.le_add_right _ _) this
  · intro hpre hf hkey
    obtain ⟨hrun, -⟩ := parseArguments_config ov first pre (keyword :: post) hfirst hpre
    have herr : (parseArguments ov first (pre ++ keyword :: post)).parseError = true := by
      rw [hrun, parseLoop_cons ov _ _ _ hpre,
        parseLoop_error ov _ _ (parseStep_second_filter ov _ keyword post hkey hf)]
      exact parseStep_second_filter ov _ keyword post hkey hf
    exact ⟨herr, main_of_parseError ov first _ devices herr⟩

/-- C16, witness: `CONFIG LPF 1000 LPF 2000` and `CONFIG hpf 1000 BANDPASSFILTER 100 200` are
parse errors. -/
theorem C16_one_filter_keyword_witness :
    main atoiZero (cstr "CONFIG" :: ([cstr "LPF", cstr "1000"] ++ cstr "LPF" :: [cstr "2000"]))
        [echoDevice "0384_0123456789ABCDEF"] =
      ⟨1, [Output.version, Output.couldNotParse]⟩ ∧
    main atoiZero
        (cstr "CONFIG" ::
          ([cstr "hpf", cstr "1000"] ++ cstr "BANDPASSFILTER" :: [cstr "100", cstr "200"]))
        [echoDevice "0384_0123456789ABCDEF"] =
      ⟨1, [Output.version, Output.couldNotParse]⟩ ∧
    ([cstr "8000", cstr "LPF", cstr "1000", cstr "LGR"].filter isFilterKeyword).length ≤ 1 :=
  ⟨((C16_one_filter_keyword atoiZero (cstr "CONFIG") [] [cstr "LPF", cstr "1000"] (cstr "LPF")
      [cstr "2000"] [echoDevice "0384_0123456789ABCDEF"] (by decide)).2
      (by decide) (by decide) (by decide)).2,
    ((C16_one_filter_keyword atoiZero (cstr "CONFIG") [] [cstr "hpf", cstr "1000"]
      (cstr "BANDPASSFILTER") [cstr "100", cstr "200"] [echoDevice "0384_0123456789ABCDEF"]
      (by decide)).2 (by decide) (by decide) (by decide)).2,
    (C16_one_filter_keyword atoiZero (cstr "CONFIG") [cstr "8000", cstr "LPF", cstr "1000",
      cstr "LGR"] [] [] [] [] (by decide)).1 (by decide)⟩

/-! ## What each operation can change -/

/-- A token that matches a pattern is not made of digits alone, unless the pattern is. -/
theorem all_isDigit_of_parseArgument (pattern text : List Nat)
    (h : parseArgument pattern text = true) (hlen : pattern.length < ARGUMENT_BUFFER_SIZE)
    (hp : pattern.all isDigit = false) : text.all isDigit = false := by
  cases hd : text.all isDigit with
  | false => rfl
  | true =>
    rw [parseArgument_digits pattern text hd hp hlen] at h
    exact absurd h (by decide)

theorem isConfigFlagKeyword_of_number (ov : List Nat → Int) (text : List Nat)
    (hn : (parseNumber ov text).isSome = true) : isConfigFlagKeyword text = false := by
  unfold isConfigFlagKeyword
  rw [parseArgument_of_number ov _ text hn (by decide) (by decide),
    parseArgument_of_number ov _ text hn (by decide) (by decide),
    parseArgument_of_number ov _ text hn (by decide) (by decide),
    parseArgument_of_number ov _ text hn (by decide) (by decide)]
  rfl

theorem isConfigFlagKeyword_of_other (pattern text : List Nat)
    (h : parseArgument pattern text = true) (hlen : pattern.length < ARGUMENT_BUFFER_SIZE)
    (hne : pattern ≠ cstr "ENERGYSAVERMODE" ∧ pattern ≠ cstr "ESM" ∧
      pattern ≠ cstr "DISABLE48HZ" ∧ pattern ≠ cstr "D48") :
    isConfigFlagKeyword text = false := by
  unfold isConfigFlagKeyword
  rw [parseArgument_unique pattern _ text h hlen (by decide) hne.1,
    parseArgument_unique pattern _ text h hlen (by decide) hne.2.1,
    parseArgument_unique pattern _ text h hlen (by decide) hne.2.2.1,
    parseArgument_unique pattern _ text h hlen (by decide) hne.2.2.2]
  rfl

/-- A token that matches a keyword with a letter belongs to the grammar of CONFIG alone
only if the keyword does. -/
theorem isConfigOnlyToken_of_other (pattern text : List Nat)
    (h : parseArgument pattern text = true) (hlen : pattern.length < ARGUMENT_BUFFER_SIZE)
    (hp : pattern.all isDigit = false)
    (hne : pattern ≠ cstr "LOWPASSFILTER" ∧ pattern ≠ cstr "LPF" ∧
      pattern ≠ cstr "HIGHPASSFILTER" ∧ pattern ≠ cstr "HPF" ∧
      pattern ≠ cstr "BANDPASSFILTER" ∧ pattern ≠ cstr "BPF")
    (hne' : pattern ≠ cstr "ENERGYSAVERMODE" ∧ pattern ≠ cstr "ESM" ∧
      pattern ≠ cstr "DISABLE48HZ" ∧ pattern ≠ cstr "D48") :
    isConfigOnlyToken text = false := by
  unfold isConfigOnlyToken isSampleRateToken
  rw [all_isDigit_of_parseArgument pattern text h hlen hp,
    isFilterKeyword_of_other pattern text h hlen hne,
    isConfigFlagKeyword_of_other pattern text h hlen hne']
  rfl

theorem isConfigOnlyToken_of_serial (text : List Nat)
    (hs : (parseSerialNumber text).isSome = true) : isConfigOnlyToken text = false := by
  obtain ⟨s, hs'⟩ := Option.isSome_iff_exists.1 hs
  have hlen := ((parseSerialNumber_eq_some text s).1 hs').1
  have key : ∀ pattern : List Nat, pattern.length < ARGUMENT_BUFFER_SIZE →
      pattern.length ≠ 16 → parseArgument pattern text = false := by
    intro pattern h1 h2
    cases h : parseArgument pattern text with
    | false => rfl
    | true =>
      exfalso
      rw [parseArgument_iff _ _ h1] at h
      have := congrArg List.length h
      simp only [List.length_map] at this
      unfold USB_SERIAL_NUMBER_LENGTH at hlen
      omega
  unfold isConfigOnlyToken isSampleRateToken isConfigFlagKeyword
  rw [isFilterKeyword_of_serial text hs, key _ (by decide) (by decide),
    key _ (by decide) (by decide), key _ (by decide) (by decide),
    key _ (by decide) (by decide)]
  simp [hlen]

theorem validSampleRates_ge (value : Int) (h : value ∈ validSampleRates) :
    8000 ≤ value ∧ value ≤ 384000 := by
  unfold validSampleRates at h
  simp only [List.mem_cons, List.mem_singleton, List.not_mem_nil, or_false] at h
  omega

/-- A token that `parseNumber` reads as a number below 8000 does not belong to the grammar
of CONFIG alone. -/
theorem isConfigOnlyToken_of_small_number (ov : List Nat → Int) (text : List Nat) (value : Int)
    (hn : parseNumber ov text = some value) (hv : value < 8000) :
    isConfigOnlyToken text = false := by
  have hsome : (parseNumber ov text).isSome = true := by rw [hn]; rfl
  unfold isConfigOnlyToken
  rw [isFilterKeyword_of_number ov text hsome, isConfigFlagKeyword_of_number ov text hsome]
  simp only [Bool.or_false]
  unfold isSampleRateToken
  cases hd : text.all isDigit with
  | false => rfl
  | true =>
    by_cases hmem : (digitsValue text : Int) ∈ validSampleRates
    · exfalso
      have hb := validSampleRates_ge _ hmem
      have hint : digitsValue text ≤ INT_MAX := by
        unfold INT_MAX
        omega
      rw [parseNumber_digits ov text hd hint] at hn
      simp only [Option.some.injEq] at hn
      omega
    · simp [hmem]

/-- In a run of an operation other than CONFIG, one iteration that leaves no parse error
has taken no token of the grammar of CONFIG alone. -/
theorem parseStep_configOnly (ov : List Nat → Int) (st : ParseState) (argument : List Nat)
    (rest : List (List Nat)) (hop : st.operationType ≠ CONFIG_OP) :
    (parseStep ov st argument rest).1.parseError = false →
      (∀ t ∈ (parseStep ov st argument rest).2, isConfigOnlyToken t = false) →
      ∀ t ∈ argument :: rest, isConfigOnlyToken t = false := by
  apply parseStep_cases ov st argument rest (fun p => p.1.parseError = false →
    (∀ t ∈ p.2, isConfigOnlyToken t = false) →
    ∀ t ∈ argument :: rest, isConfigOnlyToken t = false)
  case serial =>
    intro hs _ _ hr t ht
    rcases List.mem_cons.1 ht with h | h
    · rw [h]
      exact isConfigOnlyToken_of_serial argument hs
    · exact hr t h
  case rate => intro _ h; exact absurd h hop
  case low => intro _ h; exact absurd h hop
  case high => intro _ h; exact absurd h hop
  case band => intro _ h; exact absurd h hop
  case energy => intro _ h; exact absurd h hop
  case dc => intro _ h; exact absurd h hop
  case gainBreak => intro h; exact absurd h (by simp)
  case lowBreak => intro h; exact absurd h (by simp)
  case highBreak => intro h; exact absurd h (by simp)
  case bandBreak => intro h; exact absurd h (by simp)
  case unknown => intro h; exact absurd h (by simp)
  case gain =>
    intro hkey _ v r hrest hne hr t ht
    subst hrest
    obtain ⟨g, hg, -, hg4, -⟩ := gainValue_noerror ov st v hne
    rcases List.mem_cons.1 ht with h | h
    · rw [h]
      rcases hkey with hk | hk
      · exact isConfigOnlyToken_of_other _ _ hk (by decide) (by decide) (by decide) (by decide)
      · exact isConfigOnlyToken_of_other _ _ hk (by decide) (by decide) (by decide) (by decide)
    · rcases List.mem_cons.1 h with h' | h'
      · rw [h']
        exact isConfigOnlyToken_of_small_number ov v g hg (by omega)
      · exact hr t h'
  case lowGain =>
    intro hkey _ _ hr t ht
    rcases List.mem_cons.1 ht with h | h
    · rw [h]
      rcases hkey with hk | hk
      · exact isConfigOnlyToken_of_other _ _ hk (by decide) (by decide) (by decide) (by decide)
      · exact isConfigOnlyToken_of_other _ _ hk (by decide) (by decide) (by decide) (by decide)
    · exact hr t h

/-- In a run of an operation other than CONFIG, arguments parsed without error hold no
token of the grammar of CONFIG alone. -/
theorem parseLoop_configOnly (ov : List Nat → Int) :
    ∀ (st : ParseState) (l : List (List Nat)), st.operationType ≠ CONFIG_OP →
      (parseLoop ov st l).parseError = false → ∀ t ∈ l, isConfigOnlyToken t = false := by
  apply parseLoop_induction ov
  · intro st _ _ t ht
    simp at ht
  · intro st a rest he _ h
    rw [parseLoop_error ov st _ he, he] at h
    exact absurd h (by decide)
  · intro st a rest he ih hop h
    rw [parseLoop_cons ov st a rest he] at h
    have hs : (parseStep ov st a rest).1.parseError = false := by
      cases hc : (parseStep ov st a rest).1.parseError with
      | false => rfl
      | true =>
        rw [parseLoop_error ov _ _ hc, hc] at h
        exact absurd h (by decide)
    exact parseStep_configOnly ov st a rest hop hs
      (ih (by rw [parseStep_operationType]; exact hop) h)

theorem gainValue_settings (ov : List Nat → Int) (st : ParseState) (v : List Nat) :
    (gainValue ov st v).settings =
      { st.settings with gain := (gainValue ov st v).settings.gain } := by
  unfold gainValue
  split
  · split <;> rfl
  · rfl

/-- One iteration of a run of an operation other than CONFIG changes no field of the
settings but `gain` and `enableLowGainRange`, and changes none unless the operation is
UPDATE. -/
theorem parseStep_settings (ov : List Nat → Int) (st : ParseState) (argument : List Nat)
    (rest : List (List Nat)) (hop : st.operationType ≠ CONFIG_OP) :
    (parseStep ov st argument rest).1.settings =
        { st.settings with
          gain := (parseStep ov st argument rest).1.settings.gain
          enableLowGainRange := (parseStep ov st argument rest).1.settings.enableLowGainRange } ∧
      (st.operationType ≠ UPDATE_GAIN_OP →
        (parseStep ov st argument rest).1.settings = st.settings) := by
  apply parseStep_cases ov st argument rest (fun p =>
    p.1.settings = { st.settings with
        gain := p.1.settings.gain
        enableLowGainRange := p.1.settings.enableLowGainRange } ∧
      (st.operationType ≠ UPDATE_GAIN_OP → p.1.settings = st.settings))
  case serial => intro _ _; exact ⟨rfl, fun _ => rfl⟩
  case rate => intro _ h; exact absurd h hop
  case low => intro _ h; exact absurd h hop
  case high => intro _ h; exact absurd h hop
  case band => intro _ h; exact absurd h hop
  case energy => intro _ h; exact absurd h hop
  case dc => intro _ h; exact absurd h hop
  case gainBreak => exact ⟨rfl, fun _ => rfl⟩
  case lowBreak => exact ⟨rfl, fun _ => rfl⟩
  case highBreak => exact ⟨rfl, fun _ => rfl⟩
  case bandBreak => exact ⟨rfl, fun _ => rfl⟩
  case unknown => exact ⟨rfl, fun _ => rfl⟩
  case gain =>
    intro _ hc v r _
    rcases hc with hc | hc
    · exact absurd hc hop
    · refine ⟨?_, fun h => absurd hc h⟩
      have := gainValue_settings ov st v
      dsimp only at this ⊢
      rw [this]
  case lowGain =>
    intro _ hc
    rcases hc with hc | hc
    · exact absurd hc hop
    · exact ⟨rfl, fun h => absurd hc h⟩

/-- The arguments of a run of an operation other than CONFIG change no field of the
settings but `gain` and `enableLowGainRange`, and change none unless the operation is
UPDATE. -/
theorem parseLoop_settings (ov : List Nat → Int) :
    ∀ (st : ParseState) (l : List (List Nat)), st.operationType ≠ CONFIG_OP →
      (parseLoop ov st l).settings =
          { st.settings with
            gain := (parseLoop ov st l).settings.gain
            enableLowGainRange := (parseLoop ov st l).settings.enableLowGainRange } ∧
        (st.operationType ≠ UPDATE_GAIN_OP → (parseLoop ov st l).settings = st.settings) := by
  apply parseLoop_induction ov
  · intro st _
    exact ⟨rfl, fun _ => rfl⟩
  · intro st a rest he _
    rw [parseLoop_error ov st _ he]
    exact ⟨rfl, fun _ => rfl⟩
  · intro st a rest he ih hop
    rw [parseLoop_cons ov st a rest he]
    have hs := parseStep_settings ov st a rest hop
    have hi := ih (by rw [parseStep_operationType]; exact hop)
    rw [parseStep_operationType] at hi
    refine ⟨?_, fun h => ?_⟩
    · rw [hi.1, hs.1]
    · rw [hi.2 h, hs.2 h]

/-- The token after `LED`, when it is accepted, does not belong to the grammar of CONFIG
alone. -/
theorem isConfigOnlyToken_of_boolean (text : List Nat)
    (h : (parseArgument (cstr "TRUE") text || parseArgument (cstr "ON") text
        || parseArgument (cstr "1") text) = true ∨
      (parseArgument (cstr "FALSE") text || parseArgument (cstr "OFF") text
        || parseArgument (cstr "0") text) = true) :
    isConfigOnlyToken text = false := by
  have number : ∀ pattern : List Nat, pattern.length < ARGUMENT_BUFFER_SIZE →
      pattern.all isDigit = true → digitsValue pattern < 8000 →
      parseArgument pattern text = true → isConfigOnlyToken text = false := by
    intro pattern hlen hd hv hp
    rw [parseArgument_iff _ _ hlen] at hp
    have hd' : text.all isDigit = true := by
      rw [← all_isDigit_map_toupper, hp]
      exact hd
    rw [map_toupper_of_digits text hd'] at hp
    subst hp
    exact isConfigOnlyToken_of_small_number atoiZero text (digitsValue text)
      (parseNumber_digits atoiZero text hd' (by unfold INT_MAX; omega)) (by omega)
  simp only [Bool.or_eq_true] at h
  rcases h with (((h | h) | h) | ((h | h) | h))
  · exact isConfigOnlyToken_of_other _ _ h (by decide) (by decide) (by decide) (by decide)
  · exact isConfigOnlyToken_of_other _ _ h (by decide) (by decide) (by decide) (by decide)
  · exact number _ (by decide) (by decide) (by decide) h
  · exact isConfigOnlyToken_of_other _ _ h (by decide) (by decide) (by decide) (by decide)
  · exact isConfigOnlyToken_of_other _ _ h (by decide) (by decide) (by decide) (by decide)
  · exact number _ (by decide) (by decide) (by decide) h

/-- The first argument, when it is not `CONFIG`: the operation is not CONFIG, only the
field `disableLED` of the settings can differ from its default, and it does only for LED;
the token after `LED`, when accepted, does not belong to the grammar of CONFIG alone. -/
theorem parseFirst_frame (first : List Nat) (rest : List (List Nat))
    (hfirst : first.map toupper ≠ cstr "CONFIG") :
    (parseFirst first rest).1.operationType ≠ CONFIG_OP ∧
      (parseFirst first rest).1.settings =
        { defaultConfigSettings with
          disableLED := (parseFirst first rest).1.settings.disableLED } ∧
      ((parseFirst first rest).1.operationType ≠ SET_LED_OP →
        (parseFirst first rest).1.settings = defaultConfigSettings) ∧
      ((parseFirst first rest).1.parseError = false →
        (∀ t ∈ (parseFirst first rest).2, isConfigOnlyToken t = false) →
        ∀ t ∈ rest, isConfigOnlyToken t = false) := by
  have hc : ¬ parseArgument (cstr "CONFIG") first = true := by
    rw [parseArgument_iff _ _ (by decide)]
    exact hfirst
  obtain ⟨P, hP⟩ : ∃ P : ParseState × List (List Nat) → Prop, P = fun p =>
      p.1.operationType ≠ CONFIG_OP ∧
      p.1.settings = { defaultConfigSettings with disableLED := p.1.settings.disableLED } ∧
      (p.1.operationType ≠ SET_LED_OP → p.1.settings = defaultConfigSettings) ∧
      (p.1.parseError = false → (∀ t ∈ p.2, isConfigOnlyToken t = false) →
        ∀ t ∈ rest, isConfigOnlyToken t = false) := ⟨_, rfl⟩
  suffices h : P (parseFirst first rest) by
    rw [hP] at h
    exact h
  unfold parseFirst
  refine ite_elim P _ _ _ (fun _ => ?_) (fun _ => ?_)
  · rw [hP]
    exact ⟨by simp, rfl, fun _ => rfl, fun _ h => h⟩
  refine ite_elim P _ _ _ (fun _ => ?_) (fun _ => ?_)
  · rw [hP]
    exact ⟨by simp, rfl, fun _ => rfl, fun _ h => h⟩
  refine ite_elim P _ _ _ (fun h => absurd h hc) (fun _ => ?_)
  refine ite_elim P _ _ _ (fun _ => ?_) (fun _ => ?_)
  · cases rest with
    | nil =>
      rw [hP]
      exact ⟨by simp, rfl, fun h => absurd rfl h, fun h => absurd h (by simp)⟩
    | cons b tail =>
      dsimp only
      refine ite_elim P _ _ _ (fun hb => ?_) (fun _ => ?_)
      · rw [hP]
        refine ⟨by simp, rfl, fun h => absurd rfl h, fun _ h t ht => ?_⟩
        rcases List.mem_cons.1 ht with ht | ht
        · rw [ht]
          exact isConfigOnlyToken_of_boolean b (Or.inl hb)
        · exact h t ht
      refine ite_elim P _ _ _ (fun hb => ?_) (fun _ => ?_)
      · rw [hP]
        refine ⟨by simp, rfl, fun h => absurd rfl h, fun _ h t ht => ?_⟩
        rcases List.mem_cons.1 ht with ht | ht
        · rw [ht]
          exact isConfigOnlyToken_of_boolean b (Or.inr hb)
        · exact h t ht
      · rw [hP]
        exact ⟨by simp, rfl, fun h => absurd rfl h, fun h => absurd h (by simp)⟩
  refine ite_elim P _ _ _ (fun _ => ?_) (fun _ => ?_)
  · rw [hP]
    exact ⟨by simp, rfl, fun _ => rfl, fun _ h => h⟩
  · rw [hP]
    exact ⟨by simp [initialState], rfl, fun _ => rfl, fun h => absurd h (by simp)⟩

theorem parseFirst_led_operationType (first : List Nat) (rest : List (List Nat))
    (h : first.map toupper = cstr "LED") :
    (parseFirst first rest).1.operationType = SET_LED_OP := by
  unfold parseFirst
  rw [if_neg (by simp +decide [parseArgument_eq_decide first _ h (by decide)]),
    if_neg (by simp +decide [parseArgument_eq_decide first _ h (by decide)]),
    if_neg (by simp +decide [parseArgument_eq_decide first _ h (by decide)]),
    if_pos (by simp +decide [parseArgument_eq_decide first _ h (by decide)])]
  cases rest with
  | nil => rfl
  | cons b tail =>
    dsimp only
    split_ifs <;> rfl

/-- C17: each operation can change only the settings its grammar allows.  When the first
argument is not `CONFIG` (in any letter case) and the arguments parse without error, the
settings equal the defaults in every field for `RESTORE`, in every field but `disableLED`
for `LED`, and in every field but `gain` and `enableLowGainRange` for `UPDATE`; and if one
of the further arguments is a sample-rate token, a filter keyword, `ENERGYSAVERMODE`/`ESM`
or `DISABLE48HZ`/`D48`, the parse ends in error and the run returns 1 after the
could-not-parse message. -/
theorem C17_operation_frame (ov : List Nat → Int) (first : List Nat) (rest : List (List Nat))
    (hfirst : first.map toupper ≠ cstr "CONFIG") :
    ((parseArguments ov first rest).parseError = false →
      (first.map toupper = cstr "RESTORE" →
        (parseArguments ov first rest).settings = defaultConfigSettings) ∧
      (first.map toupper = cstr "LED" →
        (parseArguments ov first rest).settings =
          { defaultConfigSettings with
            disableLED := (parseArguments ov first rest).settings.disableLED }) ∧
      (first.map toupper = cstr "UPDATE" →
        (parseArguments ov first rest).settings =
          { defaultConfigSettings with
            gain := (parseArguments ov first rest).settings.gain
            enableLowGainRange :=
              (parseArguments ov first rest).settings.enableLowGainRange })) ∧
    ((∃ t ∈ rest, isConfigOnlyToken t = true) →
      (parseArguments ov first rest).parseError = true ∧
      ∀ devices, main ov (first :: rest) devices =
        ⟨1, [Output.version, Output.couldNotParse]⟩) := by
  obtain ⟨hop, hled, hdef, htok⟩ := parseFirst_frame first rest hfirst
  have hloop := parseLoop_settings ov (parseFirst first rest).1 (parseFirst first rest).2 hop
  refine ⟨fun _ => ⟨fun hr => ?_, fun hl => ?_, fun hu => ?_⟩, fun ⟨t, ht, hconf⟩ => ?_⟩
  · unfold parseArguments
    have h1 : (parseFirst first rest).1.operationType = RESTORE_OP := by
      rw [parseFirst_restore first rest hr]
    rw [hloop.2 (by rw [h1]; decide), hdef (by rw [h1]; decide)]
  · unfold parseArguments
    have h1 := parseFirst_led_operationType first rest hl
    rw [hloop.2 (by rw [h1]; decide)]
    exact hled
  · unfold parseArguments
    have h1 : (parseFirst first rest).1.operationType = UPDATE_GAIN_OP := by
      rw [parseFirst_update first rest hu]
    have h2 := hloop.1
    rw [hdef (by rw [h1]; decide)] at h2
    exact h2
  · have herr : (parseArguments ov first rest).parseError = true := by
      cases he : (parseArguments ov first rest).parseError with
      | true => rfl
      | false =>
        exfalso
        unfold parseArguments at he
        have hfe : (parseFirst first rest).1.parseError = false := by
          cases hc : (parseFirst first rest).1.parseError with
          | false => rfl
          | true =>
            rw [parseLoop_error ov _ _ hc, hc] at he
            exact absurd he (by decide)
        have := htok hfe (parseLoop_configOnly ov _ _ hop he) t ht
        rw [hconf] at this
        exact absurd this (by decide)
    exact ⟨herr, fun devices => main_of_parseError ov first rest devices herr⟩

/-- C17, witness: `update G 3 LGR` changes `gain` and `enableLowGainRange` only, and
`update G 3 48000` is a parse error. -/
theorem C17_operation_frame_witness :
    (cstr "update").map toupper ≠ cstr "CONFIG" ∧
    (parseArguments atoiZero (cstr "update") [cstr "G", cstr "3", cstr "LGR"]).parseError = false ∧
    (parseArguments atoiZero (cstr "update") [cstr "G", cstr "3", cstr "LGR"]).settings =
      { defaultConfigSettings with
        gain := 3
        enableLowGainRange := true } ∧
    isConfigOnlyToken (cstr "48000") = true ∧ isConfigOnlyToken (cstr "lpf") = true ∧
    isConfigOnlyToken (cstr "Esm") = true ∧ isConfigOnlyToken (cstr "D48") = true ∧
    main atoiZero [cstr "update", cstr "G", cstr "3", cstr "48000"] [] =
      ⟨1, [Output.version, Output.couldNotParse]⟩ :=
  ⟨by decide, by decide,
    ((C17_operation_frame atoiZero (cstr "update") [cstr "G", cstr "3", cstr "LGR"]
      (by decide)).1 (by decide)).2.2 (by decide),
    by decide, by decide, by decide, by decide,
    ((C17_operation_frame atoiZero (cstr "update") [cstr "G", cstr "3", cstr "48000"]
      (by decide)).2 ⟨cstr "48000", by decide, by decide⟩).2 []⟩

/-! ## Reading the serial descriptor -/

theorem narrowChar_ne_zero (code : Nat) (h : code ≠ 0) : narrowChar code ≠ 0 := by
  unfold narrowChar
  split_ifs <;> omega

theorem cString_append_zero (s t : List Nat) (h : ∀ c ∈ s, c ≠ 0) :
    cString (s ++ 0 :: t) = s := by
  unfold cString
  induction s with
  | nil => simp
  | cons c s ih =>
    have hc : c ≠ 0 := h c (List.mem_cons_self _ _)
    have := ih (fun x hx => h x (List.mem_cons_of_mem _ hx))
    simp [List.takeWhile_cons, hc, this]

theorem take_succ_set (dest : List Nat) :
    ∀ (i x : Nat), i < dest.length → (dest.set i x).take (i + 1) = dest.take i ++ [x] := by
  induction dest with
  | nil =>
    intro i x h
    simp at h
  | cons c t ih =>
    intro i x h
    cases i with
    | zero => simp
    | succ i =>
      simp only [List.set_cons_succ, List.take_succ_cons, List.cons_append, List.cons.injEq,
        true_and]
      exact ih i x (by simpa using h)

theorem drop_set_of_lt (dest : List Nat) :
    ∀ (i x k : Nat), i < k → (dest.set i x).drop k = dest.drop k := by
  induction dest with
  | nil =>
    intro i x k _
    simp
  | cons c t ih =>
    intro i x k h
    cases k with
    | zero => omega
    | succ k =>
      cases i with
      | zero => simp
      | succ i =>
        simp only [List.set_cons_succ, List.drop_succ_cons]
        exact ih i x k (by omega)

/-- The loop of `convertToNarrow` on a plain wide string, with fuel enough to reach the
end of the buffer: the narrow characters are stored from index `i` on. -/
theorem convertToNarrowLoop_plain (src : List Nat) (n : Nat) (hplain : isPlainWide src = true) :
    ∀ (fuel i : Nat) (dest : List Nat), n ≤ i + fuel + 1 → i + 1 ≤ n → dest.length = n →
      convertToNarrowLoop src (n : Int) fuel i dest =
        (i + (((src.drop i).takeWhile fun c => c != 0).take (n - 1 - i)).length,
          dest.take i ++
            (((src.drop i).takeWhile fun c => c != 0).take (n - 1 - i)).map narrowChar ++
            dest.drop (i + (((src.drop i).takeWhile fun c => c != 0).take (n - 1 - i)).length)) := by
  intro fuel
  induction fuel with
  | zero =>
    intro i dest h1 h2 _
    have : n - 1 - i = 0 := by omega
    simp [convertToNarrowLoop, this]
  | succ fuel ih =>
    intro i dest h1 h2 hlen
    rw [convertToNarrowLoop]
    by_cases hc : src.getD i 0 ≠ 0 ∧ (i : Int) < (n : Int) - 1
    · rw [if_pos hc]
      obtain ⟨hne, hi⟩ := hc
      have hi' : i + 1 < n := by omega
      have hlt : i < src.length := by
        by_contra hge
        rw [List.getD_eq_default _ _ (by omega)] at hne
        exact hne rfl
      have hget : src.getD i 0 = src[i] := List.getD_eq_getElem _ _ hlt
      have hdrop : src.drop i = src[i] :: src.drop (i + 1) := List.drop_eq_getElem_cons hlt
      have hmem : src[i] ∈ src := List.getElem_mem hlt
      have hpl : ¬ (0xD800 ≤ src[i] ∧ src[i] ≤ 0xD8FF) := by
        unfold isPlainWide at hplain
        have := List.all_eq_true.1 hplain _ hmem
        simp only [Bool.not_eq_true', Bool.and_eq_false_iff, decide_eq_false_iff_not] at this
        omega
      have hstep : (if src.getD i 0 < 128 then
            convertToNarrowLoop src (n : Int) fuel (i + 1) (dest.set i (src.getD i 0))
          else if 0xD800 ≤ src.getD i 0 ∧ src.getD i 0 ≤ 0xD8FF then
            convertToNarrowLoop src (n : Int) fuel (i + 1 + 1) (dest.set i 63)
          else convertToNarrowLoop src (n : Int) fuel (i + 1) (dest.set i 63)) =
          convertToNarrowLoop src (n : Int) fuel (i + 1) (dest.set i (narrowChar src[i])) := by
        rw [hget]
        unfold narrowChar
        split_ifs <;> rfl
      dsimp only
      rw [hstep, ih (i + 1) _ (by omega) (by omega) (by simp [hlen]), hdrop]
      have hne' : (src[i] != 0) = true := by
        rw [hget] at hne
        simpa using hne
      have hn : n - 1 - i = (n - 1 - (i + 1)) + 1 := by omega
      rw [List.takeWhile_cons, if_pos hne', hn, List.take_succ_cons]
      have hil : i < dest.length := by omega
      refine Prod.ext (by simp only [List.length_cons]; omega) ?_
      simp only [List.length_cons, List.map_cons]
      rw [take_succ_set dest i _ hil, drop_set_of_lt dest i _ _ (by omega)]
      have harith : ∀ k : Nat, i + 1 + k = i + (k + 1) := fun k => by omega
      rw [harith]
      simp only [List.append_assoc, List.singleton_append, List.cons_append, List.nil_append]
    · rw [if_neg hc]
      have hnil : ((src.drop i).takeWhile fun c => c != 0).take (n - 1 - i) = [] := by
        by_cases hi : (i : Int) < (n : Int) - 1
        · have h0 : src.getD i 0 = 0 := by
            by_contra hne
            exact hc ⟨hne, hi⟩
          by_cases hlt : i < src.length
          · rw [List.drop_eq_getElem_cons hlt, List.takeWhile_cons]
            rw [List.getD_eq_getElem _ _ hlt] at h0
            simp [h0]
          · rw [List.drop_eq_nil_of_le (by omega)]
            simp
        · have : n - 1 - i = 0 := by omega
          rw [this]
          rfl
      rw [hnil]
      simp

/-- The function `convertToNarrow` on a plain wide string and a buffer of
`SERIAL_NUMBER_BUFFER_SIZE` bytes: the buffer holds the narrow string and its terminator,
and keeps its bytes after it. -/
theorem convertToNarrow_plain (src dest : List Nat) (hplain : isPlainWide src = true)
    (hlen : dest.length = SERIAL_NUMBER_BUFFER_SIZE) :
    convertToNarrow (some src) dest SERIAL_NUMBER_BUFFER_SIZE =
      (true, narrowString src ++ 0 :: dest.drop ((narrowString src).length + 1)) := by
  unfold convertToNarrow
  dsimp only
  rw [Int.toNat_ofNat,
    convertToNarrowLoop_plain src SERIAL_NUMBER_BUFFER_SIZE hplain SERIAL_NUMBER_BUFFER_SIZE 0
      dest (by omega) (by decide) hlen]
  have hpos : ((SERIAL_NUMBER_BUFFER_SIZE : Nat) : Int) > 0 := by decide
  rw [if_pos hpos]
  simp only [List.drop_zero, List.take_zero, List.nil_append, Nat.sub_zero, Nat.zero_add]
  have hs : narrowString src =
      ((src.takeWhile fun c => c != 0).take (SERIAL_NUMBER_BUFFER_SIZE - 1)).map narrowChar := rfl
  rw [← hs]
  have hl : (((src.takeWhile fun c => c != 0).take (SERIAL_NUMBER_BUFFER_SIZE - 1))).length =
      (narrowString src).length := by
    rw [hs, List.length_map]
  rw [hl]
  have hle : (narrowString src).length ≤ SERIAL_NUMBER_BUFFER_SIZE - 1 := by
    rw [hs, List.length_map, List.length_take]
    exact Nat.min_le_left _ _
  have hlt : (narrowString src).length < dest.length := by
    rw [hlen]
    unfold SERIAL_NUMBER_BUFFER_SIZE at hle ⊢
    omega
  congr 1
  rw [List.set_append, if_neg (by omega), Nat.sub_self, List.drop_eq_getElem_cons hlt]
  rfl

theorem narrowString_ne_zero (src : List Nat) : ∀ c ∈ narrowString src, c ≠ 0 := by
  intro c hc
  unfold narrowString at hc
  obtain ⟨x, hx, rfl⟩ := List.mem_map.1 hc
  have := List.mem_takeWhile_imp (List.mem_of_mem_take hx)
  exact narrowChar_ne_zero x (by simpa using this)

theorem narrowString_length (src : List Nat) :
    (narrowString src).length < SERIAL_NUMBER_BUFFER_SIZE := by
  unfold narrowString
  rw [List.length_map, List.length_take]
  have := Nat.min_le_left (SERIAL_NUMBER_BUFFER_SIZE - 1)
    (src.takeWhile fun c => c != 0).length
  unfold SERIAL_NUMBER_BUFFER_SIZE at this ⊢
  omega

/-! ## The narrow conversion, for any buffer length -/

/-- The loop of `convertToNarrow` on a wide string without a code of 0xD800..0xD8FF among
the characters that the buffer has room for from index `i` on, with fuel enough to reach
the end of the buffer: the narrow characters are stored from index `i` on. -/
theorem convertToNarrowLoop_string (src : List Nat) (n : Nat) :
    ∀ (fuel i : Nat) (dest : List Nat), n ≤ i + fuel + 1 → i + 1 ≤ n → n ≤ dest.length →
      isPlainWide (((src.drop i).takeWhile fun c => c != 0).take (n - 1 - i)) = true →
      convertToNarrowLoop src (n : Int) fuel i dest =
        (i + (((src.drop i).takeWhile fun c => c != 0).take (n - 1 - i)).length,
          dest.take i ++
            (((src.drop i).takeWhile fun c => c != 0).take (n - 1 - i)).map narrowChar ++
            dest.drop (i + (((src.drop i).takeWhile fun c => c != 0).take (n - 1 - i)).length)) := by
  intro fuel
  induction fuel with
  | zero =>
    intro i dest h1 h2 _ _
    have : n - 1 - i = 0 := by omega
    simp [convertToNarrowLoop, this]
  | succ fuel ih =>
    intro i dest h1 h2 hlen hplain
    rw [convertToNarrowLoop]
    by_cases hc : src.getD i 0 ≠ 0 ∧ (i : Int) < (n : Int) - 1
    · rw [if_pos hc]
      obtain ⟨hne, hi⟩ := hc
      have hi' : i + 1 < n := by omega
      have hlt : i < src.length := by
        by_contra hge
        rw [List.getD_eq_default _ _ (by omega)] at hne
        exact hne rfl
      have hget : src.getD i 0 = src[i] := List.getD_eq_getElem _ _ hlt
      have hdrop : src.drop i = src[i] :: src.drop (i + 1) := List.drop_eq_getElem_cons hlt
      have hne' : (src[i] != 0) = true := by
        rw [hget] at hne
        simpa using hne
      have hn : n - 1 - i = (n - 1 - (i + 1)) + 1 := by omega
      rw [hdrop, List.takeWhile_cons, if_pos hne', hn, List.take_succ_cons] at hplain
      unfold isPlainWide at hplain
      rw [List.all_cons, Bool.and_eq_true] at hplain
      have hpl : ¬ (0xD800 ≤ src[i] ∧ src[i] ≤ 0xD8FF) := by
        have := hplain.1
        simp only [Bool.not_eq_true', Bool.and_eq_false_iff, decide_eq_false_iff_not] at this
        omega
      have hstep : (if src.getD i 0 < 128 then
            convertToNarrowLoop src (n : Int) fuel (i + 1) (dest.set i (src.getD i 0))
          else if 0xD800 ≤ src.getD i 0 ∧ src.getD i 0 ≤ 0xD8FF then
            convertToNarrowLoop src (n : Int) fuel (i + 1 + 1) (dest.set i 63)
          else convertToNarrowLoop src (n : Int) fuel (i + 1) (dest.set i 63)) =
          convertToNarrowLoop src (n : Int) fuel (i + 1) (dest.set i (narrowChar src[i])) := by
        rw [hget]
        unfold narrowChar
        split_ifs <;> rfl
      dsimp only
      rw [hstep, ih (i + 1) _ (by omega) (by omega) (by simp; omega) hplain.2, hdrop]
      rw [List.takeWhile_cons, if_pos hne', hn, List.take_succ_cons]
      have hil : i < dest.length := by omega
      refine Prod.ext (by simp only [List.length_cons]; omega) ?_
      simp only [List.length_cons, List.map_cons]
      rw [take_succ_set dest i _ hil, drop_set_of_lt dest i _ _ (by omega)]
      have harith : ∀ k : Nat, i + 1 + k = i + (k + 1) := fun k => by omega
      rw [harith]
      simp only [List.append_assoc, List.singleton_append, List.cons_append, List.nil_append]
    · rw [if_neg hc]
      have hnil : ((src.drop i).takeWhile fun c => c != 0).take (n - 1 - i) = [] := by
        by_cases hi : (i : Int) < (n : Int) - 1
        · have h0 : src.getD i 0 = 0 := by
            by_contra hne
            exact hc ⟨hne, hi⟩
          by_cases hlt : i < src.length
          · rw [List.drop_eq_getElem_cons hlt, List.takeWhile_cons]
            rw [List.getD_eq_getElem _ _ hlt] at h0
            simp [h0]
          · rw [List.drop_eq_nil_of_le (by omega)]
            simp
        · have : n - 1 - i = 0 := by omega
          rw [this]
          rfl
      rw [hnil]
      simp

/-- The function `convertToNarrow` on a wide string without a code of 0xD800..0xD8FF among
its first `n - 1` characters and a buffer of at least `n > 0` bytes: the buffer holds the
narrow characters of the first `n - 1` characters at most, then the terminator, and keeps
its bytes after it. -/
theorem convertToNarrow_string (src dest : List Nat) (n : Nat) (hn : 0 < n)
    (hdest : n ≤ dest.length)
    (hplain : isPlainWide ((src.takeWhile fun c => c != 0).take (n - 1)) = true) :
    convertToNarrow (some src) dest (n : Int) =
      (true, ((src.takeWhile fun c => c != 0).take (n - 1)).map narrowChar ++
        0 :: dest.drop (((src.takeWhile fun c => c != 0).take (n - 1)).length + 1)) := by
  unfold convertToNarrow
  dsimp only
  rw [Int.toNat_ofNat,
    convertToNarrowLoop_string src n n 0 dest (by omega) (by omega) hdest
      (by rw [List.drop_zero, Nat.sub_zero]; exact hplain)]
  have hpos : (n : Int) > 0 := by omega
  rw [if_pos hpos]
  simp only [List.drop_zero, List.take_zero, List.nil_append, Nat.sub_zero, Nat.zero_add]
  have hle : ((src.takeWhile fun c => c != 0).take (n - 1)).length ≤ n - 1 := by
    rw [List.length_take]
    exact Nat.min_le_left _ _
  have hlt : ((src.takeWhile fun c => c != 0).take (n - 1)).length < dest.length := by omega
  congr 1
  rw [List.set_append, if_neg (by simp), List.length_map, Nat.sub_self,
    List.drop_eq_getElem_cons hlt]
  rfl

/-- The function `convertToNarrow` on a wide string without a code of 0xD800..0xD8FF and a
buffer of `SERIAL_NUMBER_BUFFER_SIZE` bytes: the buffer holds the narrow string and its
terminator, and keeps its bytes after it. -/
theorem convertToNarrow_plainString (src dest : List Nat)
    (hplain : isPlainWide (src.takeWhile fun c => c != 0) = true)
    (hlen : dest.length = SERIAL_NUMBER_BUFFER_SIZE) :
    convertToNarrow (some src) dest SERIAL_NUMBER_BUFFER_SIZE =
      (true, narrowString src ++ 0 :: dest.drop ((narrowString src).length + 1)) := by
  rw [convertToNarrow_string src dest SERIAL_NUMBER_BUFFER_SIZE (by decide) (by omega)
    (all_take _ _ _ hplain)]
  unfold narrowString
  rw [List.length_map]

/-- Reading the serial number of a plain device into a buffer of
`SERIAL_NUMBER_BUFFER_SIZE` bytes: it succeeds when the device has a descriptor, the buffer
then holds the descriptor as a C string; the buffer keeps its length. -/
theorem readSerialNumber_plain (device : hid_device_info) (buffer : List Nat)
    (hplain : plainDevice device = true) (hlen : buffer.length = SERIAL_NUMBER_BUFFER_SIZE) :
    (readSerialNumber device buffer).1 = (descriptorOf device).isSome ∧
      (readSerialNumber device buffer).2.length = SERIAL_NUMBER_BUFFER_SIZE ∧
      (∀ descriptor, descriptorOf device = some descriptor →
        cString (readSerialNumber device buffer).2 = descriptor) ∧
      (descriptorOf device = none → (readSerialNumber device buffer).2 = buffer) := by
  have hl : ∀ src : List Nat, (narrowString src ++
      0 :: buffer.drop ((narrowString src).length + 1)).length = SERIAL_NUMBER_BUFFER_SIZE := by
    intro src
    have := narrowString_length src
    simp only [List.length_append, List.length_cons, List.length_drop, hlen]
    omega
  unfold plainDevice at hplain
  unfold readSerialNumber descriptorOf
  cases hs : device.serial_number with
  | some wide =>
    rw [hs] at hplain
    simp only [Bool.and_eq_true] at hplain
    rw [convertToNarrow_plainString wide buffer hplain.1 hlen]
    refine ⟨rfl, hl wide, fun d hd => ?_, fun h => by simp at h⟩
    simp only [Option.some.injEq] at hd
    subst hd
    exact cString_append_zero _ _ (narrowString_ne_zero wide)
  | none =>
    rw [hs] at hplain
    simp only [Bool.true_and] at hplain
    have hconv : convertToNarrow none buffer SERIAL_NUMBER_BUFFER_SIZE = (false, buffer) := rfl
    rw [hconv]
    dsimp only
    cases ho : device.opens with
    | false => exact ⟨rfl, hlen, fun d hd => by simp at hd, fun _ => rfl⟩
    | true =>
      cases hw : device.serialString with
      | none => exact ⟨rfl, hlen, fun d hd => by simp at hd, fun _ => rfl⟩
      | some wide =>
        rw [hw] at hplain
        simp only [Bool.false_eq_true, ↓reduceIte, Option.map_some']
        rw [convertToNarrow_plainString wide buffer hplain hlen]
        refine ⟨rfl, hl wide, fun d hd => ?_, fun h => by simp at h⟩
        simp only [Option.some.injEq] at hd
        subst hd
        exact cString_append_zero _ _ (narrowString_ne_zero wide)

/-- The second conversion of the descriptor of the enumeration, made before the test of a
requested serial number, leaves the C string of the buffer as it is. -/
theorem convertAgain_plain (device : hid_device_info) (buffer : List Nat)
    (hplain : plainDevice device = true) (hlen : buffer.length = SERIAL_NUMBER_BUFFER_SIZE)
    (descriptor : List Nat) (hd : descriptorOf device = some descriptor)
    (hb : cString buffer = descriptor) :
    (convertToNarrow device.serial_number buffer SERIAL_NUMBER_BUFFER_SIZE).2.length =
        SERIAL_NUMBER_BUFFER_SIZE ∧
      cString (convertToNarrow device.serial_number buffer SERIAL_NUMBER_BUFFER_SIZE).2 =
        descriptor := by
  unfold plainDevice at hplain
  unfold descriptorOf at hd
  cases hs : device.serial_number with
  | none => exact ⟨hlen, hb⟩
  | some wide =>
    rw [hs] at hplain hd
    simp only [Bool.and_eq_true] at hplain
    simp only [Option.some.injEq] at hd
    rw [convertToNarrow_plainString wide buffer hplain.1 hlen, hd]
    refine ⟨?_, cString_append_zero _ _ (hd ▸ narrowString_ne_zero wide)⟩
    have := narrowString_length wide
    rw [hd] at this
    simp only [List.length_append, List.length_cons, List.length_drop, hlen]
    omega

/-! ## The tests on the buffer, as tests on the descriptor -/

theorem hasSerialNumber_eq (buffer : List Nat) :
    hasSerialNumber buffer = conformingString (cString buffer) := by
  unfold hasSerialNumber strstrUnderscore conformingString USB_SERIAL_NUMBER_OFFSET
    USB_SERIAL_NUMBER_LENGTH
  by_cases h : (cString buffer).indexOf 95 < (cString buffer).length
  · rw [if_pos h]
    dsimp only
    by_cases h4 : (cString buffer).indexOf 95 = 4
    · rw [h4] at h ⊢
      simp only [List.length_drop]
      by_cases h21 : (cString buffer).length = 21
      · simp [h21]
      · have : ¬ (cString buffer).length - 5 = 16 := by omega
        simp [h21, this]
    · have : ¬ (cString buffer).indexOf 95 + 1 = 5 := by omega
      simp [h4, this]
  · rw [if_neg h]
    dsimp only
    by_cases h4 : (cString buffer).indexOf 95 = 4
    · have : ¬ (cString buffer).length = 21 := by omega
      simp [this]
    · simp [h4]

theorem getD_cString (buffer : List Nat) (i : Nat) (h : i < (cString buffer).length) :
    buffer.getD i 0 = (cString buffer).getD i 0 := by
  unfold cString at h ⊢
  induction buffer generalizing i with
  | nil => simp at h
  | cons c t ih =>
    rw [List.takeWhile_cons] at h ⊢
    by_cases hc : (c != 0) = true
    · rw [if_pos hc] at h ⊢
      cases i with
      | zero => rfl
      | succ i =>
        simp only [List.getD_cons_succ]
        exact ih i (by simpa using h)
    · rw [if_neg hc] at h
      simp at h

theorem frequencyStringLoop_true (buffer : List Nat) :
    ∀ (l acc : List Nat), frequencyStringLoop buffer l (acc, true) =
      (acc ++ l.map fun i => buffer.getD i 0, true) := by
  intro l
  induction l with
  | nil =>
    intro acc
    simp [frequencyStringLoop]
  | cons i l ih =>
    intro acc
    rw [frequencyStringLoop]
    simp only [Bool.true_or, ↓reduceIte]
    rw [ih]
    simp

theorem frequencyStringLoop_false (buffer : List Nat) :
    ∀ l : List Nat, (frequencyStringLoop buffer l ([], false)).1 =
      (l.map fun i => buffer.getD i 0).dropWhile fun c => decide (c ≤ 48) := by
  intro l
  induction l with
  | nil => simp [frequencyStringLoop]
  | cons i l ih =>
    rw [frequencyStringLoop]
    by_cases h : buffer.getD i 0 > 48
    · simp only [Bool.false_or, decide_eq_true_eq, h, ↓reduceIte, List.nil_append,
        List.map_cons]
      rw [frequencyStringLoop_true, List.dropWhile_cons, if_neg (by simp only [decide_eq_true_eq]; omega)]
      simp
    · simp only [Bool.false_or, decide_eq_true_eq, h, ↓reduceIte, List.map_cons]
      rw [ih, List.dropWhile_cons, if_pos (by simp only [decide_eq_true_eq]; omega)]

/-- The bytes stored in `frequencyString` are the four first bytes of the buffer without
the leading ones that are not above `'0'`. -/
theorem frequencyString_eq (buffer : List Nat) :
    frequencyString buffer =
      ([buffer.getD 0 0, buffer.getD 1 0, buffer.getD 2 0, buffer.getD 3 0]).dropWhile
        fun c => decide (c ≤ 48) := by
  unfold frequencyString
  rw [frequencyStringLoop_false]
  rfl

theorem frequencyString_of_cString (buffer : List Nat) (h : 4 ≤ (cString buffer).length) :
    frequencyString buffer = frequencyLabel (cString buffer) := by
  rw [frequencyString_eq, getD_cString buffer 0 (by omega), getD_cString buffer 1 (by omega),
    getD_cString buffer 2 (by omega), getD_cString buffer 3 (by omega)]
  unfold frequencyLabel
  generalize cString buffer = d at h
  match d, h with
  | a :: b :: c :: e :: t, _ => rfl

/-! ## The three loops over the enumerated devices -/

/-- The test made on a device with a path by the loops of `LIST` and of an operation sent
to all devices. -/
theorem deviceTest_plain (device : hid_device_info) (buffer : List Nat)
    (hplain : plainDevice device = true) (hlen : buffer.length = SERIAL_NUMBER_BUFFER_SIZE)
    (hpath : device.path.isSome = true) :
    (readSerialNumber device buffer).2.length = SERIAL_NUMBER_BUFFER_SIZE ∧
      ((readSerialNumber device buffer).1 && hasSerialNumber (readSerialNumber device buffer).2) =
        conformingDevice device ∧
      (conformingDevice device = true →
        serialNumberString (readSerialNumber device buffer).2 = normalizedIdentifier device ∧
        frequencyString (readSerialNumber device buffer).2 =
          frequencyLabel ((descriptorOf device).getD [])) := by
  obtain ⟨h1, h2, h3, -⟩ := readSerialNumber_plain device buffer hplain hlen
  refine ⟨h2, ?_, ?_⟩
  · unfold conformingDevice
    rw [h1, hpath, hasSerialNumber_eq]
    cases hd : descriptorOf device with
    | none => rfl
    | some d =>
      rw [h3 d hd]
      rfl
  · intro hc
    unfold conformingDevice at hc
    unfold normalizedIdentifier serialNumberString
    cases hd : descriptorOf device with
    | none =>
      rw [hd] at hc
      simp at hc
    | some d =>
      rw [hd] at hc
      simp only [Bool.and_eq_true] at hc
      have hcs := h3 d hd
      have h21 : d.length = 21 := by
        have := hc.2
        unfold conformingString at this
        simp only [Bool.and_eq_true, decide_eq_true_eq] at this
        exact this.2
      refine ⟨by rw [hcs]; rfl, ?_⟩
      rw [frequencyString_of_cString _ (by rw [hcs]; omega), hcs]
      rfl

theorem normalizedIdentifier_length (device : hid_device_info)
    (h : conformingDevice device = true) :
    (normalizedIdentifier device).length = USB_SERIAL_NUMBER_LENGTH := by
  unfold conformingDevice at h
  unfold normalizedIdentifier
  cases hd : descriptorOf device with
  | none =>
    rw [hd] at h
    simp at h
  | some d =>
    rw [hd] at h
    simp only [Bool.and_eq_true] at h
    have := h.2
    unfold conformingString at this
    simp only [Bool.and_eq_true, decide_eq_true_eq] at this
    simp only [Option.getD_some, List.length_drop, this.2]
    rfl

/-- The loop of `LIST` over plain devices prints the line of every conforming device, in
enumeration order, and nothing else. -/
theorem listDevices_plain :
    ∀ (devices : List hid_device_info) (buffer : List Nat),
      buffer.length = SERIAL_NUMBER_BUFFER_SIZE → (∀ d ∈ devices, plainDevice d = true) →
      (listDevices devices buffer).1.length = SERIAL_NUMBER_BUFFER_SIZE ∧
      (listDevices devices buffer).2 = (devices.filter conformingDevice).map listing := by
  intro devices
  induction devices with
  | nil =>
    intro buffer hlen _
    exact ⟨hlen, rfl⟩
  | cons device next ih =>
    intro buffer hlen hplain
    have hnext : ∀ d ∈ next, plainDevice d = true :=
      fun d hd => hplain d (List.mem_cons_of_mem _ hd)
    rw [listDevices]
    cases hp : device.path with
    | none =>
      have hc : conformingDevice device = false := by
        unfold conformingDevice
        rw [hp]
        rfl
      rw [List.filter_cons, hc]
      exact ih buffer hlen hnext
    | some path =>
      dsimp only
      obtain ⟨h1, h2, h3⟩ := deviceTest_plain device buffer
        (hplain device (List.mem_cons_self _ _)) hlen (by rw [hp]; rfl)
      obtain ⟨i1, i2⟩ := ih (readSerialNumber device buffer).2 h1 hnext
      rw [h2, List.filter_cons]
      cases hc : conformingDevice device with
      | false => exact ⟨i1, i2⟩
      | true =>
        simp only [↓reduceIte, List.map_cons]
        refine ⟨i1, ?_⟩
        rw [i2, (h3 hc).1, (h3 hc).2]
        rfl

/-- The loop over all devices, on plain devices: one exchange with every conforming
device, in enumeration order, and nothing else. -/
theorem sendToAll_plain (operationType : operationType_t) (settings : configSettings_t) :
    ∀ (devices : List hid_device_info) (buffer : List Nat),
      buffer.length = SERIAL_NUMBER_BUFFER_SIZE → (∀ d ∈ devices, plainDevice d = true) →
      (sendToAll operationType settings devices buffer).1.length = SERIAL_NUMBER_BUFFER_SIZE ∧
      (sendToAll operationType settings devices buffer).2 =
        (devices.filter conformingDevice).flatMap (exchange operationType settings) := by
  intro devices
  induction devices with
  | nil =>
    intro buffer hlen _
    exact ⟨hlen, rfl⟩
  | cons device next ih =>
    intro buffer hlen hplain
    have hnext : ∀ d ∈ next, plainDevice d = true :=
      fun d hd => hplain d (List.mem_cons_of_mem _ hd)
    rw [sendToAll]
    cases hp : device.path with
    | none =>
      have hc : conformingDevice device = false := by
        unfold conformingDevice
        rw [hp]
        rfl
      rw [List.filter_cons, hc]
      exact ih buffer hlen hnext
    | some path =>
      dsimp only
      obtain ⟨h1, h2, h3⟩ := deviceTest_plain device buffer
        (hplain device (List.mem_cons_self _ _)) hlen (by rw [hp]; rfl)
      obtain ⟨i1, i2⟩ := ih (readSerialNumber device buffer).2 h1 hnext
      rw [h2, List.filter_cons]
      cases hc : conformingDevice device with
      | false => exact ⟨i1, i2⟩
      | true =>
        simp only [↓reduceIte, List.flatMap_cons]
        refine ⟨i1, ?_⟩
        rw [i2, (h3 hc).1]
        unfold exchange
        rw [hp]
        simp only [List.append_assoc, List.singleton_append]

/-- The scan of the devices for one requested serial number, on plain devices: one
exchange with every matching device, in enumeration order, and `found` is set when there
is one. -/
theorem sendToSerial_plain (operationType : operationType_t) (settings : configSettings_t)
    (serial : List Nat) (hserial : serial.length = USB_SERIAL_NUMBER_LENGTH) :
    ∀ (devices : List hid_device_info) (buffer : List Nat) (found : Bool),
      buffer.length = SERIAL_NUMBER_BUFFER_SIZE → (∀ d ∈ devices, plainDevice d = true) →
      (sendToSerial operationType settings serial devices buffer found).1.length =
          SERIAL_NUMBER_BUFFER_SIZE ∧
        (sendToSerial operationType settings serial devices buffer found).2.1 =
          (found || devices.any (matchesSerial serial)) ∧
        (sendToSerial operationType settings serial devices buffer found).2.2 =
          (devices.filter (matchesSerial serial)).flatMap (exchange operationType settings) := by
  intro devices
  induction devices with
  | nil =>
    intro buffer found hlen _
    exact ⟨hlen, by simp [sendToSerial], rfl⟩
  | cons device next ih =>
    intro buffer found hlen hplain
    have hnext : ∀ d ∈ next, plainDevice d = true :=
      fun d hd => hplain d (List.mem_cons_of_mem _ hd)
    have hpd := hplain device (List.mem_cons_self _ _)
    rw [sendToSerial]
    cases hp : device.path with
    | none =>
      have hc : matchesSerial serial device = false := by
        unfold matchesSerial conformingDevice
        rw [hp]
        rfl
      rw [List.filter_cons, List.any_cons, hc]
      exact ih buffer found hlen hnext
    | some path =>
      dsimp only
      obtain ⟨h1, h2, h3, -⟩ := readSerialNumber_plain device buffer hpd hlen
      cases hd : descriptorOf device with
      | none =>
        rw [hd] at h1
        have hc : matchesSerial serial device = false := by
          unfold matchesSerial conformingDevice
          rw [hd]
          simp
        rw [h1, List.filter_cons, List.any_cons, hc]
        exact ih _ found h2 hnext
      | some d =>
        rw [hd] at h1
        obtain ⟨c1, c2⟩ := convertAgain_plain device (readSerialNumber device buffer).2 hpd h2 d
          hd (h3 d hd)
        rw [h1]
        simp only [↓reduceIte, Option.isSome_some]
        have htest : (hasSerialNumber
              (convertToNarrow device.serial_number (readSerialNumber device buffer).2
                SERIAL_NUMBER_BUFFER_SIZE).2 &&
            strncmpEq (serialNumberString
              (convertToNarrow device.serial_number (readSerialNumber device buffer).2
                SERIAL_NUMBER_BUFFER_SIZE).2) serial USB_SERIAL_NUMBER_LENGTH) =
            matchesSerial serial device := by
          rw [hasSerialNumber_eq, c2]
          unfold matchesSerial
          have hcd : conformingDevice device = conformingString d := by
            unfold conformingDevice
            rw [hp, hd]
            rfl
          rw [hcd]
          cases hcs : conformingString d with
          | false => rfl
          | true =>
            have hl := normalizedIdentifier_length device (by rw [hcd]; exact hcs)
            have hn : serialNumberString
                (convertToNarrow device.serial_number (readSerialNumber device buffer).2
                  SERIAL_NUMBER_BUFFER_SIZE).2 = normalizedIdentifier device := by
              unfold serialNumberString normalizedIdentifier
              rw [c2, hd]
              rfl
            rw [hn]
            unfold strncmpEq
            rw [List.take_of_length_le (by omega), List.take_of_length_le (by omega)]
        rw [htest, List.filter_cons, List.any_cons]
        cases hm : matchesSerial serial device with
        | false =>
          simp only [Bool.false_eq_true, ↓reduceIte, Bool.false_or]
          exact ih _ found c1 hnext
        | true =>
          simp only [↓reduceIte, Bool.true_or, Bool.or_true, List.flatMap_cons]
          obtain ⟨i1, i2, i3⟩ := ih _ true c1 hnext
          refine ⟨i1, by rw [i2]; rfl, ?_⟩
          rw [i3]
          have hn : serialNumberString
              (convertToNarrow device.serial_number (readSerialNumber device buffer).2
                SERIAL_NUMBER_BUFFER_SIZE).2 = normalizedIdentifier device := by
            unfold serialNumberString normalizedIdentifier
            rw [c2, hd]
            rfl
          rw [hn]
          unfold exchange
          rw [hp]
          simp only [List.append_assoc, List.singleton_append]

/-- The loop over the requested serial numbers, on plain devices: the serial numbers are
handled in the order given, each as the specification asks. -/
theorem sendToSerials_plain (operationType : operationType_t) (settings : configSettings_t)
    (devices : List hid_device_info) (hplain : ∀ d ∈ devices, plainDevice d = true) :
    ∀ (serials : List (List Nat)) (buffer : List Nat),
      buffer.length = SERIAL_NUMBER_BUFFER_SIZE →
      (∀ s ∈ serials, s.length = USB_SERIAL_NUMBER_LENGTH) →
      sendToSerials operationType settings devices serials buffer =
        serials.flatMap (forSerial operationType settings devices) := by
  intro serials
  induction serials with
  | nil =>
    intro buffer _ _
    rfl
  | cons serial serials ih =>
    intro buffer hlen hs
    obtain ⟨h1, h2, h3⟩ := sendToSerial_plain operationType settings serial
      (hs serial (List.mem_cons_self _ _)) devices buffer false hlen hplain
    rw [sendToSerials]
    rw [ih _ h1 (fun s h => hs s (List.mem_cons_of_mem _ h)), h2, h3, List.flatMap_cons]
    unfold forSerial
    simp only [Bool.false_or]

/-! ## The order of the requested serial numbers -/

theorem parseStep_serials_order (ov : List Nat → Int) (st : ParseState) (argument : List Nat)
    (rest : List (List Nat)) :
    ∃ ext, (parseStep ov st argument rest).1.parsedSerialNumbers =
        st.parsedSerialNumbers ++ ext ∧
      (ext ++ (parseStep ov st argument rest).2.map (List.map toupper)).Sublist
        ((argument :: rest).map (List.map toupper)) := by
  apply parseStep_cases ov st argument rest (fun p =>
    ∃ ext, p.1.parsedSerialNumbers = st.parsedSerialNumbers ++ ext ∧
      (ext ++ p.2.map (List.map toupper)).Sublist ((argument :: rest).map (List.map toupper)))
  case serial =>
    intro hs _
    obtain ⟨t, ht⟩ := Option.isSome_iff_exists.1 hs
    refine ⟨[argument.map toupper], ?_, List.Sublist.refl _⟩
    rw [ht, Option.getD_some, ((parseSerialNumber_eq_some argument t).1 ht).2.2]
  case gain =>
    intro _ _ v r hr
    subst hr
    exact ⟨[], by simp [(gainValue_frame ov st v).2.2.1], by simp⟩
  case low =>
    intro _ _ _ v r hr
    subst hr
    exact ⟨[], by simp [(lowPassValue_frame ov st v).2.1], by simp⟩
  case high =>
    intro _ _ _ v r hr
    subst hr
    exact ⟨[], by simp [(highPassValue_frame ov st v).2.1], by simp⟩
  case band =>
    intro _ _ _ v w r hr
    subst hr
    refine ⟨[], by simp [(bandPassValues_frame ov st v w).2.1], ?_⟩
    simp only [List.nil_append, List.map_cons]
    exact List.Sublist.cons _ (List.Sublist.cons _ (List.Sublist.cons _ (List.Sublist.refl _)))
  all_goals intros
  all_goals exact ⟨[], by simp [setSampleRate], by simp⟩

theorem parseLoop_serials_order (ov : List Nat → Int) :
    ∀ (st : ParseState) (l : List (List Nat)),
      ∃ ext, (parseLoop ov st l).parsedSerialNumbers = st.parsedSerialNumbers ++ ext ∧
        ext.Sublist (l.map (List.map toupper)) := by
  apply parseLoop_induction ov
  · intro st
    exact ⟨[], by simp [parseLoop], by simp⟩
  · intro st a rest he
    rw [parseLoop_error ov st _ he]
    exact ⟨[], by simp, by simp⟩
  · intro st a rest he ih
    obtain ⟨e1, h1, h1'⟩ := parseStep_serials_order ov st a rest
    obtain ⟨e2, h2, h2'⟩ := ih
    rw [parseLoop_cons ov st a rest he]
    refine ⟨e1 ++ e2, by rw [h2, h1, List.append_assoc], ?_⟩
    exact List.Sublist.trans (List.Sublist.append_left h2' e1) h1'

theorem parseFirst_sublist (first : List Nat) (rest : List (List Nat)) :
    (parseFirst first rest).2.Sublist rest := by
  unfold parseFirst
  split_ifs
  · exact List.Sublist.refl _
  · exact List.Sublist.refl _
  · exact List.Sublist.refl _
  · cases rest with
    | nil => exact List.Sublist.refl _
    | cons b tail =>
      dsimp only
      split_ifs
      · exact List.Sublist.cons _ (List.Sublist.refl _)
      · exact List.Sublist.cons _ (List.Sublist.refl _)
      · exact List.Sublist.cons _ (List.Sublist.refl _)
  · exact List.Sublist.refl _
  · exact List.Sublist.refl _

/-- The table of requested serial numbers holds arguments in upper case, in the order
given. -/
theorem parseArguments_serials_order (ov : List Nat → Int) (first : List Nat)
    (rest : List (List Nat)) :
    (parseArguments ov first rest).parsedSerialNumbers.Sublist
      (rest.map (List.map toupper)) := by
  unfold parseArguments
  obtain ⟨ext, h, h'⟩ := parseLoop_serials_order ov (parseFirst first rest).1
    (parseFirst first rest).2
  rw [h, parseFirst_serials, List.nil_append]
  exact List.Sublist.trans h' (List.Sublist.map _ (parseFirst_sublist first rest))

/-! ## The number of stored serial numbers along the arguments -/

theorem parseFirst_append (first : List Nat) (pre suffix : List (List Nat))
    (h : (parseFirst first pre).1.parseError = false) :
    parseFirst first (pre ++ suffix) =
      ((parseFirst first pre).1, (parseFirst first pre).2 ++ suffix) := by
  unfold parseFirst at h ⊢
  by_cases h1 : parseArgument (cstr "LIST") first = true
  · rw [if_pos h1]
    rw [if_pos h1]
  rw [if_neg h1] at h ⊢
  rw [if_neg h1]
  by_cases h2 : parseArgument (cstr "RESTORE") first = true
  · rw [if_pos h2]
    rw [if_pos h2]
  rw [if_neg h2] at h ⊢
  rw [if_neg h2]
  by_cases h3 : parseArgument (cstr "CONFIG") first = true
  · rw [if_pos h3]
    rw [if_pos h3]
  rw [if_neg h3] at h ⊢
  rw [if_neg h3]
  by_cases h4 : parseArgument (cstr "LED") first = true
  · rw [if_pos h4] at h ⊢
    rw [if_pos h4]
    cases pre with
    | nil => exact absurd h (by simp)
    | cons b tail =>
      dsimp only at h ⊢
      rw [List.cons_append]
      dsimp only
      split_ifs <;> rfl
  rw [if_neg h4] at h ⊢
  rw [if_neg h4]
  by_cases h5 : parseArgument (cstr "UPDATE") first = true
  · rw [if_pos h5]
    rw [if_pos h5]
  rw [if_neg h5] at h
  exact absurd h (by simp)

/-- Arguments that are parsed without error are parsed in the same way when more
arguments follow them. -/
theorem parseArguments_append (ov : List Nat → Int) (first : List Nat)
    (pre suffix : List (List Nat)) (h : (parseArguments ov first pre).parseError = false) :
    parseArguments ov first (pre ++ suffix) =
      parseLoop ov (parseArguments ov first pre) suffix := by
  unfold parseArguments at h ⊢
  have hf : (parseFirst first pre).1.parseError = false := by
    cases hc : (parseFirst first pre).1.parseError with
    | false => rfl
    | true =>
      rw [parseLoop_error ov _ _ hc, hc] at h
      exact absurd h (by decide)
  rw [parseFirst_append first pre suffix hf]
  exact parseLoop_append ov suffix _ _ h

/-- The number of stored serial numbers does not decrease along the arguments. -/
theorem numberOfSerialNumbers_mono (ov : List Nat → Int) (first : List Nat)
    (pre suffix : List (List Nat)) (h : (parseArguments ov first pre).parseError = false) :
    (parseArguments ov first pre).numberOfSerialNumbers ≤
      (parseArguments ov first (pre ++ suffix)).numberOfSerialNumbers := by
  rw [parseArguments_append ov first pre suffix h]
  obtain ⟨ext, hext, -⟩ := parseLoop_serials ov (parseArguments ov first pre) suffix
  unfold ParseState.numberOfSerialNumbers
  rw [hext, List.length_append]
  exact Nat.le_add_right _ _

/-! ## The dispatch of a run -/

/-- A run whose arguments pass the parser and the checks performs the requested action. -/
theorem main_performAction (ov : List Nat → Int) (first : List Nat) (rest : List (List Nat))
    (devices : List hid_device_info)
    (hparse : (parseArguments ov first rest).parseError = false)
    (hfilter : checkFilterValues (parseArguments ov first rest).filterType
      (parseArguments ov first rest).settings = none)
    (hrepeat : repeatedSerialNumber (parseArguments ov first rest).parsedSerialNumbers = false) :
    main ov (first :: rest) devices =
      ⟨0, Output.version :: performAction (parseArguments ov first rest) devices⟩ := by
  unfold main
  dsimp only
  rw [hparse, hfilter]
  dsimp only
  rw [hrepeat]
  rfl

theorem length_zeroed_buffer :
    (List.replicate SERIAL_NUMBER_BUFFER_SIZE 0).length = SERIAL_NUMBER_BUFFER_SIZE :=
  List.length_replicate _ _

/-- An operation sent to all devices, on devices whose wide serial strings hold no code of
0xD800..0xD8FF: when no serial identifier was requested for an operation other than LIST and
at least one device was enumerated, the run is one exchange with every conforming device
(it has a path and its descriptor has its first `_` at index 4 and 16 characters after it),
in enumeration order, and nothing else after the version line. -/
theorem sendToAll_run (ov : List Nat → Int) (first : List Nat)
    (rest : List (List Nat)) (devices : List hid_device_info)
    (hparse : (parseArguments ov first rest).parseError = false)
    (hfilter : checkFilterValues (parseArguments ov first rest).filterType
      (parseArguments ov first rest).settings = none)
    (hop : (parseArguments ov first rest).operationType ≠ LIST_OP)
    (hnone : (parseArguments ov first rest).parsedSerialNumbers = [])
    (hdevices : devices ≠ [])
    (hplain : ∀ d ∈ devices, plainDevice d = true) :
    main ov (first :: rest) devices =
      ⟨0, Output.version :: (devices.filter conformingDevice).flatMap
        (exchange (parseArguments ov first rest).operationType
          (parseArguments ov first rest).settings)⟩ := by
  rw [main_performAction ov first rest devices hparse hfilter (by rw [hnone]; rfl)]
  unfold performAction
  dsimp only
  rw [if_neg hop, if_neg (by simpa using hdevices),
    if_pos (by unfold ParseState.numberOfSerialNumbers; rw [hnone]; rfl)]
  rw [(sendToAll_plain _ _ devices _ length_zeroed_buffer hplain).2]

/-- An instance: `RESTORE` with a conforming device, a device whose descriptor has no
separator, a device without path and a second conforming device that does not answer. -/
theorem sendToAll_run_witness :
    main atoiZero [cstr "RESTORE"]
        [echoDevice "0384_0123456789ABCDEF", echoDevice "AudioMoth",
          { echoDevice "0384_00000000000000AA" with path := none },
          silentDevice "0192_00000000000000BB"] =
      ⟨0, [Output.version,
        Output.written (cstr "/dev/hidraw0") ([0, 4] ++ List.replicate 62 0),
        Output.sent (cstr "RESTORE") (cstr "0123456789ABCDEF"),
        Output.written (cstr "/dev/hidraw1") ([0, 4] ++ List.replicate 62 0),
        Output.problem (cstr "00000000000000BB")]⟩ :=
  (sendToAll_run atoiZero (cstr "RESTORE") []
    [echoDevice "0384_0123456789ABCDEF", echoDevice "AudioMoth",
      { echoDevice "0384_00000000000000AA" with path := none },
      silentDevice "0192_00000000000000BB"]
    (by decide) (by decide) (by decide) (by decide) (by simp) (by decide)).trans (by decide)

/-- C13, the code at the failing input: `RESTORE` with two enumerated devices, the first
with the descriptor `0384_0123456789ABCDEF`, the second (`strayDevice`) with the wide serial
string `038`, 0xD800, `X00000000000000AA`, which holds no `_`: the second is not a
conforming device, and alone it receives no exchange.  After the first device,
`convertToNarrow` stores `?` at index 3 for the code 0xD800, advances the index by two and
leaves at index 4 the `_` of the first descriptor, so that the buffer holds
`038?_00000000000000AA`, the test of conformity passes and the second device receives an
exchange. -/
theorem C13_stale_separator :
    descriptorOf strayDevice = some (cstr "038?X00000000000000AA") ∧
      conformingDevice strayDevice = false ∧
      main atoiZero [cstr "RESTORE"] [strayDevice] = ⟨0, [Output.version]⟩ ∧
      cString (readSerialNumber strayDevice
        (readSerialNumber (echoDevice "0384_0123456789ABCDEF")
          (List.replicate SERIAL_NUMBER_BUFFER_SIZE 0)).2).2 = cstr "038?_00000000000000AA" ∧
      main atoiZero [cstr "RESTORE"] [echoDevice "0384_0123456789ABCDEF", strayDevice] =
        ⟨0, [Output.version,
          Output.written (cstr "/dev/hidraw0") ([0, 4] ++ List.replicate 62 0),
          Output.sent (cstr "RESTORE") (cstr "0123456789ABCDEF"),
          Output.written (cstr "/dev/hidraw2") ([0, 4] ++ List.replicate 62 0),
          Output.sent (cstr "RESTORE") (cstr "00000000000000AA")]⟩ := by
  refine ⟨by decide, by decide, by decide, by decide, by decide⟩

/-- C12, counterexample: a serial identifier is requested and no device is enumerated; the
run prints the warning that no device was found and no not-found report for the
identifier. -/
theorem C12_counterexample_no_device :
    main atoiZero [cstr "RESTORE", cstr "0123456789ABCDEF"] [] =
      ⟨0, [Output.version, Output.noDevicesFound]⟩ := by
  decide

/-- C12, amended: when fewer than 256 serial identifiers were requested for an operation
other than LIST, at least one device was enumerated and no wide serial string of a device
holds a code of 0xD800..0xD8FF, the identifiers (arguments in upper case, kept in the order
given) are handled in that order; for each one, every conforming device whose normalized
identifier equals it receives one exchange, in enumeration order, and an identifier that
matches no conforming device gives exactly one not-found report, after which the remaining
identifiers are handled.  With fewer than 256 identifiers every token is tested with an
entry of the table `parsedSerialNumbers` as destination: whatever part of the arguments has
been parsed, the counter is below `MAXIMUM_NUMBER_OF_DEVICES`. -/
theorem C12_requested_serials (ov : List Nat → Int) (first : List Nat)
    (rest : List (List Nat)) (devices : List hid_device_info)
    (hparse : (parseArguments ov first rest).parseError = false)
    (hfilter : checkFilterValues (parseArguments ov first rest).filterType
      (parseArguments ov first rest).settings = none)
    (hrepeat : repeatedSerialNumber (parseArguments ov first rest).parsedSerialNumbers = false)
    (hop : (parseArguments ov first rest).operationType ≠ LIST_OP)
    (hsome : (parseArguments ov first rest).parsedSerialNumbers ≠ [])
    (hcount : (parseArguments ov first rest).numberOfSerialNumbers <
      MAXIMUM_NUMBER_OF_DEVICES)
    (hdevices : devices ≠ [])
    (hplain : ∀ d ∈ devices, plainDevice d = true) :
    (parseArguments ov first rest).parsedSerialNumbers.Sublist
        (rest.map (List.map toupper)) ∧
    (∀ pre suffix, rest = pre ++ suffix →
      (parseArguments ov first pre).parseError = false →
      (parseArguments ov first pre).numberOfSerialNumbers < MAXIMUM_NUMBER_OF_DEVICES) ∧
    main ov (first :: rest) devices =
      ⟨0, Output.version :: (parseArguments ov first rest).parsedSerialNumbers.flatMap
        fun serial =>
          (devices.filter fun device =>
              conformingDevice device && (normalizedIdentifier device == serial)).flatMap
            (exchange (parseArguments ov first rest).operationType
              (parseArguments ov first rest).settings) ++
          (if devices.any fun device =>
              conformingDevice device && (normalizedIdentifier device == serial)
            then [] else [Output.couldNotFind serial])⟩ := by
  refine ⟨parseArguments_serials_order ov first rest, ?_, ?_⟩
  · intro pre suffix hrest hpre
    have := numberOfSerialNumbers_mono ov first pre suffix hpre
    rw [← hrest] at this
    exact lt_of_le_of_lt this hcount
  rw [main_performAction ov first rest devices hparse hfilter hrepeat]
  unfold performAction
  dsimp only
  rw [if_neg hop, if_neg (by simpa using hdevices),
    if_neg (by
      unfold ParseState.numberOfSerialNumbers
      intro h
      exact hsome (List.length_eq_zero.1 h))]
  rw [sendToSerials_plain _ _ devices hplain _ _ length_zeroed_buffer
    (parseArguments_serials_length ov first rest)]
  rfl

/-- C12, witness: `RESTORE` with three identifiers, the second of which matches no device
and the third of which matches two. -/
theorem C12_requested_serials_witness :
    main atoiZero
        [cstr "RESTORE", cstr "00000000000000bb", cstr "00000000000000CC",
          cstr "0123456789abcdef"]
        [echoDevice "0384_0123456789ABCDEF", echoDevice "AudioMoth",
          silentDevice "0192_00000000000000BB", echoDevice "0250_0123456789ABCDEF"] =
      ⟨0, [Output.version,
        Output.written (cstr "/dev/hidraw1") ([0, 4] ++ List.replicate 62 0),
        Output.problem (cstr "00000000000000BB"),
        Output.couldNotFind (cstr "00000000000000CC"),
        Output.written (cstr "/dev/hidraw0") ([0, 4] ++ List.replicate 62 0),
        Output.sent (cstr "RESTORE") (cstr "0123456789ABCDEF"),
        Output.written (cstr "/dev/hidraw0") ([0, 4] ++ List.replicate 62 0),
        Output.sent (cstr "RESTORE") (cstr "0123456789ABCDEF")]⟩ :=
  (C12_requested_serials atoiZero (cstr "RESTORE")
    [cstr "00000000000000bb", cstr "00000000000000CC", cstr "0123456789abcdef"]
    [echoDevice "0384_0123456789ABCDEF", echoDevice "AudioMoth",
      silentDevice "0192_00000000000000BB", echoDevice "0250_0123456789ABCDEF"]
    (by decide) (by decide) (by decide) (by decide) (by decide) (by decide) (by simp)
    (by decide)).2.2.trans (by decide)

/-! ## Conforming descriptors -/

theorem indexOf_eq_four (a b c e f : Nat) (t : List Nat) :
    (a :: b :: c :: e :: f :: t).indexOf 95 = 4 ↔
      f = 95 ∧ a ≠ 95 ∧ b ≠ 95 ∧ c ≠ 95 ∧ e ≠ 95 := by
  simp only [List.indexOf_cons, beq_iff_eq, cond_eq_if]
  split_ifs <;> simp_all

theorem conformingString_iff (descriptor : List Nat) :
    conformingString descriptor = true ↔
      descriptor.length = 21 ∧ descriptor.getD 4 0 = 95 ∧
        ∀ i, i < 4 → descriptor.getD i 0 ≠ 95 := by
  unfold conformingString
  simp only [Bool.and_eq_true, decide_eq_true_eq]
  constructor
  · rintro ⟨h4, h21⟩
    match descriptor, h21 with
    | a :: b :: c :: e :: f :: t, h21 =>
      obtain ⟨hf, ha, hb, hc, he⟩ := (indexOf_eq_four a b c e f t).1 h4
      refine ⟨h21, hf, fun i hi => ?_⟩
      interval_cases i
      · exact ha
      · exact hb
      · exact hc
      · exact he
  · rintro ⟨h21, hf, hi⟩
    match descriptor, h21 with
    | a :: b :: c :: e :: f :: t, h21 =>
      exact ⟨(indexOf_eq_four a b c e f t).2
        ⟨hf, hi 0 (by omega), hi 1 (by omega), hi 2 (by omega), hi 3 (by omega)⟩, h21⟩

theorem conformingDevice_iff (device : hid_device_info) :
    conformingDevice device = true ↔
      device.path.isSome = true ∧ ∃ descriptor, descriptorOf device = some descriptor ∧
        descriptor.length = 21 ∧ descriptor.getD 4 0 = 95 ∧
        (∀ i, i < 4 → descriptor.getD i 0 ≠ 95) ∧
        normalizedIdentifier device = descriptor.drop 5 := by
  unfold conformingDevice normalizedIdentifier
  cases hd : descriptorOf device with
  | none => simp
  | some d =>
    simp only [Bool.and_eq_true, Option.some.injEq, Option.getD_some, exists_eq_left']
    rw [conformingString_iff]
    constructor
    · rintro ⟨h1, h2, h3, h4⟩
      exact ⟨h1, h2, h3, h4, trivial⟩
    · rintro ⟨h1, h2, h3, h4, -⟩
      exact ⟨h1, h2, h3, h4⟩

/-- C14, counterexample: a descriptor with its `_` at zero-based index 5 and 16 characters
after it passes the test of the claim but the device is not listed; a descriptor with its
`_` at zero-based index 4 and 16 characters after it fails the test of the claim but the
device is listed. -/
theorem C14_counterexample_index_five :
    conformingAsClaimed (cstr "00384_0123456789ABCDEF") = true ∧
      main atoiZero [cstr "LIST"] [echoDevice "00384_0123456789ABCDEF"] =
        ⟨0, [Output.version]⟩ ∧
      conformingAsClaimed (cstr "0384_0123456789ABCDEF") = false ∧
      main atoiZero [cstr "LIST"] [echoDevice "0384_0123456789ABCDEF"] =
        ⟨0, [Output.version, Output.listed (cstr "0123456789ABCDEF") (cstr "384")]⟩ := by
  decide

theorem listedSerials_listing (devices : List hid_device_info) :
    listedSerials (devices.map listing) = devices.map normalizedIdentifier := by
  induction devices with
  | nil => rfl
  | cons d t ih =>
    unfold listedSerials at ih ⊢
    rw [List.map_cons, List.map_cons, List.filterMap_cons, ih]
    rfl

/-- C14, amended: the test on the buffer holds iff the descriptor (the C string of the
buffer) has 21 characters, the separator `_` at zero-based index 4 and no `_` before it,
that is, its first `_` is followed from offset 5 on by exactly 16 characters; the
normalized identifier is that suffix.  A device is conforming iff it has a path and such a
descriptor.  When no wide serial string of a device holds a code of 0xD800..0xD8FF, the
three loops leave out every other device, whatever the buffer `currentSerialNumber` held
before: `LIST` prints one line for each conforming device, with its normalized identifier,
and no other line; an operation sent to all devices makes its exchanges with the
conforming devices only; and the scan for a requested identifier (16 characters, as the
parser stores them) makes its exchanges with the conforming devices of that normalized
identifier only, and sets `found` only for one of them. -/
theorem C14_conforming_descriptor (operationType : operationType_t)
    (settings : configSettings_t) (devices : List hid_device_info) (serial : List Nat)
    (buffer : List Nat) (found : Bool) (hbuffer : buffer.length = SERIAL_NUMBER_BUFFER_SIZE)
    (hplain : ∀ d ∈ devices, plainDevice d = true)
    (hserial : serial.length = USB_SERIAL_NUMBER_LENGTH) :
    (∀ current, hasSerialNumber current = true ↔
      (cString current).length = 21 ∧ (cString current).getD 4 0 = 95 ∧
        ∀ i, i < 4 → (cString current).getD i 0 ≠ 95) ∧
    (∀ current, hasSerialNumber current = true →
      serialNumberString current = (cString current).drop 5 ∧
      (serialNumberString current).length = 16 ∧
      cString current = (cString current).take 4 ++ 95 :: serialNumberString current) ∧
    (∀ device, conformingDevice device = true ↔
      device.path.isSome = true ∧ ∃ descriptor, descriptorOf device = some descriptor ∧
        descriptor.length = 21 ∧ descriptor.getD 4 0 = 95 ∧
        (∀ i, i < 4 → descriptor.getD i 0 ≠ 95) ∧
        normalizedIdentifier device = descriptor.drop 5) ∧
    ((listDevices devices buffer).2.length = (devices.filter conformingDevice).length ∧
      listedSerials (listDevices devices buffer).2 =
        (devices.filter conformingDevice).map normalizedIdentifier) ∧
    (sendToAll operationType settings devices buffer).2 =
      (devices.filter conformingDevice).flatMap (exchange operationType settings) ∧
    ((sendToSerial operationType settings serial devices buffer found).2.2 =
        (devices.filter fun device =>
            conformingDevice device && (normalizedIdentifier device == serial)).flatMap
          (exchange operationType settings) ∧
      (sendToSerial operationType settings serial devices buffer found).2.1 =
        (found || devices.any fun device =>
          conformingDevice device && (normalizedIdentifier device == serial))) := by
  have htest : ∀ current, hasSerialNumber current = true ↔
      (cString current).length = 21 ∧ (cString current).getD 4 0 = 95 ∧
        ∀ i, i < 4 → (cString current).getD i 0 ≠ 95 := by
    intro current
    rw [hasSerialNumber_eq, conformingString_iff]
  have hlist := (listDevices_plain devices buffer hbuffer hplain).2
  have hone := sendToSerial_plain operationType settings serial hserial devices buffer found
    hbuffer hplain
  refine ⟨htest, ?_, conformingDevice_iff,
    ⟨by rw [hlist, List.length_map], by rw [hlist, listedSerials_listing]⟩,
    (sendToAll_plain operationType settings devices buffer hbuffer hplain).2,
    ⟨hone.2.2, hone.2.1⟩⟩
  intro current hc
  obtain ⟨h21, h4, -⟩ := (htest current).1 hc
  unfold serialNumberString USB_SERIAL_NUMBER_OFFSET
  refine ⟨rfl, by rw [List.length_drop, h21], ?_⟩
  generalize cString current = d at h21 h4
  match d, h21 with
  | a :: b :: c :: e :: f :: t, _ =>
    simp only [List.getD_cons_succ, List.getD_cons_zero] at h4
    rw [h4]
    rfl

/-- C14, witness: of five devices only the one whose first `_` is at index 4 with 16
characters after it is listed. -/
theorem C14_conforming_descriptor_witness :
    listedSerials (listDevices
        [echoDevice "00384_0123456789ABCDEF", echoDevice "_384_0123456789ABCDEF",
          echoDevice "0384_0123456789ABCDE", echoDevice "0384_0123456789ABCDEF",
          echoDevice "0384_0123456789ABCDEF0"]
        (List.replicate SERIAL_NUMBER_BUFFER_SIZE 0)).2 =
      [cstr "0123456789ABCDEF"] :=
  (C14_conforming_descriptor RESTORE_OP defaultConfigSettings
    [echoDevice "00384_0123456789ABCDEF", echoDevice "_384_0123456789ABCDEF",
      echoDevice "0384_0123456789ABCDE", echoDevice "0384_0123456789ABCDEF",
      echoDevice "0384_0123456789ABCDEF0"]
    (cstr "0123456789ABCDEF") (List.replicate SERIAL_NUMBER_BUFFER_SIZE 0) false
    (List.length_replicate _ _) (by decide) (by decide)).2.2.2.1.2.trans (by decide)

/-! ## The frequency label -/

theorem main_list (ov : List Nat → Int) (first : List Nat) (devices : List hid_device_info)
    (hlist : first.map toupper = cstr "LIST") :
    main ov [first] devices =
      ⟨0, Output.version ::
        (listDevices devices (List.replicate SERIAL_NUMBER_BUFFER_SIZE 0)).2⟩ := by
  have hp : parseArguments ov first [] = { initialState with operationType := LIST_OP } := by
    unfold parseArguments
    rw [parseFirst_list first _ hlist]
    rfl
  unfold main
  dsimp only
  rw [hp]
  rfl

theorem dropWhile_digits (l : List Nat) (h : l.all isDigit = true) :
    (l.dropWhile fun c => decide (c ≤ 48)) = l.dropWhile fun c => c == 48 := by
  induction l with
  | nil => rfl
  | cons c t ih =>
    simp only [List.all_cons, Bool.and_eq_true] at h
    have hc : 48 ≤ c := by
      have := h.1
      unfold isDigit at this
      simp only [Bool.and_eq_true, decide_eq_true_eq] at this
      exact this.1
    rw [List.dropWhile_cons, List.dropWhile_cons]
    by_cases h48 : c = 48
    · rw [if_pos (by simp only [decide_eq_true_eq]; omega), if_pos (by simp [h48])]
      exact ih h.2
    · rw [if_neg (by simp only [decide_eq_true_eq]; omega), if_neg (by simp [h48])]

/-- C20, counterexample: for the descriptor `0A84_0123456789ABCDEF` the rule of the claim
gives the label `84`, and `LIST` prints the label `A84`. -/
theorem C20_counterexample_letter :
    frequencyLabelAsClaimed (cstr "0A84_0123456789ABCDEF") = cstr "84" ∧
      main atoiZero [cstr "LIST"] [echoDevice "0A84_0123456789ABCDEF"] =
        ⟨0, [Output.version, Output.listed (cstr "0123456789ABCDEF") (cstr "A84")]⟩ := by
  decide

/-- C20, amended: when no wide serial string of a device holds a code of 0xD800..0xD8FF
and the first character of every conforming descriptor is not above `'0'`, the frequency
label printed by `LIST` for a conforming descriptor is obtained from the four characters
before the separator by dropping leading characters until the first character above `'0'`
is seen and keeping everything from that character on (`frequencyLabel`); the label then has
at most three characters, so that the array `frequencyString` keeps a terminator.  The loop
of the source stores these characters for every buffer.  For a prefix of decimal digits the
label is the prefix without its leading zeros, and it is empty when every digit is zero. -/
theorem C20_frequency_label (ov : List Nat → Int) (first : List Nat)
    (devices : List hid_device_info) (hlist : first.map toupper = cstr "LIST")
    (hplain : ∀ d ∈ devices, plainDevice d = true)
    (hfirst : ∀ d ∈ devices, conformingDevice d = true →
      ((descriptorOf d).getD []).getD 0 0 ≤ 48) :
    main ov [first] devices =
        ⟨0, Output.version :: (devices.filter conformingDevice).map fun device =>
          Output.listed (normalizedIdentifier device)
            ((((descriptorOf device).getD []).take 4).dropWhile fun c => decide (c ≤ 48))⟩ ∧
      (∀ d ∈ devices, conformingDevice d = true →
        ((((descriptorOf d).getD []).take 4).dropWhile fun c => decide (c ≤ 48)).length ≤ 3) ∧
      (∀ current, frequencyString current =
        ([current.getD 0 0, current.getD 1 0, current.getD 2 0, current.getD 3 0]).dropWhile
          fun c => decide (c ≤ 48)) ∧
      (∀ descriptor : List Nat, (descriptor.take 4).all isDigit = true →
        frequencyLabel descriptor = (descriptor.take 4).dropWhile fun c => c == 48) ∧
      (∀ descriptor : List Nat, ((descriptor.take 4).all fun c => c == 48) = true →
        frequencyLabel descriptor = []) := by
  refine ⟨?_, ?_, frequencyString_eq, fun d hd => dropWhile_digits _ hd, ?_⟩
  · rw [main_list ov first devices hlist,
      (listDevices_plain devices _ (List.length_replicate _ _) hplain).2]
    rfl
  · intro d hd hc
    have h0 := hfirst d hd hc
    obtain ⟨-, descriptor, hdesc, h21, -⟩ := (conformingDevice_iff d).1 hc
    rw [hdesc] at h0 ⊢
    simp only [Option.getD_some] at h0 ⊢
    match descriptor, h21 with
    | a :: b :: c :: e :: f :: t, _ =>
      simp only [List.getD_cons_zero] at h0
      simp only [List.take_succ_cons, List.take_zero]
      rw [List.dropWhile_cons, if_pos (by simp only [decide_eq_true_eq]; exact h0)]
      exact le_trans (List.dropWhile_sublist _).length_le (by simp)
  · intro d hd
    unfold frequencyLabel
    rw [List.dropWhile_eq_nil_iff]
    intro c hc
    have := List.all_eq_true.1 hd c hc
    simp only [beq_iff_eq] at this
    simp [this]

/-- C20, witness: the labels of `0384`, `0000`, `0008` and `0250` are `384`, the empty
string, `8` and `250`. -/
theorem C20_frequency_label_witness :
    main atoiZero [cstr "list"]
        [echoDevice "0384_0123456789ABCDEF", echoDevice "0000_00000000000000AA",
          echoDevice "0008_00000000000000BB", echoDevice "0250_00000000000000CC"] =
      ⟨0, [Output.version,
        Output.listed (cstr "0123456789ABCDEF") (cstr "384"),
        Output.listed (cstr "00000000000000AA") [],
        Output.listed (cstr "00000000000000BB") (cstr "8"),
        Output.listed (cstr "00000000000000CC") (cstr "250")]⟩ :=
  (C20_frequency_label atoiZero (cstr "list")
    [echoDevice "0384_0123456789ABCDEF", echoDevice "0000_00000000000000AA",
      echoDevice "0008_00000000000000BB", echoDevice "0250_00000000000000CC"]
    (by decide) (by decide) (by decide)).1.trans (by decide)

/-- C21: for a buffer of `n > 0` bytes and a wide string (the codes before the first 0 of
`src`) without a code of 0xD800..0xD8FF among its first `n - 1` characters,
`convertToNarrow` returns true and leaves in the buffer a C string of the first `n - 1`
characters at most, in which every code below 128 is copied unchanged and every code of
128 or more is `'?'` (63): the string has the length of the wide string when that is below
`n`, and it is cut to the first `n - 1` characters when the wide string has more than
`n - 1`.  For a NULL source the function returns false and leaves the buffer as it is,
whatever the buffer length. -/
theorem C21_narrow_conversion (src dest : List Nat) (n : Nat) (hn : 0 < n)
    (hdest : n ≤ dest.length)
    (hplain : isPlainWide ((src.takeWhile fun c => c != 0).take (n - 1)) = true) :
    (convertToNarrow (some src) dest (n : Int)).1 = true ∧
      (cString (convertToNarrow (some src) dest (n : Int)).2).length =
        min (src.takeWhile fun c => c != 0).length (n - 1) ∧
      (∀ k, k < min (src.takeWhile fun c => c != 0).length (n - 1) →
        (src.getD k 0 < 128 →
          (cString (convertToNarrow (some src) dest (n : Int)).2).getD k 0 = src.getD k 0) ∧
        (128 ≤ src.getD k 0 →
          (cString (convertToNarrow (some src) dest (n : Int)).2).getD k 0 = 63)) ∧
      ((src.takeWhile fun c => c != 0).length < n →
        (cString (convertToNarrow (some src) dest (n : Int)).2).length =
          (src.takeWhile fun c => c != 0).length) ∧
      (n - 1 < (src.takeWhile fun c => c != 0).length →
        (cString (convertToNarrow (some src) dest (n : Int)).2).length = n - 1) ∧
      (∀ bufferLength : Int, convertToNarrow none dest bufferLength = (false, dest)) := by
  have hc : cString (convertToNarrow (some src) dest (n : Int)).2 =
      ((src.takeWhile fun c => c != 0).take (n - 1)).map narrowChar := by
    rw [convertToNarrow_string src dest n hn hdest hplain]
    apply cString_append_zero
    intro c hmem
    obtain ⟨x, hx, rfl⟩ := List.mem_map.1 hmem
    have := List.mem_takeWhile_imp (List.mem_of_mem_take hx)
    exact narrowChar_ne_zero x (by simpa using this)
  have hl : (cString (convertToNarrow (some src) dest (n : Int)).2).length =
      min (src.takeWhile fun c => c != 0).length (n - 1) := by
    rw [hc, List.length_map, List.length_take, Nat.min_comm]
  refine ⟨by rw [convertToNarrow_string src dest n hn hdest hplain], hl, ?_, ?_, ?_,
    fun _ => rfl⟩
  · intro k hk
    have hk1 : k < (src.takeWhile fun c => c != 0).length := lt_of_lt_of_le hk (Nat.min_le_left _ _)
    have hk2 : k < n - 1 := lt_of_lt_of_le hk (Nat.min_le_right _ _)
    have hsrc : src.getD k 0 = (src.takeWhile fun c => c != 0).getD k 0 :=
      getD_cString src k hk1
    have hval : (cString (convertToNarrow (some src) dest (n : Int)).2).getD k 0 =
        narrowChar (src.getD k 0) := by
      rw [hc, hsrc, List.getD_eq_getElem _ _ (by rw [List.length_map, List.length_take]; omega),
        List.getElem_map, List.getElem_take, List.getD_eq_getElem _ _ hk1]
    rw [hval]
    unfold narrowChar
    constructor
    · intro h
      rw [if_pos h]
    · intro h
      rw [if_neg (by omega)]
  · intro h
    rw [hl]
    omega
  · intro h
    rw [hl]
    omega

/-- C21, witness: the wide string `H`, `é`, U+4E2D (followed by its terminator) becomes
`H??` in a buffer of 8 bytes, and the wide string `H`, `é`, 0xD800 is cut to `H?` in a
buffer of 3 bytes. -/
theorem C21_narrow_conversion_witness :
    isPlainWide (([72, 233, 20013, 0, 99].takeWhile fun c => c != 0).take (8 - 1)) = true ∧
      cString (convertToNarrow (some [72, 233, 20013, 0, 99]) (List.replicate 8 7) 8).2 =
        [72, 63, 63] ∧
      (cString (convertToNarrow (some [72, 233, 20013, 0, 99]) (List.replicate 8 7)
        ((8 : Nat) : Int)).2).length = 3 ∧
      cString (convertToNarrow (some [72, 233, 0xD800, 0]) [7, 7, 7] 3).2 = [72, 63] ∧
      (cString (convertToNarrow (some [72, 233, 0xD800, 0]) [7, 7, 7]
        ((3 : Nat) : Int)).2).length = 2 :=
  ⟨by decide, by decide,
    (C21_narrow_conversion [72, 233, 20013, 0, 99] (List.replicate 8 7) 8 (by decide)
      (by decide) (by decide)).2.2.2.1 (by decide),
    by decide,
    (C21_narrow_conversion [72, 233, 0xD800, 0] [7, 7, 7] 3 (by decide)
      (by decide) (by decide)).2.2.2.2.1 (by decide)⟩

/-! ## The table of serial numbers -/

/-- Arguments that are all serial numbers, in a run of an operation other than LIST, are
all stored, in order and in upper case: the loop has no test on their number. -/
theorem parseLoop_serial_tokens (ov : List Nat → Int) :
    ∀ (l : List (List Nat)) (st : ParseState), st.operationType ≠ LIST_OP →
      st.parseError = false → (∀ t ∈ l, (parseSerialNumber t).isSome = true) →
      parseLoop ov st l =
        { st with parsedSerialNumbers := st.parsedSerialNumbers ++ l.map (List.map toupper) } := by
  intro l
  induction l with
  | nil =>
    intro st _ _ _
    simp [parseLoop]
  | cons a rest ih =>
    intro st hop herr hl
    obtain ⟨s, hs⟩ := Option.isSome_iff_exists.1 (hl a (List.mem_cons_self _ _))
    have hsa : s = a.map toupper := ((parseSerialNumber_eq_some a s).1 hs).2.2
    rw [parseLoop_cons ov st a rest herr, parseStep_serial ov st a s rest hs hop]
    dsimp only
    rw [ih { st with parsedSerialNumbers := st.parsedSerialNumbers ++ [s] } hop herr
      (fun t ht => hl t (List.mem_cons_of_mem _ ht)), hsa]
    simp only [List.map_cons, List.append_assoc, List.singleton_append]

theorem decimalSerial_digits (k : Nat) : (decimalSerial k).all isDigit = true := by
  unfold decimalSerial
  have h1 : k / 100 % 10 < 10 := Nat.mod_lt _ (by decide)
  have h2 : k / 10 % 10 < 10 := Nat.mod_lt _ (by decide)
  have h3 : k % 10 < 10 := Nat.mod_lt _ (by decide)
  simp only [List.all_append, List.all_replicate, List.all_cons, List.all_nil, isDigit,
    Bool.and_eq_true, decide_eq_true_eq, Bool.or_eq_true, Bool.and_true]
  refine ⟨by decide, ?_⟩
  omega

theorem parseSerialNumber_decimalSerial (k : Nat) :
    parseSerialNumber (decimalSerial k) = some (decimalSerial k) := by
  rw [parseSerialNumber_eq_some]
  have hd := decimalSerial_digits k
  refine ⟨by simp [decimalSerial, USB_SERIAL_NUMBER_LENGTH], ?_,
    (map_toupper_of_digits _ hd).symm⟩
  intro c hc
  have hcd := List.all_eq_true.1 hd c hc
  rw [toupper_of_isDigit c hcd]
  unfold isDigit at hcd
  unfold isHexUpper
  rw [hcd]
  rfl

theorem decimalSerial_injective (j k : Nat) (hj : j < 1000) (hk : k < 1000)
    (h : decimalSerial j = decimalSerial k) : j = k := by
  unfold decimalSerial at h
  have h' := List.append_cancel_left h
  simp only [List.cons.injEq, Nat.add_left_cancel_iff, and_true] at h'
  omega

/-- The arguments `RESTORE` and the serial tokens of the numbers below `count`: all the
tokens are stored. -/
theorem parseArguments_manySerials (ov : List Nat → Int) (count : Nat) :
    parseArguments ov (cstr "RESTORE") (manySerials count) =
      { initialState with
        operationType := RESTORE_OP
        parsedSerialNumbers := manySerials count } := by
  unfold parseArguments
  rw [parseFirst_restore _ _ (by decide)]
  dsimp only
  rw [parseLoop_serial_tokens ov _ _ (by decide) rfl]
  · have hmap : (manySerials count).map (List.map toupper) = manySerials count := by
      unfold manySerials
      rw [List.map_map]
      apply List.map_congr_left
      intro k _
      exact map_toupper_of_digits _ (decimalSerial_digits k)
    rw [hmap]
    rfl
  · intro t ht
    unfold manySerials at ht
    obtain ⟨k, -, rfl⟩ := List.mem_map.1 ht
    rw [parseSerialNumber_decimalSerial]
    rfl

/-- C22, the code at the failing input: `RESTORE` followed by the 257 serial tokens
`0000000000000000` to `0000000000000256`.  After the first 256 of them the parser has no
error and `numberOfSerialNumbers` is 256, the number of entries of the table, so that the
257th token is tested with `parsedSerialNumbers[256]` as destination; it is stored too,
`numberOfSerialNumbers` becomes 257, and the run goes on to the end and returns 0. -/
theorem C22_serial_table_overflow :
    (parseArguments atoiZero (cstr "RESTORE") (manySerials 256)).parseError = false ∧
      (parseArguments atoiZero (cstr "RESTORE") (manySerials 256)).numberOfSerialNumbers =
        MAXIMUM_NUMBER_OF_DEVICES ∧
      manySerials 257 = manySerials 256 ++ [cstr "0000000000000256"] ∧
      (parseArguments atoiZero (cstr "RESTORE") (manySerials 257)).parseError = false ∧
      (parseArguments atoiZero (cstr "RESTORE") (manySerials 257)).numberOfSerialNumbers =
        MAXIMUM_NUMBER_OF_DEVICES + 1 ∧
      main atoiZero (cstr "RESTORE" :: manySerials 257) [] =
        ⟨0, [Output.version, Output.noDevicesFound]⟩ := by
  have hlen : ∀ count, (manySerials count).length = count := by
    intro count
    simp [manySerials]
  have hlast : manySerials 257 = manySerials 256 ++ [cstr "0000000000000256"] := by
    unfold manySerials
    rw [List.range_succ, List.map_append]
    rfl
  refine ⟨by rw [parseArguments_manySerials]; rfl, ?_, hlast,
    by rw [parseArguments_manySerials]; rfl, ?_, ?_⟩
  · rw [parseArguments_manySerials]
    exact hlen 256
  · rw [parseArguments_manySerials]
    exact hlen 257
  · have hrepeat : repeatedSerialNumber (manySerials 257) = false := by
      cases hr : repeatedSerialNumber (manySerials 257) with
      | false => rfl
      | true =>
        exfalso
        rw [repeatedSerialNumber_iff_eq] at hr
        · obtain ⟨i, j, hi, hj, hne, h⟩ := hr
          rw [hlen] at hi hj
          unfold manySerials at h
          rw [List.getD_eq_getElem _ _ (by simp; omega),
            List.getD_eq_getElem _ _ (by simp; omega)] at h
          simp only [List.getElem_map, List.getElem_range] at h
          exact hne (decimalSerial_injective i j (by omega) (by omega) h)
        · intro s hs
          unfold manySerials at hs
          obtain ⟨k, -, rfl⟩ := List.mem_map.1 hs
          simp [decimalSerial, USB_SERIAL_NUMBER_LENGTH]
    rw [main_performAction atoiZero _ _ [] (by rw [parseArguments_manySerials]; rfl)
      (by rw [parseArguments_manySerials]; rfl)
      (by rw [parseArguments_manySerials]; exact hrepeat), parseArguments_manySerials]
    rfl

/-! ## The stores of the narrow conversion -/

/-- The final index of `convertToNarrowStoresLoop` is that of `convertToNarrowLoop`,
whatever the buffer. -/
theorem convertToNarrowStoresLoop_index (src : List Nat) (bufferLength : Int) :
    ∀ (fuel i : Nat) (dest : List Nat),
      (convertToNarrowStoresLoop src bufferLength fuel i).1 =
        (convertToNarrowLoop src bufferLength fuel i dest).1 := by
  intro fuel
  induction fuel with
  | zero =>
    intro i dest
    rfl
  | succ fuel ih =>
    intro i dest
    rw [convertToNarrowStoresLoop, convertToNarrowLoop]
    by_cases hc : src.getD i 0 ≠ 0 ∧ (i : Int) < bufferLength - 1
    · rw [if_pos hc, if_pos hc]
      dsimp only
      by_cases h1 : src.getD i 0 < 128
      · rw [if_pos h1, if_pos h1]
        exact ih _ _
      · rw [if_neg h1, if_neg h1]
        by_cases h2 : 0xD800 ≤ src.getD i 0 ∧ src.getD i 0 ≤ 0xD8FF
        · rw [if_pos h2, if_pos h2]
          exact ih _ _
        · rw [if_neg h2, if_neg h2]
          exact ih _ _
    · rw [if_neg hc, if_neg hc]

/-- Every store of the loop is below `bufferLength - 1`, and the final index is at most
`bufferLength` when the loop starts below it. -/
theorem convertToNarrowStoresLoop_bound (src : List Nat) (n : Nat) :
    ∀ (fuel i : Nat), i ≤ n →
      (∀ k ∈ (convertToNarrowStoresLoop src (n : Int) fuel i).2, k + 1 < n) ∧
        (convertToNarrowStoresLoop src (n : Int) fuel i).1 ≤ n := by
  intro fuel
  induction fuel with
  | zero =>
    intro i hi
    exact ⟨fun k hk => by simp [convertToNarrowStoresLoop] at hk, hi⟩
  | succ fuel ih =>
    intro i hi
    rw [convertToNarrowStoresLoop]
    by_cases hc : src.getD i 0 ≠ 0 ∧ (i : Int) < (n : Int) - 1
    · rw [if_pos hc]
      have hlt : i + 1 < n := by omega
      dsimp only
      split_ifs
      · refine ⟨fun k hk => ?_, (ih (i + 1) (by omega)).2⟩
        rcases List.mem_cons.1 hk with h | h
        · omega
        · exact (ih (i + 1) (by omega)).1 k h
      · refine ⟨fun k hk => ?_, (ih (i + 1 + 1) (by omega)).2⟩
        rcases List.mem_cons.1 hk with h | h
        · omega
        · exact (ih (i + 1 + 1) (by omega)).1 k h
      · refine ⟨fun k hk => ?_, (ih (i + 1) (by omega)).2⟩
        rcases List.mem_cons.1 hk with h | h
        · omega
        · exact (ih (i + 1) (by omega)).1 k h
    · rw [if_neg hc]
      exact ⟨fun k hk => by simp at hk, hi⟩

/-- The stores of the loop on `n - 2` letters `A` followed by the code 0xD800, from index
`i` on: the indices up to `n - 2`, and the final index is `n`. -/
theorem convertToNarrowStoresLoop_surrogate (n : Nat) :
    ∀ (k i fuel : Nat), i + k + 2 = n → k + 1 ≤ fuel →
      convertToNarrowStoresLoop (List.replicate (n - 2) 65 ++ [0xD800]) (n : Int) fuel i =
        (n, List.range' i (k + 1)) := by
  have hlen : (List.replicate (n - 2) 65 ++ [0xD800]).length = n - 2 + 1 := by
    simp only [List.length_append, List.length_replicate, List.length_singleton]
  have hend : ∀ fuel, convertToNarrowStoresLoop (List.replicate (n - 2) 65 ++ [0xD800])
      (n : Int) fuel n = (n, []) := by
    intro fuel
    cases fuel with
    | zero => rfl
    | succ fuel =>
      rw [convertToNarrowStoresLoop, if_neg]
      intro h
      have := h.2
      omega
  intro k
  induction k with
  | zero =>
    intro i fuel hi hf
    obtain ⟨fuel, rfl⟩ : ∃ f, fuel = f + 1 := ⟨fuel - 1, by omega⟩
    have hget : (List.replicate (n - 2) 65 ++ [0xD800]).getD i 0 = 0xD800 := by
      have : i = (List.replicate (n - 2) 65).length := by
        rw [List.length_replicate]
        omega
      rw [List.getD_eq_getElem _ _ (by rw [hlen]; omega), List.getElem_append_right (by omega)]
      simp [this]
    rw [convertToNarrowStoresLoop, hget, if_pos ⟨by decide, by omega⟩]
    dsimp only
    rw [if_neg (by decide), if_pos (by decide)]
    have : i + 1 + 1 = n := by omega
    rw [this, hend]
    rfl
  | succ k ih =>
    intro i fuel hi hf
    obtain ⟨fuel, rfl⟩ : ∃ f, fuel = f + 1 := ⟨fuel - 1, by omega⟩
    have hget : (List.replicate (n - 2) 65 ++ [0xD800]).getD i 0 = 65 := by
      rw [List.getD_eq_getElem _ _ (by rw [hlen]; omega),
        List.getElem_append_left (by rw [List.length_replicate]; omega)]
      simp
    rw [convertToNarrowStoresLoop, hget, if_pos ⟨by decide, by omega⟩]
    dsimp only
    rw [if_pos (by decide), ih (i + 1) fuel (by omega) (by omega)]
    rfl

/-- In a buffer of `n >= 2` bytes, the wide string of `n - 2` letters `A` followed by the
code 0xD800 makes `convertToNarrow` store at the indices 0 to `n - 2` and then store the
terminator at index `n`. -/
theorem convertToNarrowStores_surrogate (n : Nat) (hn : 2 ≤ n) :
    convertToNarrowStores (some (List.replicate (n - 2) 65 ++ [0xD800])) (n : Int) =
      List.range' 0 (n - 1) ++ [n] := by
  unfold convertToNarrowStores
  dsimp only
  rw [Int.toNat_ofNat, convertToNarrowStoresLoop_surrogate n (n - 2) 0 n (by omega) (by omega),
    if_pos (by omega)]
  have : n - 2 + 1 = n - 1 := by omega
  rw [this]

/-- On a wide string without a code of 0xD800..0xD8FF every store of `convertToNarrow`,
that of the terminator included, is below the buffer length `n > 0`. -/
theorem convertToNarrowStores_plain (src : List Nat) (n : Nat) (hn : 0 < n)
    (hplain : isPlainWide (src.takeWhile fun c => c != 0) = true) :
    ∀ k ∈ convertToNarrowStores (some src) (n : Int), k < n := by
  intro k hk
  unfold convertToNarrowStores at hk
  dsimp only at hk
  rw [Int.toNat_ofNat, if_pos (by omega)] at hk
  rcases List.mem_append.1 hk with h | h
  · have := (convertToNarrowStoresLoop_bound src n n 0 (by omega)).1 k h
    omega
  · rw [List.mem_singleton] at h
    rw [h, convertToNarrowStoresLoop_index src (n : Int) n 0 (List.replicate n 0),
      convertToNarrowLoop_string src n n 0 (List.replicate n 0) (by omega) (by omega)
        (by simp) (by rw [List.drop_zero]; exact all_take _ _ _ hplain)]
    dsimp only
    rw [List.length_take]
    have := Nat.min_le_left (n - 1 - 0) ((src.drop 0).takeWhile fun c => c != 0).length
    omega

/-- C23, the code at the failing input: with a buffer of 2 bytes and the wide string of the
single code 0xD800, `convertToNarrow` stores `'?'` at index 0, advances the index by two
and stores the terminator at index 2, which is not below 2; in the model, where a store
past the end of the buffer is dropped, the 2-byte buffer then holds two characters and no
terminator.  With the buffer of `SERIAL_NUMBER_BUFFER_SIZE` bytes of the program and a wide
string of 1022 letters followed by 0xD800, the last store is at index 1024. -/
theorem C23_terminator_past_buffer :
    convertToNarrowStores (some [0xD800]) 2 = [0, 2] ∧
      convertToNarrow (some [0xD800]) [7, 7] 2 = (true, [63, 7]) ∧
      (cString (convertToNarrow (some [0xD800]) [7, 7] 2).2).length = 2 ∧
      (convertToNarrowStores (some (List.replicate 1022 65 ++ [0xD800]))
        SERIAL_NUMBER_BUFFER_SIZE).getLast? = some SERIAL_NUMBER_BUFFER_SIZE := by
  refine ⟨by decide, by decide, by decide, ?_⟩
  have h := convertToNarrowStores_surrogate SERIAL_NUMBER_BUFFER_SIZE (by decide)
  have h2 : SERIAL_NUMBER_BUFFER_SIZE - 2 = 1022 := by decide
  rw [h2] at h
  rw [h, List.getLast?_append]
  rfl

end AudioMoth
